import Mathlib

/-!
Verification development for the InductorHtn core: a shallow embedding of the
HTN planner (`src/FXPlatform/Htn/HtnPlanner.cpp`), its domain catalog, and the
arithmetic operator library (`src/FXPlatform/Prolog/HtnArithmeticOperators.cpp`),
together with theorems checking the natural-language specification against it.

Files `HtnTerm.cpp`, `HtnTermFactory.cpp`, `HtnGoalResolver.cpp` and
`HtnRuleSet.cpp` are not part of the source tree available here; the few
definitions taken from them (term representation, `Unify`, `SubstituteUnifiers`,
`IsGround`, `HtnRuleSet.Update`, `Eval` dispatch) are modelled from the
specification and are marked as such in their doc comments.  Everything about
`HtnPlanner.cpp` itself is translated directly from that file.

The blocks of `HtnPlanner.cpp` guarded by the preprocessor flag
`INDHTN_TREE_SIBLING_TRACKING` are part of this embedding: the repository's
decomposition-tree tests (`src/Tests/Htn/HtnDecompositionTreeTests.cpp`,
e.g. `SiblingFlatteningSimple` and `SlipstreamScenario`) assert the
sibling-flattened tree parenting that only the guarded code produces, and the
specification (sections 4.5.3 and 4.5.7) describes the guarded behavior —
`methodScopeEnd` markers, the sibling-scope stack, and the descendant
restamping of `MarkPathSuccess` — as the system's behavior, so the build with
the flag defined is the program specified.
-/

/-- Modelled from the spec: term kinds ("syntactically typed as integer, float,
or atom based on lexical form", spec section 3); the header `HtnTerm.h` that
declares `HtnTermType` is not in the source tree. -/
inductive HtnTermType where
  | IntType
  | FloatType
  | AtomType
  | VariableType
  | CompoundType
deriving DecidableEq, Repr

/-- Modelled from the spec: the term representation of `HtnTerm.h` /
`HtnTerm.cpp` (not in the source tree).  A term is a variable `?Name`, a
0-arity constant (typed integer, float or atom by lexical form, precomputed
here as separate constructors), or a compound `Name(arg1, ..., argN)`.
C++ doubles are modelled as rationals. -/
inductive HtnTerm where
  | var (name : String)
  | constAtom (name : String)
  | constInt (n : Int)
  | constFloat (q : Rat)
  | compound (name : String) (args : List HtnTerm)
deriving Repr

mutual

/-- Modelled from the spec: structural term equality.  The C++ `TermFactory`
interns terms so `==` on interned terms is structural equality (spec section 3:
"two terms constructed with equal name and equal (interned) arguments refer to
the same object and compare equal"). -/
def HtnTerm.beq : HtnTerm → HtnTerm → Bool
  | .var a, .var b => a == b
  | .constAtom a, .constAtom b => a == b
  | .constInt a, .constInt b => a == b
  | .constFloat a, .constFloat b => a == b
  | .compound f as, .compound g bs => f == g && HtnTerm.beqList as bs
  | _, _ => false

/-- Structural equality on argument lists (helper for `HtnTerm.beq`). -/
def HtnTerm.beqList : List HtnTerm → List HtnTerm → Bool
  | [], [] => true
  | a :: as, b :: bs => HtnTerm.beq a b && HtnTerm.beqList as bs
  | _, _ => false

end

instance : BEq HtnTerm := ⟨HtnTerm.beq⟩

/-- Modelled from the spec: `HtnTerm::name()` (header not in the source tree).
Constants carry their lexical name; for the planner's bookkeeping ids the name
of an integer constant is its decimal form. -/
def HtnTerm.name : HtnTerm → String
  | .var s => s
  | .constAtom s => s
  | .constInt n => toString n
  | .constFloat q => toString q
  | .compound f _ => f

/-- Modelled from the spec: `HtnTerm::arguments()`. -/
def HtnTerm.arguments : HtnTerm → List HtnTerm
  | .compound _ args => args
  | _ => []

/-- Modelled from the spec: `lexical_cast<int>(term->name())` as used by the
planner for bookkeeping tasks such as `tryEnd(id)`: the ids are created via
`CreateConstant(lexical_cast<string>(nodeID))`, i.e. integer-typed constants,
and this reads the integer back. -/
def HtnTerm.intFromName : HtnTerm → Option Int
  | .constInt n => some n
  | _ => none

mutual

/-- Modelled from the spec: `IsGround` — a term is ground iff it contains no
variables (spec sections 3 and 4.1). -/
def HtnTerm.isGround : HtnTerm → Bool
  | .var _ => false
  | .constAtom _ => true
  | .constInt _ => true
  | .constFloat _ => true
  | .compound _ args => HtnTerm.isGroundList args

/-- Groundness of an argument list (helper for `HtnTerm.isGround`). -/
def HtnTerm.isGroundList : List HtnTerm → Bool
  | [] => true
  | a :: as => HtnTerm.isGround a && HtnTerm.isGroundList as

end

/-- Modelled from the spec: `HtnTerm::GetTermType()` — the lexical type of a
term (spec section 3). -/
def HtnTerm.GetTermType : HtnTerm → HtnTermType
  | .var _ => .VariableType
  | .constAtom _ => .AtomType
  | .constInt _ => .IntType
  | .constFloat _ => .FloatType
  | .compound _ _ => .CompoundType

/-- Modelled from the spec: `HtnTerm::GetInt()` on an integer-typed constant. -/
def HtnTerm.GetInt : HtnTerm → Int
  | .constInt n => n
  | _ => 0

/-- Modelled from the spec: `HtnTerm::GetDouble()` — numeric constants read as
doubles (modelled as rationals). -/
def HtnTerm.GetDouble : HtnTerm → Rat
  | .constInt n => (n : Rat)
  | .constFloat q => q
  | _ => 0

mutual

/-- Modelled from the spec: `HtnTerm::ToString()` serialization
`Name(arg1, ..., argN)` with variables printed as `?Name` (spec section 3).
Only used for the string fields of the decomposition tree. -/
def HtnTerm.ToString : HtnTerm → String
  | .var s => "?" ++ s
  | .constAtom s => s
  | .constInt n => toString n
  | .constFloat q => toString q
  | .compound f args => f ++ "(" ++ HtnTerm.toStringList args ++ ")"

/-- Comma-separated serialization of an argument list (helper for
`HtnTerm.ToString`). -/
def HtnTerm.toStringList : List HtnTerm → String
  | [] => ""
  | [a] => HtnTerm.ToString a
  | a :: rest => HtnTerm.ToString a ++ "," ++ HtnTerm.toStringList rest

end

/-- Serialization of a term list as in `HtnTerm::ToString(vector)`:
`(t1, ...)` shape collapsed to comma separation; used only in tree strings. -/
def HtnTerm.ToStringVector (ts : List HtnTerm) : String :=
  "(" ++ HtnTerm.toStringList ts ++ ")"

/-- The `", "`-separated term-list join of `HtnMethod::ToString` and
`HtnOperator::ToString` (`HtnMethod.cpp` lines 30-45, `HtnOperator.cpp` lines
16-32: `stream << (has ? ", " : "") << term->ToString()`). -/
def HtnTerm.toStringListSpaced : List HtnTerm → String
  | [] => ""
  | [a] => HtnTerm.ToString a
  | a :: rest => HtnTerm.ToString a ++ ", " ++ HtnTerm.toStringListSpaced rest

/- ----------------------------------------------------------------------
Arithmetic: `HtnArithmeticOperators.cpp` (in the source tree) together with the
`HtnTerm::Eval` dispatch (modelled from the spec, `HtnTerm.cpp` missing:
"A compound whose head is one of `+ - * / ...` and whose arguments are
themselves arithmetic is evaluable to a constant by Eval. ... Eval on a
non-arithmetic term returns itself if ground, otherwise fails").
---------------------------------------------------------------------- -/

/-- Modelled from the spec: C++ `int` division as used by
`HtnArithmeticOperators::Divide` for two `IntType` operands.  For a zero
divisor the C++ expression is undefined; the repository pins the observed
behavior in `TEST(Is_KnownLimitations)`: "Division by zero returns 0", and the
spec (sections 4.3 and 9) states "division by zero yields 0 per existing
behavior".  Nonzero division truncates toward zero as in C++. -/
def cppIntDiv (a b : Int) : Int :=
  if b = 0 then 0 else Int.tdiv a b

/-- Combination step of `HtnArithmeticOperators::Plus` on two already-evaluated
terms: `IntType + IntType` stays integer, otherwise both sides are read as
doubles (source lines 294-316).  Non-numeric evaluated operands yield failure
(modelled from the spec: "is ... fails (not throws) if right has unbound vars
or non-arithmetic atoms"). -/
def plusVals (le re : HtnTerm) : Option HtnTerm :=
  if le.GetTermType = .IntType ∧ re.GetTermType = .IntType then
    some (.constInt (le.GetInt + re.GetInt))
  else if (le.GetTermType = .IntType ∨ le.GetTermType = .FloatType) ∧
          (re.GetTermType = .IntType ∨ re.GetTermType = .FloatType) then
    some (.constFloat (le.GetDouble + re.GetDouble))
  else none

/-- Combination step of `HtnArithmeticOperators::Minus` (source lines 245-267),
same type discipline as `plusVals`. -/
def minusVals (le re : HtnTerm) : Option HtnTerm :=
  if le.GetTermType = .IntType ∧ re.GetTermType = .IntType then
    some (.constInt (le.GetInt - re.GetInt))
  else if (le.GetTermType = .IntType ∨ le.GetTermType = .FloatType) ∧
          (re.GetTermType = .IntType ∨ re.GetTermType = .FloatType) then
    some (.constFloat (le.GetDouble - re.GetDouble))
  else none

/-- Combination step of `HtnArithmeticOperators::Multiply` (source lines
269-291), same type discipline as `plusVals`. -/
def multiplyVals (le re : HtnTerm) : Option HtnTerm :=
  if le.GetTermType = .IntType ∧ re.GetTermType = .IntType then
    some (.constInt (le.GetInt * re.GetInt))
  else if (le.GetTermType = .IntType ∨ le.GetTermType = .FloatType) ∧
          (re.GetTermType = .IntType ∨ re.GetTermType = .FloatType) then
    some (.constFloat (le.GetDouble * re.GetDouble))
  else none

/-- Combination step of `HtnArithmeticOperators::Divide` (source lines 55-77):
two `IntType` operands take the integer-division path
`leftEval->GetInt() / rightEval->GetInt()`; any other numeric combination takes
the double path.  A zero divisor on the integer path goes through `cppIntDiv`
(pinned to 0, see there); a zero divisor on the double path would be IEEE
infinity, which is outside this model, so it yields failure here. -/
def divideVals (le re : HtnTerm) : Option HtnTerm :=
  if le.GetTermType = .IntType ∧ re.GetTermType = .IntType then
    some (.constInt (cppIntDiv le.GetInt re.GetInt))
  else if (le.GetTermType = .IntType ∨ le.GetTermType = .FloatType) ∧
          (re.GetTermType = .IntType ∨ re.GetTermType = .FloatType) then
    if re.GetDouble = 0 then none
    else some (.constFloat (le.GetDouble / re.GetDouble))
  else none

/-- Pick the combination step of a binary arithmetic functor (`nullptr`
handler lookup in `HtnTerm::Eval`, modelled from the spec: "Arithmetic is
dispatched by string-comparing the functor name", spec section 9). -/
def arithBinaryVals (f : String) : Option (HtnTerm → HtnTerm → Option HtnTerm) :=
  if f = "+" then some plusVals
  else if f = "-" then some minusVals
  else if f = "*" then some multiplyVals
  else if f = "/" then some divideVals
  else none

mutual

/-- Modelled from the spec: `HtnTerm::Eval` (`HtnTerm.cpp` missing from the
source tree).  Dispatches the binary arithmetic functors to the operator
functions of `HtnArithmeticOperators.cpp`; a ground non-arithmetic term
evaluates to itself, a term containing variables fails (spec section 3). -/
def HtnTerm.Eval : HtnTerm → Option HtnTerm
  | .var _ => none
  | .constAtom s => some (.constAtom s)
  | .constInt n => some (.constInt n)
  | .constFloat q => some (.constFloat q)
  | .compound f args => HtnTerm.evalCompound f args

/-- Dispatch helper for `HtnTerm.Eval` on a compound `f(args)`.  The binary
case mirrors the shared shape of the operators in `HtnArithmeticOperators.cpp`:
evaluate the left side, then the right side, then combine; `nullptr` at any
stage propagates. -/
def HtnTerm.evalCompound : String → List HtnTerm → Option HtnTerm
  | f, [l, r] =>
    match arithBinaryVals f with
    | some vals =>
      (match HtnTerm.Eval l with
       | none => none
       | some le =>
         match HtnTerm.Eval r with
         | none => none
         | some re => vals le re)
    | none =>
      if HtnTerm.isGroundList [l, r] then some (.compound f [l, r]) else none
  | f, args =>
    if HtnTerm.isGroundList args then some (.compound f args) else none

end

/-- `HtnArithmeticOperators::Plus` (source lines 294-316): evaluate both sides,
fail on `nullptr`, combine with the `Plus` type discipline. -/
def HtnArithmeticOperators.Plus (l r : HtnTerm) : Option HtnTerm :=
  match HtnTerm.Eval l with
  | none => none
  | some le =>
    match HtnTerm.Eval r with
    | none => none
    | some re => plusVals le re

/-- `HtnArithmeticOperators::Minus` (source lines 245-267). -/
def HtnArithmeticOperators.Minus (l r : HtnTerm) : Option HtnTerm :=
  match HtnTerm.Eval l with
  | none => none
  | some le =>
    match HtnTerm.Eval r with
    | none => none
    | some re => minusVals le re

/-- `HtnArithmeticOperators::Multiply` (source lines 269-291). -/
def HtnArithmeticOperators.Multiply (l r : HtnTerm) : Option HtnTerm :=
  match HtnTerm.Eval l with
  | none => none
  | some le =>
    match HtnTerm.Eval r with
    | none => none
    | some re => multiplyVals le re

/-- `HtnArithmeticOperators::Divide` (source lines 55-77). -/
def HtnArithmeticOperators.Divide (l r : HtnTerm) : Option HtnTerm :=
  match HtnTerm.Eval l with
  | none => none
  | some le =>
    match HtnTerm.Eval r with
    | none => none
    | some re => divideVals le re

/-- Modelled from the spec: the `is/2` built-in of the resolver
(`HtnGoalResolver.cpp` missing from the source tree); spec section 4.3:
"`is` : left ← Eval(right); fails (not throws) if right has unbound vars or
non-arithmetic atoms".  For an unbound variable on the left the result is the
binding of that variable to the evaluated right side. -/
def resolveIs (leftVarName : String) (right : HtnTerm) : Option (List (HtnTerm × HtnTerm)) :=
  match right.Eval with
  | none => none
  | some v => some [(.var leftVarName, v)]

/- ----------------------------------------------------------------------
Unification and substitution, modelled from the spec (section 4.1;
`HtnGoalResolver.cpp` missing from the source tree).
---------------------------------------------------------------------- -/

/-- A unifier: an ordered list of (variable, term) bindings (spec section 3). -/
abbrev UnifierType := List (HtnTerm × HtnTerm)

mutual

/-- Modelled from the spec: the occurs check of the Robinson algorithm
(spec section 4.1: bind "unless it occurs inside the other"). -/
def HtnTerm.occursIn (v : String) : HtnTerm → Bool
  | .var x => x == v
  | .constAtom _ => false
  | .constInt _ => false
  | .constFloat _ => false
  | .compound _ args => HtnTerm.occursInList v args

/-- Occurs check over an argument list (helper for `HtnTerm.occursIn`). -/
def HtnTerm.occursInList (v : String) : List HtnTerm → Bool
  | [] => false
  | a :: as => HtnTerm.occursIn v a || HtnTerm.occursInList v as

end

mutual

/-- Modelled from the spec: one pass of substitution application — replace each
variable by its binding, not re-examining the substituted term
(helper for `HtnGoalResolver.SubstituteUnifiers`). -/
def substOnePass (u : UnifierType) : HtnTerm → HtnTerm
  | .var x =>
    match u.find? (fun p => p.1 == HtnTerm.var x) with
    | some p => p.2
    | none => .var x
  | .constAtom s => .constAtom s
  | .constInt n => .constInt n
  | .constFloat q => .constFloat q
  | .compound f args => .compound f (substOnePassList u args)

/-- One substitution pass over an argument list (helper for `substOnePass`). -/
def substOnePassList (u : UnifierType) : List HtnTerm → List HtnTerm
  | [] => []
  | a :: as => substOnePass u a :: substOnePassList u as

end

/-- Iterate a function n times (used to reach the substitution fixed point). -/
def iterateN {α : Type} (f : α → α) : Nat → α → α
  | 0, a => a
  | n + 1, a => iterateN f n (f a)

/-- Modelled from the spec: `HtnGoalResolver::SubstituteUnifiers` — "applies a
substitution fully (following chains to a fixed point)" (spec section 4.1).
Chains produced by unification with occurs check are acyclic and no longer
than the number of bindings, so `length + 1` passes reach the fixed point. -/
def HtnGoalResolver.SubstituteUnifiers (u : UnifierType) (t : HtnTerm) : HtnTerm :=
  iterateN (substOnePass u) (u.length + 1) t

/-- `SubstituteUnifiers` mapped over a term list, as the planner uses it for
conditions, subtasks, additions and deletions. -/
def HtnGoalResolver.SubstituteUnifiersList (u : UnifierType) (ts : List HtnTerm) : List HtnTerm :=
  ts.map (HtnGoalResolver.SubstituteUnifiers u)

/-- Modelled from the spec: `HtnGoalResolver::IsGround` on a unifier — every
bound term is ground, so applying the unifier leaves no variables in the bound
positions (used by `CheckForOperator`: "operators require grounding"). -/
def HtnGoalResolver.IsGround (u : UnifierType) : Bool :=
  u.all (fun p => p.2.isGround)

/-- One step of the unification worklist: solve the first equation, extending
the substitution accumulator (helper for `HtnGoalResolver.Unify`). -/
def unifyStep (fuel : Nat) (work : List (HtnTerm × HtnTerm)) (acc : UnifierType) :
    Option UnifierType :=
  match fuel with
  | 0 => none
  | fuel + 1 =>
    match work with
    | [] => some acc
    | (a, b) :: rest =>
      match a, b with
      | .var x, t =>
        if t == HtnTerm.var x then unifyStep fuel rest acc
        else if t.occursIn x then none
        else
          unifyStep fuel
            (rest.map (fun p => (substOnePass [(.var x, t)] p.1, substOnePass [(.var x, t)] p.2)))
            (acc.map (fun p => (p.1, substOnePass [(.var x, t)] p.2)) ++ [(.var x, t)])
      | t, .var x =>
        if t.occursIn x then none
        else
          unifyStep fuel
            (rest.map (fun p => (substOnePass [(.var x, t)] p.1, substOnePass [(.var x, t)] p.2)))
            (acc.map (fun p => (p.1, substOnePass [(.var x, t)] p.2)) ++ [(.var x, t)])
      | .constAtom s, .constAtom s' => if s = s' then unifyStep fuel rest acc else none
      | .constInt n, .constInt n' => if n = n' then unifyStep fuel rest acc else none
      | .constFloat q, .constFloat q' => if q = q' then unifyStep fuel rest acc else none
      | .compound f as, .compound g bs =>
        if f = g ∧ as.length = bs.length then unifyStep fuel (as.zip bs ++ rest) acc
        else none
      | _, _ => none

mutual

/-- Node count of a term, used to budget the unification worklist. -/
def HtnTerm.sizeT : HtnTerm → Nat
  | .var _ => 1
  | .constAtom _ => 1
  | .constInt _ => 1
  | .constFloat _ => 1
  | .compound _ args => 1 + HtnTerm.sizeTList args

/-- Node count of an argument list (helper for `HtnTerm.sizeT`). -/
def HtnTerm.sizeTList : List HtnTerm → Nat
  | [] => 0
  | a :: as => HtnTerm.sizeT a + HtnTerm.sizeTList as

end

/-- Modelled from the spec: `HtnGoalResolver::Unify(a, b)` — the Robinson
algorithm with occurs check (spec section 4.1), returning the most general
unifier or `none`.  The fuel bound is generous; all uses in this development
are far below it. -/
def HtnGoalResolver.Unify (a b : HtnTerm) : Option UnifierType :=
  unifyStep (2 ^ (a.sizeT + b.sizeT + 4)) [(a, b)] []

/- ----------------------------------------------------------------------
RuleSet, modelled from the spec (sections 3 and 4.2; `HtnRuleSet.cpp` missing
from the source tree).  Only the operations the planner uses are needed:
`Update` and `CreateCopy`.
---------------------------------------------------------------------- -/

/-- Modelled from the spec: the fact database (spec section 3).  Rules with
nonempty tails play no role in the planner file itself (conditions go through
the injected resolver), so the state is carried as its ordered fact list. -/
structure HtnRuleSet where
  facts : List HtnTerm
deriving Repr

/-- Modelled from the spec: `HtnRuleSet::Update(dels, adds)` — "dels are
removed, adds are appended" (spec section 3). -/
def HtnRuleSet.Update (rs : HtnRuleSet) (deletions additions : List HtnTerm) : HtnRuleSet :=
  { facts := (rs.facts.filter (fun f => !(deletions.contains f))) ++ additions }

/-- Modelled from the spec: `HtnRuleSet::CreateCopy` — an independent mutable
snapshot; with value semantics in this embedding a copy is the value itself. -/
def HtnRuleSet.CreateCopy (rs : HtnRuleSet) : HtnRuleSet := rs

/- ----------------------------------------------------------------------
Domain catalog: `HtnMethod`, `HtnOperator`, and the `HtnPlanner` members
`m_methods`, `m_operators`, `m_nextDocumentOrder` with `AddMethod` /
`AddOperator` (`HtnPlanner.cpp` lines 497-515, `HtnPlanner.h`).
---------------------------------------------------------------------- -/

/-- `HtnMethodType` (`HtnMethod.h`, as used throughout `HtnPlanner.cpp`). -/
inductive HtnMethodType where
  | Normal
  | AllSetOf
  | AnySetOf
deriving DecidableEq, Repr

/-- `HtnMethod`: immutable head, condition, subtasks, method type, `else` flag
and document order (spec section 3; fields as used by `HtnPlanner.cpp` and
`HtnMethod.cpp`). -/
structure HtnMethod where
  head : HtnTerm
  condition : List HtnTerm
  tasks : List HtnTerm
  methodType : HtnMethodType
  isDefault : Bool
  documentOrder : Int
deriving Repr

/-- `HtnMethod::ToString()` (`HtnMethod.cpp`). -/
def HtnMethod.ToString (m : HtnMethod) : String :=
  m.head.ToString ++ " => " ++
    (if m.isDefault then "default, " else "") ++
    (if m.methodType = .AllSetOf then "allOf, "
     else if m.methodType = .AnySetOf then "anyOf, " else "") ++
    "if(" ++ HtnTerm.toStringListSpaced m.condition ++ "), do(" ++
    HtnTerm.toStringListSpaced m.tasks ++ ")"

/-- `HtnOperator`: immutable head, additions, deletions and hidden flag
(spec section 3; fields as used by `HtnPlanner.cpp` and `HtnOperator.cpp`). -/
structure HtnOperator where
  head : HtnTerm
  additions : List HtnTerm
  deletions : List HtnTerm
  isHidden : Bool
deriving Repr

/-- `HtnOperator::ToString()` (`HtnOperator.cpp` lines 13-35). -/
def HtnOperator.ToString (op : HtnOperator) : String :=
  op.head.ToString ++ " => del(" ++ HtnTerm.toStringListSpaced op.deletions ++
    "), add(" ++ HtnTerm.toStringListSpaced op.additions ++ ")"

/-- The domain part of `HtnPlanner` (`HtnPlanner.h`): the method multimap is
carried in insertion order (`FindAllMethodsThatUnify` sorts by the unique
`documentOrder` keys, so the multimap's key order is immaterial), and
`m_operators` is a `map<string, HtnOperator*>` carried as an association list
with unique keys. -/
structure HtnPlanner where
  m_methods : List HtnMethod
  m_nextDocumentOrder : Int
  m_operators : List (String × HtnOperator)
deriving Repr

/-- The process-wide statics of `HtnPlanner`: the single static abort byte
`uint8_t HtnPlanner::m_abort` (`HtnPlanner.cpp` line 45), shared by every
planner instance. -/
structure HtnPlannerStatics where
  m_abort : Nat
deriving DecidableEq, Repr

/-- `HtnPlanner::Abort()` (`HtnPlanner.h` line 185): `m_abort = true`. -/
def HtnPlanner.Abort (_ : HtnPlannerStatics) : HtnPlannerStatics :=
  { m_abort := 1 }

/-- `HtnPlanner::HtnPlanner()` (`HtnPlanner.cpp` lines 483-489): a freshly
constructed planner has no methods or operators, `m_nextDocumentOrder = 0`,
and the constructor resets the process-wide static: `HtnPlanner::m_abort = 0`. -/
def HtnPlanner.construct (_ : HtnPlannerStatics) : HtnPlanner × HtnPlannerStatics :=
  ({ m_methods := [], m_nextDocumentOrder := 0, m_operators := [] }, { m_abort := 0 })

/-- `HtnPlanner::AddMethod` (`HtnPlanner.cpp` lines 497-506): increment
`m_nextDocumentOrder`, build the immutable method, insert it. -/
def HtnPlanner.AddMethod (p : HtnPlanner) (head : HtnTerm) (condition tasks : List HtnTerm)
    (methodType : HtnMethodType) (isDefault : Bool) : HtnPlanner :=
  let doc := p.m_nextDocumentOrder + 1
  { p with
    m_nextDocumentOrder := doc
    m_methods := p.m_methods ++
      [{ head, condition, tasks, methodType, isDefault, documentOrder := doc }] }

/-- `std::map::insert` semantics on the operator map: inserting an existing key
leaves the map unchanged (it does not replace). -/
def operatorMapInsert (m : List (String × HtnOperator)) (k : String) (v : HtnOperator) :
    List (String × HtnOperator) :=
  if (m.find? (fun p => p.1 == k)).isSome then m else m ++ [(k, v)]

/-- `std::map::find` on the operator map. -/
def operatorMapFind (m : List (String × HtnOperator)) (k : String) : Option HtnOperator :=
  (m.find? (fun p => p.1 == k)).map (fun p => p.2)

/-- `HtnPlanner::AddOperator` (`HtnPlanner.cpp` lines 508-515):
`m_operators.insert(pair(head->name(), op))`. -/
def HtnPlanner.AddOperator (p : HtnPlanner) (head : HtnTerm) (addList deleteList : List HtnTerm)
    (hidden : Bool) : HtnPlanner :=
  let op : HtnOperator := { head, additions := addList, deletions := deleteList, isHidden := hidden }
  { p with m_operators := operatorMapInsert p.m_operators head.name op }

/-- Insertion step for sorting unified methods by `documentOrder`
(`MethodComparer`, `HtnPlanner.cpp` lines 393-404: ascending document order). -/
def insertByDocumentOrder (x : HtnMethod × UnifierType) :
    List (HtnMethod × UnifierType) → List (HtnMethod × UnifierType)
  | [] => [x]
  | y :: ys =>
    if x.1.documentOrder < y.1.documentOrder then x :: y :: ys
    else y :: insertByDocumentOrder x ys

/-- Sort unified methods ascending by their unique `documentOrder`
(`std::sort` with `MethodComparer` in `FindAllMethodsThatUnify`). -/
def sortByDocumentOrder (l : List (HtnMethod × UnifierType)) : List (HtnMethod × UnifierType) :=
  l.foldr insertByDocumentOrder []

/-- `HtnPlanner::FindAllMethodsThatUnify` (`HtnPlanner.cpp` lines 756-772):
unify every method head against the goal, keep the ones that unify with their
unifiers, and sort the result so earlier document order comes first. -/
def HtnPlanner.FindAllMethodsThatUnify (p : HtnPlanner) (goal : HtnTerm) :
    List (HtnMethod × UnifierType) :=
  sortByDocumentOrder
    (p.m_methods.filterMap fun m =>
      (HtnGoalResolver.Unify m.head goal).map fun sub => (m, sub))

/- ----------------------------------------------------------------------
Planner search state: `PlanNodeContinuePoint`, `PlanNode`, `DecompTreeNode`,
`PlanState` (`HtnPlanner.cpp` lines 84-481, `HtnPlanner.h`).
---------------------------------------------------------------------- -/

/-- `PlanNodeContinuePoint` (`HtnPlanner.cpp` lines 84-96). -/
inductive PlanNodeContinuePoint where
  | Fail
  | NextTask
  | ReturnFromCheckForOperator
  | NextMethodThatApplies
  | NextNormalMethodCondition
  | OutOfMemory
  | ReturnFromNextNormalMethodCondition
  | ReturnFromHandleTryTerm
  | ReturnFromSetOfConditions
  | Abort
deriving DecidableEq, Repr

/-- `PlanNode` (`HtnPlanner.cpp` lines 98-396, with the
`INDHTN_TREE_SIBLING_TRACKING` members active: the repository's
decomposition-tree tests and spec sections 4.5.3/4.5.7 pin the guarded
behavior).  The C++ node shares its `state` and `operators` behind pointers;
in this embedding they are carried by value, which is observationally
equivalent for the planner loop: shared mutation only happens on the current
top node before a child is pushed, and backtrack boundaries copy.
`siblingStack` is the sibling-scope stack (each entry `(siblingParentID,
siblingRemainingCount)`); the head of the list is the C++ `back()`.
`totalMemoryAtNodePush` is kept; byte-accurate `dynamicSize` is platform
`sizeof` arithmetic and is modelled as 0 (no claim in this development
concerns byte counts). -/
structure PlanNode where
  atLeastOneMethodHadSolution : Bool
  conditionIndex : Int
  conditionResolutions : Option (List UnifierType)
  continuePoint : PlanNodeContinuePoint
  method : Option (HtnMethod × UnifierType)
  methodHadSolution : Bool
  operators : Option (List HtnTerm)
  retry : Bool
  state : HtnRuleSet
  task : Option HtnTerm
  tasks : List HtnTerm
  totalMemoryAtNodePush : Int
  tryAnyOfSuccessCount : Int
  unifiedMethods : List (HtnMethod × UnifierType)
  nodeID : Int
  siblingStack : List (Int × Int) := []
deriving Repr

/-- The `PlanNode` constructor (`HtnPlanner.cpp` lines 101-121): the sibling
stack starts empty. -/
def PlanNode.initNode (nodeID : Int) (state : HtnRuleSet) (tasks : List HtnTerm)
    (operators : Option (List HtnTerm)) : PlanNode :=
  { atLeastOneMethodHadSolution := false
    conditionIndex := -1
    conditionResolutions := none
    continuePoint := .NextTask
    method := none
    methodHadSolution := false
    operators
    retry := false
    state
    task := none
    tasks
    totalMemoryAtNodePush := 0
    tryAnyOfSuccessCount := 0
    unifiedMethods := []
    nodeID
    siblingStack := [] }

/-- The exhausted-scope pop loop shared by `SearchNextNode` and
`SearchNextNodeBacktrackable` (`HtnPlanner.cpp` lines 169-171, 216-219): pop
sibling scopes whose remaining count is 0.  Head of the list is the C++
`back()`. -/
def popExhaustedScopes : List (Int × Int) → List (Int × Int)
  | [] => []
  | (p, c) :: rest => if c == 0 then popExhaustedScopes rest else (p, c) :: rest

/-- The sibling-slot decrement of `SearchNextNode` /
`SearchNextNodeBacktrackable` (`HtnPlanner.cpp` lines 172-174, 227-231):
decrement the top scope's remaining count when it is positive. -/
def decrementTopScope : List (Int × Int) → List (Int × Int)
  | [] => []
  | (p, c) :: rest => if c > 0 then (p, c - 1) :: rest else (p, c) :: rest

/-- `PlanNode::popSiblingScopeIfMatches` (`HtnPlanner.cpp` lines 310-316):
pop the top sibling scope when it was pushed by the given node. -/
def PlanNode.popSiblingScopeIfMatches (n : PlanNode) (scopeNodeID : Int) : PlanNode :=
  match n.siblingStack with
  | (p, _) :: rest =>
    if p == scopeNodeID then { n with siblingStack := rest } else n
  | [] => n

/-- `PlanNode::AddToOperators` (`HtnPlanner.cpp` lines 122-130). -/
def PlanNode.AddToOperators (n : PlanNode) (operatorSubstituted : HtnTerm) : PlanNode :=
  match n.operators with
  | none => { n with operators := some [operatorSubstituted] }
  | some ops => { n with operators := some (ops ++ [operatorSubstituted]) }

/-- `PlanNode::SetNodeTask` (`HtnPlanner.cpp` lines 263-274): pop the front of
the task queue into `task`, or set `task` to null when the queue is empty. -/
def PlanNode.SetNodeTask (n : PlanNode) : PlanNode :=
  match n.tasks with
  | [] => { n with task := none }
  | t :: rest => { n with task := some t, tasks := rest }

/-- `PlanNode::SetNextMethodThatUnifies` (`HtnPlanner.cpp` lines 246-260):
reset the per-method state and shift the next unified method (or null). -/
def PlanNode.SetNextMethodThatUnifies (n : PlanNode) : PlanNode :=
  match n.unifiedMethods with
  | [] =>
    { n with conditionIndex := -1, conditionResolutions := none, method := none }
  | m :: rest =>
    { n with conditionIndex := -1, conditionResolutions := none
             method := some m, unifiedMethods := rest }

/-- `PlanNode::SetNextCondition` (`HtnPlanner.cpp` lines 276-279). -/
def PlanNode.SetNextCondition (n : PlanNode) : PlanNode :=
  { n with conditionIndex := n.conditionIndex + 1 }

/-- `PlanNode::condition()` (`HtnPlanner.cpp` lines 281-291): the current
condition unifier, if the cursor is in range (the C++ `int < size_t`
comparison is false for a negative cursor). -/
def PlanNode.condition (n : PlanNode) : Option UnifierType :=
  match n.conditionResolutions with
  | none => none
  | some crs =>
    if h : 0 ≤ n.conditionIndex ∧ n.conditionIndex.toNat < crs.length then
      some (crs.get ⟨n.conditionIndex.toNat, h.2⟩)
    else none

/-- `DecompTreeNode` (`HtnPlanner.h` together with the fields
`HtnPlanner.cpp` uses: `treeNodeID` and per-solution bookkeeping).
Defaults follow the C++ default constructor. -/
structure DecompTreeNode where
  treeNodeID : Int := -1
  nodeID : Int := -1
  parentNodeID : Int := -1
  childNodeIDs : List Int := []
  taskName : String := ""
  methodSignature : String := ""
  operatorSignature : String := ""
  unifiers : List (String × String) := []
  conditionBindings : List (String × String) := []
  isOperator : Bool := false
  isSuccess : Bool := false
  isFailed : Bool := false
  failureReason : String := ""
  solutionID : Int := -1
  methodIndex : Int := -1
  conditionTermsJson : List String := []
  failedConditionIndex : Int := -1
  failedConditionTermJson : String := ""
deriving Repr

/-- Modelled from the spec: `HtnTerm::ToJson` (`HtnTerm.cpp` missing from the
source tree); only stored into string fields of the decomposition tree that no
claim inspects, so the serialization is the plain term string. -/
def HtnTerm.ToJson (t : HtnTerm) : String := t.ToString

/-- `PlanState` (`HtnPlanner.h` / `HtnPlanner.cpp`): the global search context.
`factory` is represented by its only observable bit here, the out-of-memory
flag; wall-clock fields are outside the model. -/
structure PlanState where
  furthestCriteriaFailure : Int
  furthestCriteriaFailureContext : List HtnTerm
  deepestTaskFailure : Int
  highestMemoryUsed : Int
  initialState : HtnRuleSet
  memoryBudget : Int
  nextNodeID : Int
  returnValue : Bool
  stack : List PlanNode
  decompositionTree : List DecompTreeNode
  treeNodeIDToTreeIndex : List (Int × Nat)
  nodeIDToLastTreeNodeID : List (Int × Int)
  bookkeepingParents : List (Int × Int)
  currentSolutionID : Int
  nextTreeNodeID : Int
  outOfMemory : Bool
deriving Repr

/-- `std::map` lookup on an integer-keyed association list. -/
def amapFind {α : Type} (m : List (Int × α)) (k : Int) : Option α :=
  (m.find? (fun p => p.1 == k)).map (fun p => p.2)

/-- `std::map` insert-or-assign (`m[k] = v`) on an integer-keyed association
list. -/
def amapSet {α : Type} (m : List (Int × α)) (k : Int) (v : α) : List (Int × α) :=
  if (m.find? (fun p => p.1 == k)).isSome then
    m.map (fun p => if p.1 == k then (k, v) else p)
  else m ++ [(k, v)]

/-- The `PlanState` constructor (`HtnPlanner.cpp` lines 406-432): push the
root node holding the initial goals, and record the root entry of the
decomposition tree. -/
def PlanState.init (initialState : HtnRuleSet) (initialGoals : List HtnTerm)
    (memoryBudget : Int) : PlanState :=
  let rootNode := PlanNode.initNode 0 initialState initialGoals none
  let rootTaskName := match initialGoals with
    | [] => ""
    | g :: _ => g.ToString
  let rootTreeNode : DecompTreeNode :=
    { treeNodeID := 0, nodeID := 0, parentNodeID := -1, taskName := rootTaskName }
  { furthestCriteriaFailure := -1
    furthestCriteriaFailureContext := []
    deepestTaskFailure := -1
    highestMemoryUsed := 0
    initialState
    memoryBudget
    nextNodeID := 1
    returnValue := false
    stack := [rootNode]
    decompositionTree := [rootTreeNode]
    treeNodeIDToTreeIndex := [(0, 0)]
    nodeIDToLastTreeNodeID := [(0, 0)]
    bookkeepingParents := []
    currentSolutionID := 0
    nextTreeNodeID := 1
    outOfMemory := false }

/-- `PlanState::dynamicSize` (`HtnPlanner.cpp` lines 444-466): approximate
byte count of the search state.  The byte arithmetic is `sizeof`-based and
platform-specific; it is modelled as 0 here (the out-of-memory machinery is
kept structurally, and no claim in this development concerns byte counts). -/
def PlanState.dynamicSize (_ : PlanState) : Int := 0

/-- `PlanState::CheckHighestMemory` (`HtnPlanner.cpp` lines 434-441). -/
def PlanState.CheckHighestMemory (ps : PlanState) (currentMemory : Int) : PlanState :=
  if currentMemory > ps.highestMemoryUsed then { ps with highestMemoryUsed := currentMemory }
  else ps

/-- `PlanState::RecordFailure` (`HtnPlanner.cpp` lines 472-481): keep the
deepest (stack depth, then furthest criteria index) failure context. -/
def PlanState.RecordFailure (ps : PlanState) (furthestCriteriaFailure : Int)
    (criteriaFailureContext : List HtnTerm) : PlanState :=
  if ((ps.stack.length : Int) = ps.deepestTaskFailure ∧
        furthestCriteriaFailure > ps.furthestCriteriaFailure) ∨
      (ps.stack.length : Int) > ps.deepestTaskFailure then
    { ps with
      deepestTaskFailure := (ps.stack.length : Int)
      furthestCriteriaFailure := furthestCriteriaFailure
      furthestCriteriaFailureContext := criteriaFailureContext }
  else ps

/- ----------------------------------------------------------------------
Decomposition-tree recording (`HtnPlanner.cpp` lines 1458-1766).
---------------------------------------------------------------------- -/

/-- `HtnPlanner::NodeIDToTreeNodeID` (`HtnPlanner.cpp` lines 1461-1468). -/
def NodeIDToTreeNodeID (ps : PlanState) (nodeID : Int) : Int :=
  match amapFind ps.nodeIDToLastTreeNodeID nodeID with
  | some t => t
  | none => -1

/-- In-place update of the tree entry at a given index (the C++ pattern
`planState->decompositionTree[it->second]`). -/
def modifyTreeAt (tree : List DecompTreeNode) (idx : Nat)
    (f : DecompTreeNode → DecompTreeNode) : List DecompTreeNode :=
  match tree.get? idx with
  | some n => tree.set idx (f n)
  | none => tree

/-- Shared lookup-then-update shape of `RecordMethodChoice`,
`RecordConditionBindings`, `RecordOperator` and `MarkNodeFailed`: find the most
recent tree entry for a plan node and update it; no entry means no change. -/
def modifyTreeNodeByNodeID (ps : PlanState) (nodeID : Int)
    (f : DecompTreeNode → DecompTreeNode) : PlanState :=
  let treeNodeID := NodeIDToTreeNodeID ps nodeID
  if treeNodeID == -1 then ps
  else
    match amapFind ps.treeNodeIDToTreeIndex treeNodeID with
    | some idx => { ps with decompositionTree := modifyTreeAt ps.decompositionTree idx f }
    | none => ps

/-- `HtnPlanner::RecordMethodChoice` (`HtnPlanner.cpp` lines 1500-1528). -/
def HtnPlanner.RecordMethodChoice (ps : PlanState) (nodeID : Int) (method : HtnMethod)
    (unifiers : UnifierType) : PlanState :=
  modifyTreeNodeByNodeID ps nodeID fun node =>
    { node with
      methodSignature := method.ToString
      isOperator := false
      methodIndex := method.documentOrder
      conditionTermsJson := method.condition.map HtnTerm.ToJson
      failedConditionIndex := -1
      failedConditionTermJson := ""
      unifiers := unifiers.map (fun u => (u.1.ToString, u.2.ToString))
      conditionBindings := [] }

/-- `HtnPlanner::RecordConditionBindings` (`HtnPlanner.cpp` lines 1530-1542). -/
def HtnPlanner.RecordConditionBindings (ps : PlanState) (nodeID : Int)
    (condition : UnifierType) : PlanState :=
  modifyTreeNodeByNodeID ps nodeID fun node =>
    { node with
      conditionBindings :=
        node.conditionBindings ++ condition.map (fun u => (u.1.ToString, u.2.ToString)) }

/-- `HtnPlanner::RecordOperator` (`HtnPlanner.cpp` lines 1544-1558). -/
def HtnPlanner.RecordOperator (ps : PlanState) (nodeID : Int) (op : HtnOperator)
    (unifiers : UnifierType) : PlanState :=
  modifyTreeNodeByNodeID ps nodeID fun node =>
    { node with
      operatorSignature := op.head.ToString
      isOperator := true
      unifiers := node.unifiers ++ unifiers.map (fun u => (u.1.ToString, u.2.ToString)) }

/-- `HtnPlanner::MarkNodeFailed` (`HtnPlanner.cpp` lines 1618-1631). -/
def HtnPlanner.MarkNodeFailed (ps : PlanState) (nodeID : Int) (reason : String)
    (failedIndex : Int) (failedTerm : Option HtnTerm) : PlanState :=
  modifyTreeNodeByNodeID ps nodeID fun node =>
    { node with
      isFailed := true
      failureReason := reason
      failedConditionIndex := failedIndex
      failedConditionTermJson :=
        match failedTerm with
        | some t => t.ToJson
        | none => "" }

/-- The inner stack scan of `MarkPathSuccess` (`HtnPlanner.cpp` lines
1572-1581): from the top of the stack, find the entry with the given plan-node
id and return the id of the node directly below it (none when it is the bottom
entry or absent).  The head of the stack list is the C++ `back()`. -/
def stackParentOf : List PlanNode → Int → Option Int
  | [], _ => none
  | [_], _ => none
  | n :: m :: rest, id =>
    if n.nodeID == id then some m.nodeID else stackParentOf (m :: rest) id

/-- Phase one of `HtnPlanner::MarkPathSuccess` (`HtnPlanner.cpp` lines
1562-1584): starting from the leaf plan-node id, follow bookkeeping parents or
the stack until a plan node with a tree entry is found; result is its
treeNodeID, or -1. -/
def markPathStart (ps : PlanState) : Nat → Int → Int
  | 0, _ => -1
  | fuel + 1, leafNodeID =>
    let currentTreeNodeID := NodeIDToTreeNodeID ps leafNodeID
    if currentTreeNodeID ≠ -1 ∨ leafNodeID < 0 then currentTreeNodeID
    else
      match amapFind ps.bookkeepingParents leafNodeID with
      | some p => markPathStart ps fuel p
      | none =>
        match stackParentOf ps.stack leafNodeID with
        | some p => markPathStart ps fuel p
        | none => -1

/-- The recursive descendant restamp of `MarkPathSuccess` (`HtnPlanner.cpp`
lines 1596-1611, `markDescendants`): depth-first over `childNodeIDs`, mark
every reached tree node successful with the current solution id.  Fuel-bounded
worklist: `MarkPathSuccess` supplies fuel covering the whole (acyclic) tree. -/
def markDescendantsWork : Nat → PlanState → List Int → PlanState
  | 0, ps, _ => ps
  | _, ps, [] => ps
  | fuel + 1, ps, t :: restWork =>
    match amapFind ps.treeNodeIDToTreeIndex t with
    | none => markDescendantsWork fuel ps restWork
    | some idx =>
      match ps.decompositionTree.get? idx with
      | none => markDescendantsWork fuel ps restWork
      | some nd =>
        let nd' := { nd with isSuccess := true, solutionID := ps.currentSolutionID }
        let ps' := { ps with decompositionTree := ps.decompositionTree.set idx nd' }
        markDescendantsWork fuel ps' (nd.childNodeIDs ++ restWork)

/-- Phase two of `HtnPlanner::MarkPathSuccess` (`HtnPlanner.cpp` lines
1587-1614): walk from the found tree entry up the `parentNodeID` chain,
marking `isSuccess`, stamping the current solution id, and restamping every
descendant of each node on the path (`markDescendants`, lines 1596-1611). -/
def markPathWalk : Nat → PlanState → Int → PlanState
  | 0, ps, _ => ps
  | fuel + 1, ps, currentTreeNodeID =>
    if currentTreeNodeID < 0 then ps
    else
      match amapFind ps.treeNodeIDToTreeIndex currentTreeNodeID with
      | none => ps
      | some idx =>
        match ps.decompositionTree.get? idx with
        | none => ps
        | some nd =>
          let nd' := { nd with isSuccess := true, solutionID := ps.currentSolutionID }
          let ps' := { ps with decompositionTree := ps.decompositionTree.set idx nd' }
          let ps' := markDescendantsWork
            (ps'.decompositionTree.length * ps'.decompositionTree.length + 1)
            ps' nd.childNodeIDs
          markPathWalk fuel ps' nd.parentNodeID

/-- `HtnPlanner::MarkPathSuccess` (`HtnPlanner.cpp` lines 1560-1616): find the
tree entry for the succeeding leaf, mark the path to the root with the current
solution id, then increment the solution id. -/
def HtnPlanner.MarkPathSuccess (ps : PlanState) (leafNodeID : Int) : PlanState :=
  let fuel1 := ps.bookkeepingParents.length + ps.stack.length + 1
  let start := markPathStart ps fuel1 leafNodeID
  let ps := markPathWalk (ps.decompositionTree.length + 1) ps start
  { ps with currentSolutionID := ps.currentSolutionID + 1 }

/-- The bookkeeping-parent walk shared by `DetermineTreeParent` and the
bookkeeping branch of `CreateTreeNodeForTask` (`HtnPlanner.cpp` lines
1652-1659, 1692-1700): follow `bookkeepingParents` until an id that has a tree
entry (or no recorded bookkeeping parent) is reached. -/
def bookkeepingWalk (ps : PlanState) : Nat → Int → Int
  | 0, parent => parent
  | fuel + 1, parent =>
    if (amapFind ps.nodeIDToLastTreeNodeID parent).isSome then parent
    else
      match amapFind ps.bookkeepingParents parent with
      | some p => bookkeepingWalk ps fuel p
      | none => parent

/-- `HtnPlanner::DetermineTreeParent` (`HtnPlanner.cpp` lines 1633-1665): the
top sibling scope's parent when the node's sibling stack is nonempty,
otherwise the plan node directly below the top of the stack (or -1); then the
bookkeeping-parent walk. -/
def DetermineTreeParent (ps : PlanState) (node : PlanNode) : Int :=
  let parentPlanNodeID :=
    match node.siblingStack with
    | (p, _) :: _ => p
    | [] =>
      match ps.stack with
      | _ :: below :: _ => below.nodeID
      | _ => -1
  bookkeepingWalk ps (ps.bookkeepingParents.length + 1) parentPlanNodeID

/-- The reserved bookkeeping task names that do not receive tree entries
(`HtnPlanner.cpp` lines 1681-1682). -/
def bookkeepingTaskNames : List String :=
  ["tryEnd", "methodScopeEnd", "countAnyOf", "failIfNoneOf", "beginParallel", "endParallel"]

/-- `HtnPlanner::CreateTreeNodeForTask` (`HtnPlanner.cpp` lines 1671-1766):
bookkeeping tasks only record their real parent (top sibling scope or stack
parent, then the bookkeeping-parent walk, without consuming a sibling slot);
other tasks get a fresh tree entry (skipping an exact duplicate on the same
plan node), parented via `DetermineTreeParent`. -/
def HtnPlanner.CreateTreeNodeForTask (ps : PlanState) (node : PlanNode) : PlanState :=
  match node.task with
  | none => ps
  | some task =>
    let taskName := task.name
    if bookkeepingTaskNames.contains taskName then
      let parent :=
        match node.siblingStack with
        | (p, _) :: _ => p
        | [] =>
          match ps.stack with
          | _ :: below :: _ => below.nodeID
          | _ => -1
      let parent := bookkeepingWalk ps (ps.bookkeepingParents.length + 1) parent
      { ps with bookkeepingParents := amapSet ps.bookkeepingParents node.nodeID parent }
    else
      let fullTaskName := task.ToString
      let isDuplicate :=
        match amapFind ps.nodeIDToLastTreeNodeID node.nodeID with
        | some tid =>
          match amapFind ps.treeNodeIDToTreeIndex tid with
          | some idx =>
            match ps.decompositionTree.get? idx with
            | some existing => existing.taskName == fullTaskName
            | none => false
          | none => false
        | none => false
      if isDuplicate then ps
      else
        let parentPlanNodeID := DetermineTreeParent ps node
        let parentTreeNodeID :=
          if parentPlanNodeID == -1 then -1 else NodeIDToTreeNodeID ps parentPlanNodeID
        let treeNode : DecompTreeNode :=
          { treeNodeID := ps.nextTreeNodeID
            nodeID := node.nodeID
            parentNodeID := parentTreeNodeID
            taskName := fullTaskName }
        let idx := ps.decompositionTree.length
        let ps :=
          { ps with
            nextTreeNodeID := ps.nextTreeNodeID + 1
            treeNodeIDToTreeIndex := amapSet ps.treeNodeIDToTreeIndex treeNode.treeNodeID idx
            nodeIDToLastTreeNodeID := amapSet ps.nodeIDToLastTreeNodeID node.nodeID treeNode.treeNodeID
            decompositionTree := ps.decompositionTree ++ [treeNode] }
        if parentTreeNodeID ≠ -1 then
          match amapFind ps.treeNodeIDToTreeIndex parentTreeNodeID with
          | some pidx =>
            { ps with
              decompositionTree := modifyTreeAt ps.decompositionTree pidx fun parentNode =>
                if parentNode.childNodeIDs.contains treeNode.treeNodeID then parentNode
                else { parentNode with childNodeIDs := parentNode.childNodeIDs ++ [treeNode.treeNodeID] } }
          | none => ps
        else ps

/- ----------------------------------------------------------------------
Child pushes, solutions and return (`HtnPlanner.cpp` lines 132-244,
1350-1383).
---------------------------------------------------------------------- -/

/-- `PlanNode::SearchNextNode` (`HtnPlanner.cpp` lines 148-179): push a child
with the merged tasks, the same state and the same operator list; flag the
child out-of-memory when the dynamic size at push exceeds the budget; the
child inherits the sibling stack with exhausted scopes popped and one sibling
slot consumed; set the parent's continue point. -/
def searchNextNode (ps : PlanState) (node : PlanNode) (rest : List PlanNode)
    (additionalTasks : List HtnTerm) (returnPoint : PlanNodeContinuePoint) : PlanState :=
  let mergedTasks := additionalTasks ++ node.tasks
  let newNode := PlanNode.initNode ps.nextNodeID node.state mergedTasks node.operators
  let newNode := { newNode with totalMemoryAtNodePush := ps.dynamicSize }
  let newNode := { newNode with
    siblingStack := decrementTopScope (popExhaustedScopes node.siblingStack) }
  let newNode :=
    if newNode.totalMemoryAtNodePush > ps.memoryBudget then
      { newNode with continuePoint := .OutOfMemory }
    else newNode
  let node := { node with continuePoint := returnPoint }
  { ps with nextNodeID := ps.nextNodeID + 1, stack := newNode :: node :: rest }

/-- `PlanNode::SearchNextNodeBacktrackable` (`HtnPlanner.cpp` lines 181-244):
like `searchNextNode` but with an independent copy of the state and of the
operator list; when both the additional tasks and the remaining tasks are
nonempty a `methodScopeEnd(nodeID)` bookkeeping task is inserted between
them; the child's sibling stack has exhausted scopes popped, then either a new
scope `(nodeID, additionalTasks.length - 1)` pushed (nonempty additional
tasks) or one sibling slot consumed (empty `do()` with remaining tasks). -/
def searchNextNodeBacktrackable (ps : PlanState) (node : PlanNode) (rest : List PlanNode)
    (additionalTasks : List HtnTerm) (returnPoint : PlanNodeContinuePoint) : PlanState :=
  let mergedTasks :=
    additionalTasks ++
    (if additionalTasks.length > 0 ∧ node.tasks.length > 0 then
      [HtnTerm.compound "methodScopeEnd" [HtnTerm.constInt node.nodeID]]
    else []) ++
    node.tasks
  let stateCopy := node.state.CreateCopy
  let operatorsCopy := node.operators
  let newNode := PlanNode.initNode ps.nextNodeID stateCopy mergedTasks operatorsCopy
  let newNode := { newNode with totalMemoryAtNodePush := ps.dynamicSize }
  let newSibling := popExhaustedScopes node.siblingStack
  let newSibling :=
    if additionalTasks.length > 0 then
      (node.nodeID, (additionalTasks.length : Int) - 1) :: newSibling
    else if mergedTasks.length > 0 then decrementTopScope newSibling
    else newSibling
  let newNode := { newNode with siblingStack := newSibling }
  let newNode :=
    if newNode.totalMemoryAtNodePush > ps.memoryBudget then
      { newNode with continuePoint := .OutOfMemory }
    else newNode
  let node := { node with continuePoint := returnPoint }
  { ps with nextNodeID := ps.nextNodeID + 1, stack := newNode :: node :: rest }

/-- `HtnPlanner::SolutionType` (`HtnPlanner.h`): the plan (`first`), the final
state (`second`), the per-solution decomposition-tree slice, and the memory
high-water mark (wall-clock time is outside the model). -/
structure SolutionType where
  first : List HtnTerm
  second : HtnRuleSet
  decompositionTree : List DecompTreeNode
  highestMemoryUsed : Int
deriving Repr

/-- The per-solution slice of the decomposition tree: the entries whose
`solutionID` matches (the copy loop of `HtnPlanner::SolutionFromCurrentNode`,
`HtnPlanner.cpp` lines 1368-1377). -/
def solutionSlice (tree : List DecompTreeNode) (sid : Int) : List DecompTreeNode :=
  tree.filter (fun tn => tn.solutionID == sid)

/-- `HtnPlanner::SolutionFromCurrentNode` (`HtnPlanner.cpp` lines 1358-1383):
plan and state from the node, plus the tree entries whose `solutionID` equals
`currentSolutionID - 1`. -/
def HtnPlanner.SolutionFromCurrentNode (ps : PlanState) (node : PlanNode) : SolutionType :=
  let firstOps :=
    match node.operators with
    | none => []
    | some ops => ops
  let thisSolutionID := ps.currentSolutionID - 1
  { first := firstOps
    second := node.state
    decompositionTree := solutionSlice ps.decompositionTree thisSolutionID
    highestMemoryUsed := ps.highestMemoryUsed }

/-- `HtnPlanner::Return` (`HtnPlanner.cpp` lines 1350-1356): pop the stack and
deposit the boolean return value. -/
def HtnPlanner.Return (ps : PlanState) (returnValue : Bool) : PlanState :=
  { ps with stack := ps.stack.tail, returnValue }

/-- `HtnPlanner::FindNodeWithID` (`HtnPlanner.cpp` lines 774-786), without the
fail-fast assert: `none` when absent (callers turn that into the error halt). -/
def findNodeWithID (stack : List PlanNode) (id : Int) : Option PlanNode :=
  stack.find? (fun n => n.nodeID == id)

/-- Update the plan node with the given (unique) id in place. -/
def updateNodeWithID (stack : List PlanNode) (id : Int) (f : PlanNode → PlanNode) :
    List PlanNode :=
  stack.map (fun n => if n.nodeID == id then f n else n)

/- ----------------------------------------------------------------------
Task dispatch: `CheckForOperator`, `CheckForSpecialTask`, `HandleAllOf`,
`HandleAnyOf` (`HtnPlanner.cpp` lines 517-735 and 1276-1348).
---------------------------------------------------------------------- -/

/-- Modelled from the spec: `HtnTerm::ResolveArithmeticTerms` (`HtnTerm.cpp`
missing from the source tree); spec section 4.5.1: "Evaluate any arithmetic
subterms it contains (e.g., a task `travel(-(1,2))` becomes `travel(-1)`)" —
each argument that evaluates is replaced by its value, others are kept. -/
def HtnTerm.ResolveArithmeticTerms (t : HtnTerm) : HtnTerm :=
  match t with
  | .compound f args =>
    .compound f (args.map fun a =>
      match a.Eval with
      | some v => v
      | none => a)
  | _ => t

/-- The node mutation of the ground-MGU branch of `CheckForOperator`
(`HtnPlanner.cpp` lines 536-550): substitute the MGU into the operator head,
deletions and additions, update the node's state in place, and append the
substituted head to the operator list unless the operator is hidden. -/
def applyOperatorToNode (node : PlanNode) (op : HtnOperator) (mgu : UnifierType) : PlanNode :=
  let operatorSubstituted := HtnGoalResolver.SubstituteUnifiers mgu op.head
  let finalRemovals := HtnGoalResolver.SubstituteUnifiersList mgu op.deletions
  let finalAdditions := HtnGoalResolver.SubstituteUnifiersList mgu op.additions
  let node := { node with state := node.state.Update finalRemovals finalAdditions }
  if !op.isHidden then node.AddToOperators operatorSubstituted else node

/-- `HtnPlanner::CheckForOperator` (`HtnPlanner.cpp` lines 517-581).
`none` means the current task is not a registered operator (the C++ `false`
return); otherwise the updated plan state is returned: on a ground MGU the
node's state is updated with the substituted deletions/additions, the
substituted head is appended to the operator list unless hidden, and a child
with the remaining tasks is pushed; on a null or non-ground MGU the node is
marked failed and popped with a `false` return value. -/
def HtnPlanner.CheckForOperator (p : HtnPlanner) (ps : PlanState) : Option PlanState :=
  match ps.stack with
  | [] => none
  | node :: rest =>
    match node.task with
    | none => none
    | some task =>
      match operatorMapFind p.m_operators task.name with
      | none => none
      | some op =>
        let groundMgu :=
          match HtnGoalResolver.Unify task op.head with
          | some mgu => if HtnGoalResolver.IsGround mgu then some mgu else none
          | none => none
        match groundMgu with
        | some mgu =>
          let node := applyOperatorToNode node op mgu
          let ps := { ps with stack := node :: rest }
          let ps := HtnPlanner.RecordOperator ps node.nodeID op mgu
          some (searchNextNode ps node rest [] .ReturnFromCheckForOperator)
        | none =>
          let failReason :=
            "Operator did not unify: " ++ op.head.ToString ++ " with " ++ task.ToString
          let ps := HtnPlanner.MarkNodeFailed ps node.nodeID failReason (-1) none
          some (HtnPlanner.Return ps false)

/-- Result of `CheckForSpecialTask`: not a reserved task, a handled new plan
state, or a fail-fast halt (bad bookkeeping id / node not on the stack). -/
inductive SpecialTaskResult where
  | notSpecial
  | handled (ps : PlanState)
  | errorHalt
deriving Repr

/-- `HtnPlanner::CheckForSpecialTask` (`HtnPlanner.cpp` lines 583-735).
Handles the reserved tasks `try`, `tryEnd`, `methodScopeEnd`, `countAnyOf`,
`failIfNoneOf`, `parallel`, `beginParallel`, `endParallel`. -/
def HtnPlanner.CheckForSpecialTask (ps : PlanState) : SpecialTaskResult :=
  match ps.stack with
  | [] => .notSpecial
  | node :: rest =>
    match node.task with
    | none => .notSpecial
    | some task =>
      if task.name == "try" then
        -- try(): push a backtrackable child running the try's subtasks
        -- followed by tryEnd(nodeID) and the remaining tasks; set retry.
        let tasks :=
          task.arguments ++ [HtnTerm.compound "tryEnd" [HtnTerm.constInt node.nodeID]]
        let node := { node with retry := true }
        .handled (searchNextNodeBacktrackable ps node rest tasks .ReturnFromHandleTryTerm)
      else if task.name == "tryEnd" then
        match task.arguments with
        | [arg] =>
          match arg.intFromName with
          | some tryNodeID =>
            if (findNodeWithID (node :: rest) tryNodeID).isSome then
              let stack := updateNodeWithID (node :: rest) tryNodeID
                (fun n => { n with retry := false })
              match stack with
              | top :: r =>
                -- The try() subtask scope is exhausted: pop it
                -- (`HtnPlanner.cpp` lines 622-628).
                let top := top.popSiblingScopeIfMatches tryNodeID
                .handled { ps with stack := { top with continuePoint := .NextTask } :: r }
              | [] => .errorHalt
            else .errorHalt
          | none => .errorHalt
        | _ => .errorHalt
      else if task.name == "methodScopeEnd" then
        match task.arguments with
        | [arg] =>
          match arg.intFromName with
          | some scopeNodeID =>
            -- The method's subtask scope is done: pop it so tasks from the
            -- outer scope get the correct tree parent (lines 641-645).
            let node := node.popSiblingScopeIfMatches scopeNodeID
            .handled { ps with stack := { node with continuePoint := .NextTask } :: rest }
          | none => .errorHalt
        | _ => .errorHalt
      else if task.name == "countAnyOf" then
        match task.arguments with
        | [arg] =>
          match arg.intFromName with
          | some anyOfNodeID =>
            if (findNodeWithID (node :: rest) anyOfNodeID).isSome then
              let stack := updateNodeWithID (node :: rest) anyOfNodeID
                (fun n => { n with tryAnyOfSuccessCount := n.tryAnyOfSuccessCount + 1 })
              match stack with
              | top :: r =>
                .handled { ps with stack := { top with continuePoint := .NextTask } :: r }
              | [] => .errorHalt
            else .errorHalt
          | none => .errorHalt
        | _ => .errorHalt
      else if task.name == "failIfNoneOf" then
        match task.arguments with
        | [arg] =>
          match arg.intFromName with
          | some anyOfNodeID =>
            match findNodeWithID (node :: rest) anyOfNodeID with
            | some anyOfNode =>
              if anyOfNode.tryAnyOfSuccessCount == 0 then
                .handled (HtnPlanner.Return ps false)
              else
                .handled { ps with stack := { node with continuePoint := .NextTask } :: rest }
            | none => .errorHalt
          | none => .errorHalt
        | _ => .errorHalt
      else if task.name == "parallel" then
        let scopeID := node.nodeID
        let expandedTasks :=
          [HtnTerm.compound "beginParallel" [HtnTerm.constInt scopeID]] ++
          task.arguments ++
          [HtnTerm.compound "endParallel" [HtnTerm.constInt scopeID]] ++
          node.tasks
        .handled
          { ps with stack := { node with tasks := expandedTasks, continuePoint := .NextTask } :: rest }
      else if task.name == "beginParallel" || task.name == "endParallel" then
        let node := node.AddToOperators task
        .handled { ps with stack := { node with continuePoint := .NextTask } :: rest }
      else .notSpecial

/-- `HtnPlanner::HandleAllOf` (`HtnPlanner.cpp` lines 1277-1303): concatenate
the substituted subtasks of every condition resolution and push one
backtrackable child. -/
def HtnPlanner.HandleAllOf (ps : PlanState) (node : PlanNode) (rest : List PlanNode)
    (method : HtnMethod) (headUnifier : UnifierType)
    (conditionResolutions : List UnifierType) : PlanState :=
  let combinedSubtasks := conditionResolutions.flatMap fun condition =>
    let headBoundSubtasks := HtnGoalResolver.SubstituteUnifiersList headUnifier method.tasks
    HtnGoalResolver.SubstituteUnifiersList condition headBoundSubtasks
  searchNextNodeBacktrackable ps node rest combinedSubtasks .ReturnFromSetOfConditions

/-- `HtnPlanner::HandleAnyOf` (`HtnPlanner.cpp` lines 1306-1348): wrap each
condition resolution's substituted subtasks in
`try(subtasks..., countAnyOf(N))` for the single fresh id `N` (the id the
pushed child will receive), append `failIfNoneOf(N)`, zero the counter, and
push one backtrackable child. -/
def HtnPlanner.HandleAnyOf (ps : PlanState) (node : PlanNode) (rest : List PlanNode)
    (method : HtnMethod) (headUnifier : UnifierType)
    (conditionResolutions : List UnifierType) : PlanState :=
  let anyOfNodeID := ps.nextNodeID
  let combinedSubtasks :=
    (conditionResolutions.map fun condition =>
      let headBoundSubtasks := HtnGoalResolver.SubstituteUnifiersList headUnifier method.tasks
      let boundSubtasks := HtnGoalResolver.SubstituteUnifiersList condition headBoundSubtasks
      HtnTerm.compound "try"
        (boundSubtasks ++ [HtnTerm.compound "countAnyOf" [HtnTerm.constInt anyOfNodeID]]))
    ++ [HtnTerm.compound "failIfNoneOf" [HtnTerm.constInt anyOfNodeID]]
  let node := { node with tryAnyOfSuccessCount := 0 }
  searchNextNodeBacktrackable ps node rest combinedSubtasks .ReturnFromSetOfConditions

/- ----------------------------------------------------------------------
The main search loop `FindNextPlan` (`HtnPlanner.cpp` lines 916-1243) and the
drivers `FindPlan` / `FindAllPlans` (lines 849-907).
---------------------------------------------------------------------- -/

/-- The skip loop of the `NextMethodThatApplies` state (`HtnPlanner.cpp` lines
1039-1043): starting from the selected method, keep taking the next unified
method while the selected one is flagged `isDefault`. -/
def skipElseAux :
    Option (HtnMethod × UnifierType) → List (HtnMethod × UnifierType) →
    Option (HtnMethod × UnifierType) × List (HtnMethod × UnifierType)
  | some (m, u), rest =>
    if m.isDefault then
      match rest with
      | [] => (none, [])
      | x :: xs => skipElseAux (some x) xs
    else (some (m, u), rest)
  | none, rest => (none, rest)

/-- `PlanNode::SetNextMethodThatUnifies` followed by the `methodHadSolution`
skip block of `NextMethodThatApplies` (`HtnPlanner.cpp` lines 1029-1047):
select the next unified method; if the previous method had a solution, record
`atLeastOneMethodHadSolution`, skip the consecutive `else` methods, and clear
`methodHadSolution`. -/
def PlanNode.AdvanceMethod (n : PlanNode) : PlanNode :=
  let n := n.SetNextMethodThatUnifies
  if n.methodHadSolution then
    let n := { n with atLeastOneMethodHadSolution := true }
    let (m', rest') := skipElseAux n.method n.unifiedMethods
    let n := { n with method := m', unifiedMethods := rest',
                      conditionIndex := -1, conditionResolutions := none }
    { n with methodHadSolution := false }
  else n

/-- The type of the injected condition resolver.  Modelled from the spec
(section 4.3; `HtnGoalResolver.cpp` is not in the source tree):
`ResolveAll(factory, ruleSet, goals, ...)` returns either null (no solution)
or a non-empty list of unifiers, together with the furthest criteria failure
index and the failure context terms. -/
abbrev ResolverType :=
  HtnRuleSet → List HtnTerm → Option (List UnifierType) × Int × List HtnTerm

/-- One iteration of the `while` loop of `HtnPlanner::FindNextPlan`
(`HtnPlanner.cpp` lines 924-1240). -/
inductive StepResult where
  | next (ps : PlanState)
  | answer (ps : PlanState) (solution : Option SolutionType)
  | errorHalt (ps : PlanState)
deriving Repr

/-- One dispatch iteration of `HtnPlanner::FindNextPlan` (`HtnPlanner.cpp`
lines 924-1240): read the top node's continue point (overridden by the
process-wide abort flag), and execute the corresponding case of the `switch`.
An empty stack answers null (the loop exit); `Fail` and impossible internal
states halt (the C++ fail-fast asserts). -/
def HtnPlanner.FindNextPlanStep (p : HtnPlanner) (resolver : ResolverType)
    (statics : HtnPlannerStatics) (ps : PlanState) : StepResult :=
  match ps.stack with
  | [] => .answer ps none
  | node :: rest =>
    let continuePoint :=
      if statics.m_abort ≠ 0 then PlanNodeContinuePoint.Abort else node.continuePoint
    match continuePoint with
    | .Fail => .errorHalt ps
    | .Abort =>
      let node := { node with continuePoint := .Fail }
      let ps := { ps with stack := node :: rest }
      .answer ps (some (HtnPlanner.SolutionFromCurrentNode ps node))
    | .OutOfMemory =>
      let ps := { ps with outOfMemory := true }
      let node := { node with continuePoint := .Fail }
      let ps := { ps with stack := node :: rest }
      .answer ps (some (HtnPlanner.SolutionFromCurrentNode ps node))
    | .NextTask =>
      let node := node.SetNodeTask
      match node.task with
      | none =>
        -- No tasks remain: leaf and solution.
        let ps := { ps with stack := node :: rest }
        let ps := HtnPlanner.MarkPathSuccess ps node.nodeID
        let ps := HtnPlanner.Return ps true
        .answer ps (some (HtnPlanner.SolutionFromCurrentNode ps node))
      | some t0 =>
        let node := { node with task := some t0.ResolveArithmeticTerms }
        let ps := { ps with stack := node :: rest }
        let ps := HtnPlanner.CreateTreeNodeForTask ps node
        match HtnPlanner.CheckForOperator p ps with
        | some ps' => .next ps'
        | none =>
          match HtnPlanner.CheckForSpecialTask ps with
          | .handled ps' => .next ps'
          | .errorHalt => .errorHalt ps
          | .notSpecial =>
            let node := { node with unifiedMethods :=
              p.FindAllMethodsThatUnify t0.ResolveArithmeticTerms }
            let ps := { ps with stack := node :: rest }
            if node.unifiedMethods.length == 0 then
              .next (HtnPlanner.Return ps false)
            else
              .next { ps with stack :=
                { node with continuePoint := .NextMethodThatApplies } :: rest }
    | .NextMethodThatApplies =>
      let node := node.AdvanceMethod
      match node.method with
      | none =>
        let ps := { ps with stack := node :: rest }
        .next (HtnPlanner.Return ps node.atLeastOneMethodHadSolution)
      | some (method, headUnifier) =>
        let ps := { ps with stack := node :: rest }
        let ps := HtnPlanner.RecordMethodChoice ps node.nodeID method headUnifier
        if method.condition.length == 0 then
          -- Empty condition: one solution, the empty unifier.
          let node := { node with conditionResolutions := some [[]] }
          let ps := { ps with stack := node :: rest }
          match method.methodType with
          | .Normal =>
            .next { ps with stack :=
              { node with continuePoint := .NextNormalMethodCondition } :: rest }
          | .AnySetOf =>
            .next (HtnPlanner.HandleAnyOf ps node rest method headUnifier [[]])
          | .AllSetOf =>
            .next (HtnPlanner.HandleAllOf ps node rest method headUnifier [[]])
        else
          let substitutedCondition :=
            HtnGoalResolver.SubstituteUnifiersList headUnifier method.condition
          let resolved := resolver node.state substitutedCondition
          let node := { node with conditionResolutions := resolved.1 }
          let ps := { ps with stack := node :: rest }
          match resolved.1 with
          | none =>
            let failReason :=
              "Condition failed: " ++ HtnTerm.ToStringVector substitutedCondition
            let failedTerm :=
              if 0 ≤ resolved.2.1 ∧ resolved.2.1.toNat < substitutedCondition.length then
                substitutedCondition.get? resolved.2.1.toNat
              else none
            let ps := HtnPlanner.MarkNodeFailed ps node.nodeID failReason resolved.2.1 failedTerm
            let ps := ps.RecordFailure resolved.2.1 resolved.2.2
            .next { ps with stack :=
              { node with continuePoint := .NextMethodThatApplies } :: rest }
          | some conditionResolutions =>
            match method.methodType with
            | .Normal =>
              .next { ps with stack :=
                { node with continuePoint := .NextNormalMethodCondition } :: rest }
            | .AnySetOf =>
              .next (HtnPlanner.HandleAnyOf ps node rest method headUnifier conditionResolutions)
            | .AllSetOf =>
              .next (HtnPlanner.HandleAllOf ps node rest method headUnifier conditionResolutions)
    | .NextNormalMethodCondition =>
      let node := node.SetNextCondition
      match node.condition with
      | none =>
        .next { ps with stack :=
          { node with continuePoint := .NextMethodThatApplies } :: rest }
      | some condition =>
        match node.method with
        | none => .errorHalt ps
        | some (method, headUnifier) =>
          let ps := { ps with stack := node :: rest }
          let ps := HtnPlanner.RecordConditionBindings ps node.nodeID condition
          let headBoundSubtasks :=
            HtnGoalResolver.SubstituteUnifiersList headUnifier method.tasks
          let boundSubtasks :=
            HtnGoalResolver.SubstituteUnifiersList condition headBoundSubtasks
          .next (searchNextNodeBacktrackable ps node rest boundSubtasks
            .ReturnFromNextNormalMethodCondition)
    | .ReturnFromNextNormalMethodCondition =>
      let node := if ps.returnValue then { node with methodHadSolution := true } else node
      .next { ps with stack :=
        { node with continuePoint := .NextNormalMethodCondition } :: rest }
    | .ReturnFromCheckForOperator =>
      .next (HtnPlanner.Return ps ps.returnValue)
    | .ReturnFromHandleTryTerm =>
      if ps.returnValue == false ∧ node.retry then
        -- The failure path must also pop the scope pushed by the try()
        -- expansion (`HtnPlanner.cpp` lines 1209-1213).
        let node := node.popSiblingScopeIfMatches node.nodeID
        .next { ps with stack := { node with continuePoint := .NextTask } :: rest }
      else
        .next (HtnPlanner.Return ps ps.returnValue)
    | .ReturnFromSetOfConditions =>
      let node := if ps.returnValue then { node with methodHadSolution := true } else node
      .next { ps with stack :=
        { node with continuePoint := .NextMethodThatApplies } :: rest }

/-- Outcome of running the dispatch loop to completion. -/
inductive PlanOutcome where
  | found (solution : SolutionType) (ps : PlanState)
  | exhausted (ps : PlanState)
  | outOfFuel
  | errorHalt (ps : PlanState)
deriving Repr

/-- `HtnPlanner::FindNextPlan` (`HtnPlanner.cpp` lines 916-1243): iterate the
dispatch step until a solution is produced or the stack empties.  The C++ loop
has no intrinsic bound (divergent domains are stopped only by the memory
budget), so the iteration carries explicit fuel. -/
def HtnPlanner.FindNextPlan (p : HtnPlanner) (resolver : ResolverType)
    (statics : HtnPlannerStatics) : Nat → PlanState → PlanOutcome
  | 0, _ => .outOfFuel
  | fuel + 1, ps =>
    match HtnPlanner.FindNextPlanStep p resolver statics ps with
    | .next ps' => HtnPlanner.FindNextPlan p resolver statics fuel ps'
    | .answer ps' (some sol) => .found sol ps'
    | .answer ps' none => .exhausted ps'
    | .errorHalt ps' => .errorHalt ps'

/-- `HtnPlanner::FindPlan` (`HtnPlanner.cpp` lines 849-856): build a fresh
`PlanState` over the initial state and goals and ask for the first plan. -/
def HtnPlanner.FindPlan (p : HtnPlanner) (resolver : ResolverType)
    (statics : HtnPlannerStatics) (fuel : Nat) (initialState : HtnRuleSet)
    (initialGoals : List HtnTerm) (memoryBudget : Int) : PlanOutcome :=
  HtnPlanner.FindNextPlan p resolver statics fuel
    (PlanState.init initialState initialGoals memoryBudget)

/-- The solution-collecting loop of `HtnPlanner::FindAllPlans`
(`HtnPlanner.cpp` lines 858-907): call `FindNextPlan` repeatedly; stop after a
solution obtained under the out-of-memory flag; `none` only on fuel or
internal error. -/
def HtnPlanner.FindAllPlansLoop (p : HtnPlanner) (resolver : ResolverType)
    (statics : HtnPlannerStatics) : Nat → Nat → PlanState → Option (List SolutionType)
  | 0, _, _ => none
  | outerFuel + 1, innerFuel, ps =>
    match HtnPlanner.FindNextPlan p resolver statics innerFuel ps with
    | .found sol ps' =>
      if ps'.outOfMemory then some [sol]
      else
        match HtnPlanner.FindAllPlansLoop p resolver statics outerFuel innerFuel ps' with
        | some sols => some (sol :: sols)
        | none => none
    | .exhausted _ => some []
    | _ => none

/-- `HtnPlanner::FindAllPlans` (`HtnPlanner.cpp` lines 858-907) on a fresh
`PlanState` (an empty result list plays the role of the C++ null result). -/
def HtnPlanner.FindAllPlans (p : HtnPlanner) (resolver : ResolverType)
    (statics : HtnPlannerStatics) (outerFuel innerFuel : Nat) (initialState : HtnRuleSet)
    (initialGoals : List HtnTerm) (memoryBudget : Int) : Option (List SolutionType) :=
  HtnPlanner.FindAllPlansLoop p resolver statics outerFuel innerFuel
    (PlanState.init initialState initialGoals memoryBudget)

/- ----------------------------------------------------------------------
Analysis of the method-iteration discipline (the `NextMethodThatApplies`
re-entry loop, `HtnPlanner.cpp` lines 1027-1054 together with
`ReturnFromNextNormalMethodCondition` / `ReturnFromSetOfConditions`,
lines 1178-1238): the sequence of methods actually tried, given an oracle that
says which tried methods end up yielding a solution (setting
`methodHadSolution` during their exploration).
---------------------------------------------------------------------- -/

/-- One method selection of the `NextMethodThatApplies` state:
`SetNextMethodThatUnifies` takes the front of the remaining unified methods,
and when `methodHadSolution` is set the skip loop advances over consecutive
`isDefault` methods (`PlanNode.AdvanceMethod`).  Returns the selected method
(none when exhausted) and the remaining list. -/
def nextSelected (ms : List (HtnMethod × UnifierType)) (flag : Bool) :
    Option (HtnMethod × UnifierType) × List (HtnMethod × UnifierType) :=
  match ms with
  | [] => (none, [])
  | x :: rest => if flag then skipElseAux (some x) rest else (some x, rest)

/-- The methods tried in order by iterating `nextSelected`, with the oracle
`sol` giving each tried method's `methodHadSolution` outcome (whether its
exploration produced at least one solution).  Fuel-structural so that concrete
traces evaluate; `triedMethods` supplies sufficient fuel. -/
def triedMethodsFuel (sol : HtnMethod → Bool) :
    Nat → List (HtnMethod × UnifierType) → Bool → List HtnMethod
  | 0, _, _ => []
  | fuel + 1, ms, flag =>
    match nextSelected ms flag with
    | (none, _) => []
    | (some (m, _), rest) => m :: triedMethodsFuel sol fuel rest (sol m)

/-- The trace of tried methods for a node whose unified-method list is `ms`,
entered with `methodHadSolution = flag`. -/
def triedMethods (sol : HtnMethod → Bool) (ms : List (HtnMethod × UnifierType))
    (flag : Bool) : List HtnMethod :=
  triedMethodsFuel sol (ms.length + 1) ms flag

/- ----------------------------------------------------------------------
Concrete fixtures used by the claim witnesses and counterexamples.
---------------------------------------------------------------------- -/

/-- A resolver that is never consulted (all fixture conditions are empty;
the planner handles the empty condition without calling the resolver). -/
def nullResolver : ResolverType := fun _ _ => (none, -1, [])

/-- The statics with no pending abort. -/
def staticsNoAbort : HtnPlannerStatics := { m_abort := 0 }

/-- Fixture domain: two Normal methods for `taskM` with empty conditions,
decomposing into the operators `op1` and `op2` respectively — two plans. -/
def twoSolutionDomain : HtnPlanner :=
  ((((HtnPlanner.construct { m_abort := 0 }).1.AddOperator
      (.constAtom "op1") [.constAtom "a1"] [] false).AddOperator
      (.constAtom "op2") [.constAtom "a2"] [] false).AddMethod
      (.constAtom "taskM") [] [.constAtom "op1"] .Normal false).AddMethod
      (.constAtom "taskM") [] [.constAtom "op2"] .Normal false

/-- `FindAllPlans` over `twoSolutionDomain` with the goal `taskM`. -/
def twoSolutionRun : Option (List SolutionType) :=
  HtnPlanner.FindAllPlans twoSolutionDomain nullResolver staticsNoAbort 5 30
    { facts := [] } [.constAtom "taskM"] 5000000

/-- Intermediate state 0 of the dispatch trace of `twoSolutionRun`. -/
def C2st0 : PlanState :=
  { furthestCriteriaFailure := -1, furthestCriteriaFailureContext := [], deepestTaskFailure := -1, highestMemoryUsed := 0, initialState := { facts := [] }, memoryBudget := 5000000, nextNodeID := 1, returnValue := false, stack := [{ atLeastOneMethodHadSolution := false, conditionIndex := -1, conditionResolutions := none, continuePoint := PlanNodeContinuePoint.NextTask, method := none, methodHadSolution := false, operators := none, retry := false, state := { facts := [] }, task := none, tasks := [HtnTerm.constAtom "taskM"], totalMemoryAtNodePush := 0, tryAnyOfSuccessCount := 0, unifiedMethods := [], nodeID := 0 }], decompositionTree := [{ treeNodeID := 0, nodeID := 0, parentNodeID := -1, childNodeIDs := [], taskName := "taskM", methodSignature := "", operatorSignature := "", unifiers := [], conditionBindings := [], isOperator := false, isSuccess := false, isFailed := false, failureReason := "", solutionID := -1, methodIndex := -1, conditionTermsJson := [], failedConditionIndex := -1, failedConditionTermJson := "" }], treeNodeIDToTreeIndex := [(0, 0)], nodeIDToLastTreeNodeID := [(0, 0)], bookkeepingParents := [], currentSolutionID := 0, nextTreeNodeID := 1, outOfMemory := false }

/-- Intermediate state 1 of the dispatch trace of `twoSolutionRun`. -/
def C2st1 : PlanState :=
  { furthestCriteriaFailure := -1, furthestCriteriaFailureContext := [], deepestTaskFailure := -1, highestMemoryUsed := 0, initialState := { facts := [] }, memoryBudget := 5000000, nextNodeID := 1, returnValue := false, stack := [{ atLeastOneMethodHadSolution := false, conditionIndex := -1, conditionResolutions := none, continuePoint := PlanNodeContinuePoint.NextMethodThatApplies, method := none, methodHadSolution := false, operators := none, retry := false, state := { facts := [] }, task := some (HtnTerm.constAtom "taskM"), tasks := [], totalMemoryAtNodePush := 0, tryAnyOfSuccessCount := 0, unifiedMethods := [({ head := HtnTerm.constAtom "taskM", condition := [], tasks := [HtnTerm.constAtom "op1"], methodType := HtnMethodType.Normal, isDefault := false, documentOrder := 1 }, []), ({ head := HtnTerm.constAtom "taskM", condition := [], tasks := [HtnTerm.constAtom "op2"], methodType := HtnMethodType.Normal, isDefault := false, documentOrder := 2 }, [])], nodeID := 0, siblingStack := [] }], decompositionTree := [{ treeNodeID := 0, nodeID := 0, parentNodeID := -1, childNodeIDs := [], taskName := "taskM", methodSignature := "", operatorSignature := "", unifiers := [], conditionBindings := [], isOperator := false, isSuccess := false, isFailed := false, failureReason := "", solutionID := -1, methodIndex := -1, conditionTermsJson := [], failedConditionIndex := -1, failedConditionTermJson := "" }], treeNodeIDToTreeIndex := [(0, 0)], nodeIDToLastTreeNodeID := [(0, 0)], bookkeepingParents := [], currentSolutionID := 0, nextTreeNodeID := 1, outOfMemory := false }

/-- Intermediate state 2 of the dispatch trace of `twoSolutionRun`. -/
def C2st2 : PlanState :=
  { furthestCriteriaFailure := -1, furthestCriteriaFailureContext := [], deepestTaskFailure := -1, highestMemoryUsed := 0, initialState := { facts := [] }, memoryBudget := 5000000, nextNodeID := 1, returnValue := false, stack := [{ atLeastOneMethodHadSolution := false, conditionIndex := -1, conditionResolutions := some [[]], continuePoint := PlanNodeContinuePoint.NextNormalMethodCondition, method := some ({ head := HtnTerm.constAtom "taskM", condition := [], tasks := [HtnTerm.constAtom "op1"], methodType := HtnMethodType.Normal, isDefault := false, documentOrder := 1 }, []), methodHadSolution := false, operators := none, retry := false, state := { facts := [] }, task := some (HtnTerm.constAtom "taskM"), tasks := [], totalMemoryAtNodePush := 0, tryAnyOfSuccessCount := 0, unifiedMethods := [({ head := HtnTerm.constAtom "taskM", condition := [], tasks := [HtnTerm.constAtom "op2"], methodType := HtnMethodType.Normal, isDefault := false, documentOrder := 2 }, [])], nodeID := 0, siblingStack := [] }], decompositionTree := [{ treeNodeID := 0, nodeID := 0, parentNodeID := -1, childNodeIDs := [], taskName := "taskM", methodSignature := "taskM => if(), do(op1)", operatorSignature := "", unifiers := [], conditionBindings := [], isOperator := false, isSuccess := false, isFailed := false, failureReason := "", solutionID := -1, methodIndex := 1, conditionTermsJson := [], failedConditionIndex := -1, failedConditionTermJson := "" }], treeNodeIDToTreeIndex := [(0, 0)], nodeIDToLastTreeNodeID := [(0, 0)], bookkeepingParents := [], currentSolutionID := 0, nextTreeNodeID := 1, outOfMemory := false }

/-- Intermediate state 3 of the dispatch trace of `twoSolutionRun`. -/
def C2st3 : PlanState :=
  { furthestCriteriaFailure := -1, furthestCriteriaFailureContext := [], deepestTaskFailure := -1, highestMemoryUsed := 0, initialState := { facts := [] }, memoryBudget := 5000000, nextNodeID := 2, returnValue := false, stack := [{ atLeastOneMethodHadSolution := false, conditionIndex := -1, conditionResolutions := none, continuePoint := PlanNodeContinuePoint.NextTask, method := none, methodHadSolution := false, operators := none, retry := false, state := { facts := [] }, task := none, tasks := [HtnTerm.constAtom "op1"], totalMemoryAtNodePush := 0, tryAnyOfSuccessCount := 0, unifiedMethods := [], nodeID := 1, siblingStack := [(0, 0)] }, { atLeastOneMethodHadSolution := false, conditionIndex := 0, conditionResolutions := some [[]], continuePoint := PlanNodeContinuePoint.ReturnFromNextNormalMethodCondition, method := some ({ head := HtnTerm.constAtom "taskM", condition := [], tasks := [HtnTerm.constAtom "op1"], methodType := HtnMethodType.Normal, isDefault := false, documentOrder := 1 }, []), methodHadSolution := false, operators := none, retry := false, state := { facts := [] }, task := some (HtnTerm.constAtom "taskM"), tasks := [], totalMemoryAtNodePush := 0, tryAnyOfSuccessCount := 0, unifiedMethods := [({ head := HtnTerm.constAtom "taskM", condition := [], tasks := [HtnTerm.constAtom "op2"], methodType := HtnMethodType.Normal, isDefault := false, documentOrder := 2 }, [])], nodeID := 0, siblingStack := [] }], decompositionTree := [{ treeNodeID := 0, nodeID := 0, parentNodeID := -1, childNodeIDs := [], taskName := "taskM", methodSignature := "taskM => if(), do(op1)", operatorSignature := "", unifiers := [], conditionBindings := [], isOperator := false, isSuccess := false, isFailed := false, failureReason := "", solutionID := -1, methodIndex := 1, conditionTermsJson := [], failedConditionIndex := -1, failedConditionTermJson := "" }], treeNodeIDToTreeIndex := [(0, 0)], nodeIDToLastTreeNodeID := [(0, 0)], bookkeepingParents := [], currentSolutionID := 0, nextTreeNodeID := 1, outOfMemory := false }

/-- Intermediate state 4 of the dispatch trace of `twoSolutionRun`. -/
def C2st4 : PlanState :=
  { furthestCriteriaFailure := -1, furthestCriteriaFailureContext := [], deepestTaskFailure := -1, highestMemoryUsed := 0, initialState := { facts := [] }, memoryBudget := 5000000, nextNodeID := 3, returnValue := false, stack := [{ atLeastOneMethodHadSolution := false, conditionIndex := -1, conditionResolutions := none, continuePoint := PlanNodeContinuePoint.NextTask, method := none, methodHadSolution := false, operators := some [HtnTerm.constAtom "op1"], retry := false, state := { facts := [HtnTerm.constAtom "a1"] }, task := none, tasks := [], totalMemoryAtNodePush := 0, tryAnyOfSuccessCount := 0, unifiedMethods := [], nodeID := 2, siblingStack := [] }, { atLeastOneMethodHadSolution := false, conditionIndex := -1, conditionResolutions := none, continuePoint := PlanNodeContinuePoint.ReturnFromCheckForOperator, method := none, methodHadSolution := false, operators := some [HtnTerm.constAtom "op1"], retry := false, state := { facts := [HtnTerm.constAtom "a1"] }, task := some (HtnTerm.constAtom "op1"), tasks := [], totalMemoryAtNodePush := 0, tryAnyOfSuccessCount := 0, unifiedMethods := [], nodeID := 1, siblingStack := [(0, 0)] }, { atLeastOneMethodHadSolution := false, conditionIndex := 0, conditionResolutions := some [[]], continuePoint := PlanNodeContinuePoint.ReturnFromNextNormalMethodCondition, method := some ({ head := HtnTerm.constAtom "taskM", condition := [], tasks := [HtnTerm.constAtom "op1"], methodType := HtnMethodType.Normal, isDefault := false, documentOrder := 1 }, []), methodHadSolution := false, operators := none, retry := false, state := { facts := [] }, task := some (HtnTerm.constAtom "taskM"), tasks := [], totalMemoryAtNodePush := 0, tryAnyOfSuccessCount := 0, unifiedMethods := [({ head := HtnTerm.constAtom "taskM", condition := [], tasks := [HtnTerm.constAtom "op2"], methodType := HtnMethodType.Normal, isDefault := false, documentOrder := 2 }, [])], nodeID := 0, siblingStack := [] }], decompositionTree := [{ treeNodeID := 0, nodeID := 0, parentNodeID := -1, childNodeIDs := [1], taskName := "taskM", methodSignature := "taskM => if(), do(op1)", operatorSignature := "", unifiers := [], conditionBindings := [], isOperator := false, isSuccess := false, isFailed := false, failureReason := "", solutionID := -1, methodIndex := 1, conditionTermsJson := [], failedConditionIndex := -1, failedConditionTermJson := "" }, { treeNodeID := 1, nodeID := 1, parentNodeID := 0, childNodeIDs := [], taskName := "op1", methodSignature := "", operatorSignature := "op1", unifiers := [], conditionBindings := [], isOperator := true, isSuccess := false, isFailed := false, failureReason := "", solutionID := -1, methodIndex := -1, conditionTermsJson := [], failedConditionIndex := -1, failedConditionTermJson := "" }], treeNodeIDToTreeIndex := [(0, 0), (1, 1)], nodeIDToLastTreeNodeID := [(0, 0), (1, 1)], bookkeepingParents := [], currentSolutionID := 0, nextTreeNodeID := 2, outOfMemory := false }

/-- Intermediate state 5 of the dispatch trace of `twoSolutionRun`. -/
def C2st5 : PlanState :=
  { furthestCriteriaFailure := -1, furthestCriteriaFailureContext := [], deepestTaskFailure := -1, highestMemoryUsed := 0, initialState := { facts := [] }, memoryBudget := 5000000, nextNodeID := 3, returnValue := true, stack := [{ atLeastOneMethodHadSolution := false, conditionIndex := -1, conditionResolutions := none, continuePoint := PlanNodeContinuePoint.ReturnFromCheckForOperator, method := none, methodHadSolution := false, operators := some [HtnTerm.constAtom "op1"], retry := false, state := { facts := [HtnTerm.constAtom "a1"] }, task := some (HtnTerm.constAtom "op1"), tasks := [], totalMemoryAtNodePush := 0, tryAnyOfSuccessCount := 0, unifiedMethods := [], nodeID := 1, siblingStack := [(0, 0)] }, { atLeastOneMethodHadSolution := false, conditionIndex := 0, conditionResolutions := some [[]], continuePoint := PlanNodeContinuePoint.ReturnFromNextNormalMethodCondition, method := some ({ head := HtnTerm.constAtom "taskM", condition := [], tasks := [HtnTerm.constAtom "op1"], methodType := HtnMethodType.Normal, isDefault := false, documentOrder := 1 }, []), methodHadSolution := false, operators := none, retry := false, state := { facts := [] }, task := some (HtnTerm.constAtom "taskM"), tasks := [], totalMemoryAtNodePush := 0, tryAnyOfSuccessCount := 0, unifiedMethods := [({ head := HtnTerm.constAtom "taskM", condition := [], tasks := [HtnTerm.constAtom "op2"], methodType := HtnMethodType.Normal, isDefault := false, documentOrder := 2 }, [])], nodeID := 0, siblingStack := [] }], decompositionTree := [{ treeNodeID := 0, nodeID := 0, parentNodeID := -1, childNodeIDs := [1], taskName := "taskM", methodSignature := "taskM => if(), do(op1)", operatorSignature := "", unifiers := [], conditionBindings := [], isOperator := false, isSuccess := true, isFailed := false, failureReason := "", solutionID := 0, methodIndex := 1, conditionTermsJson := [], failedConditionIndex := -1, failedConditionTermJson := "" }, { treeNodeID := 1, nodeID := 1, parentNodeID := 0, childNodeIDs := [], taskName := "op1", methodSignature := "", operatorSignature := "op1", unifiers := [], conditionBindings := [], isOperator := true, isSuccess := true, isFailed := false, failureReason := "", solutionID := 0, methodIndex := -1, conditionTermsJson := [], failedConditionIndex := -1, failedConditionTermJson := "" }], treeNodeIDToTreeIndex := [(0, 0), (1, 1)], nodeIDToLastTreeNodeID := [(0, 0), (1, 1)], bookkeepingParents := [], currentSolutionID := 1, nextTreeNodeID := 2, outOfMemory := false }

/-- Intermediate state 6 of the dispatch trace of `twoSolutionRun`. -/
def C2st6 : PlanState :=
  { furthestCriteriaFailure := -1, furthestCriteriaFailureContext := [], deepestTaskFailure := -1, highestMemoryUsed := 0, initialState := { facts := [] }, memoryBudget := 5000000, nextNodeID := 3, returnValue := true, stack := [{ atLeastOneMethodHadSolution := false, conditionIndex := 0, conditionResolutions := some [[]], continuePoint := PlanNodeContinuePoint.ReturnFromNextNormalMethodCondition, method := some ({ head := HtnTerm.constAtom "taskM", condition := [], tasks := [HtnTerm.constAtom "op1"], methodType := HtnMethodType.Normal, isDefault := false, documentOrder := 1 }, []), methodHadSolution := false, operators := none, retry := false, state := { facts := [] }, task := some (HtnTerm.constAtom "taskM"), tasks := [], totalMemoryAtNodePush := 0, tryAnyOfSuccessCount := 0, unifiedMethods := [({ head := HtnTerm.constAtom "taskM", condition := [], tasks := [HtnTerm.constAtom "op2"], methodType := HtnMethodType.Normal, isDefault := false, documentOrder := 2 }, [])], nodeID := 0, siblingStack := [] }], decompositionTree := [{ treeNodeID := 0, nodeID := 0, parentNodeID := -1, childNodeIDs := [1], taskName := "taskM", methodSignature := "taskM => if(), do(op1)", operatorSignature := "", unifiers := [], conditionBindings := [], isOperator := false, isSuccess := true, isFailed := false, failureReason := "", solutionID := 0, methodIndex := 1, conditionTermsJson := [], failedConditionIndex := -1, failedConditionTermJson := "" }, { treeNodeID := 1, nodeID := 1, parentNodeID := 0, childNodeIDs := [], taskName := "op1", methodSignature := "", operatorSignature := "op1", unifiers := [], conditionBindings := [], isOperator := true, isSuccess := true, isFailed := false, failureReason := "", solutionID := 0, methodIndex := -1, conditionTermsJson := [], failedConditionIndex := -1, failedConditionTermJson := "" }], treeNodeIDToTreeIndex := [(0, 0), (1, 1)], nodeIDToLastTreeNodeID := [(0, 0), (1, 1)], bookkeepingParents := [], currentSolutionID := 1, nextTreeNodeID := 2, outOfMemory := false }

/-- Intermediate state 7 of the dispatch trace of `twoSolutionRun`. -/
def C2st7 : PlanState :=
  { furthestCriteriaFailure := -1, furthestCriteriaFailureContext := [], deepestTaskFailure := -1, highestMemoryUsed := 0, initialState := { facts := [] }, memoryBudget := 5000000, nextNodeID := 3, returnValue := true, stack := [{ atLeastOneMethodHadSolution := false, conditionIndex := 0, conditionResolutions := some [[]], continuePoint := PlanNodeContinuePoint.NextNormalMethodCondition, method := some ({ head := HtnTerm.constAtom "taskM", condition := [], tasks := [HtnTerm.constAtom "op1"], methodType := HtnMethodType.Normal, isDefault := false, documentOrder := 1 }, []), methodHadSolution := true, operators := none, retry := false, state := { facts := [] }, task := some (HtnTerm.constAtom "taskM"), tasks := [], totalMemoryAtNodePush := 0, tryAnyOfSuccessCount := 0, unifiedMethods := [({ head := HtnTerm.constAtom "taskM", condition := [], tasks := [HtnTerm.constAtom "op2"], methodType := HtnMethodType.Normal, isDefault := false, documentOrder := 2 }, [])], nodeID := 0, siblingStack := [] }], decompositionTree := [{ treeNodeID := 0, nodeID := 0, parentNodeID := -1, childNodeIDs := [1], taskName := "taskM", methodSignature := "taskM => if(), do(op1)", operatorSignature := "", unifiers := [], conditionBindings := [], isOperator := false, isSuccess := true, isFailed := false, failureReason := "", solutionID := 0, methodIndex := 1, conditionTermsJson := [], failedConditionIndex := -1, failedConditionTermJson := "" }, { treeNodeID := 1, nodeID := 1, parentNodeID := 0, childNodeIDs := [], taskName := "op1", methodSignature := "", operatorSignature := "op1", unifiers := [], conditionBindings := [], isOperator := true, isSuccess := true, isFailed := false, failureReason := "", solutionID := 0, methodIndex := -1, conditionTermsJson := [], failedConditionIndex := -1, failedConditionTermJson := "" }], treeNodeIDToTreeIndex := [(0, 0), (1, 1)], nodeIDToLastTreeNodeID := [(0, 0), (1, 1)], bookkeepingParents := [], currentSolutionID := 1, nextTreeNodeID := 2, outOfMemory := false }

/-- Intermediate state 8 of the dispatch trace of `twoSolutionRun`. -/
def C2st8 : PlanState :=
  { furthestCriteriaFailure := -1, furthestCriteriaFailureContext := [], deepestTaskFailure := -1, highestMemoryUsed := 0, initialState := { facts := [] }, memoryBudget := 5000000, nextNodeID := 3, returnValue := true, stack := [{ atLeastOneMethodHadSolution := false, conditionIndex := 1, conditionResolutions := some [[]], continuePoint := PlanNodeContinuePoint.NextMethodThatApplies, method := some ({ head := HtnTerm.constAtom "taskM", condition := [], tasks := [HtnTerm.constAtom "op1"], methodType := HtnMethodType.Normal, isDefault := false, documentOrder := 1 }, []), methodHadSolution := true, operators := none, retry := false, state := { facts := [] }, task := some (HtnTerm.constAtom "taskM"), tasks := [], totalMemoryAtNodePush := 0, tryAnyOfSuccessCount := 0, unifiedMethods := [({ head := HtnTerm.constAtom "taskM", condition := [], tasks := [HtnTerm.constAtom "op2"], methodType := HtnMethodType.Normal, isDefault := false, documentOrder := 2 }, [])], nodeID := 0, siblingStack := [] }], decompositionTree := [{ treeNodeID := 0, nodeID := 0, parentNodeID := -1, childNodeIDs := [1], taskName := "taskM", methodSignature := "taskM => if(), do(op1)", operatorSignature := "", unifiers := [], conditionBindings := [], isOperator := false, isSuccess := true, isFailed := false, failureReason := "", solutionID := 0, methodIndex := 1, conditionTermsJson := [], failedConditionIndex := -1, failedConditionTermJson := "" }, { treeNodeID := 1, nodeID := 1, parentNodeID := 0, childNodeIDs := [], taskName := "op1", methodSignature := "", operatorSignature := "op1", unifiers := [], conditionBindings := [], isOperator := true, isSuccess := true, isFailed := false, failureReason := "", solutionID := 0, methodIndex := -1, conditionTermsJson := [], failedConditionIndex := -1, failedConditionTermJson := "" }], treeNodeIDToTreeIndex := [(0, 0), (1, 1)], nodeIDToLastTreeNodeID := [(0, 0), (1, 1)], bookkeepingParents := [], currentSolutionID := 1, nextTreeNodeID := 2, outOfMemory := false }

/-- Intermediate state 9 of the dispatch trace of `twoSolutionRun`. -/
def C2st9 : PlanState :=
  { furthestCriteriaFailure := -1, furthestCriteriaFailureContext := [], deepestTaskFailure := -1, highestMemoryUsed := 0, initialState := { facts := [] }, memoryBudget := 5000000, nextNodeID := 3, returnValue := true, stack := [{ atLeastOneMethodHadSolution := true, conditionIndex := -1, conditionResolutions := some [[]], continuePoint := PlanNodeContinuePoint.NextNormalMethodCondition, method := some ({ head := HtnTerm.constAtom "taskM", condition := [], tasks := [HtnTerm.constAtom "op2"], methodType := HtnMethodType.Normal, isDefault := false, documentOrder := 2 }, []), methodHadSolution := false, operators := none, retry := false, state := { facts := [] }, task := some (HtnTerm.constAtom "taskM"), tasks := [], totalMemoryAtNodePush := 0, tryAnyOfSuccessCount := 0, unifiedMethods := [], nodeID := 0, siblingStack := [] }], decompositionTree := [{ treeNodeID := 0, nodeID := 0, parentNodeID := -1, childNodeIDs := [1], taskName := "taskM", methodSignature := "taskM => if(), do(op2)", operatorSignature := "", unifiers := [], conditionBindings := [], isOperator := false, isSuccess := true, isFailed := false, failureReason := "", solutionID := 0, methodIndex := 2, conditionTermsJson := [], failedConditionIndex := -1, failedConditionTermJson := "" }, { treeNodeID := 1, nodeID := 1, parentNodeID := 0, childNodeIDs := [], taskName := "op1", methodSignature := "", operatorSignature := "op1", unifiers := [], conditionBindings := [], isOperator := true, isSuccess := true, isFailed := false, failureReason := "", solutionID := 0, methodIndex := -1, conditionTermsJson := [], failedConditionIndex := -1, failedConditionTermJson := "" }], treeNodeIDToTreeIndex := [(0, 0), (1, 1)], nodeIDToLastTreeNodeID := [(0, 0), (1, 1)], bookkeepingParents := [], currentSolutionID := 1, nextTreeNodeID := 2, outOfMemory := false }

/-- Intermediate state 10 of the dispatch trace of `twoSolutionRun`. -/
def C2st10 : PlanState :=
  { furthestCriteriaFailure := -1, furthestCriteriaFailureContext := [], deepestTaskFailure := -1, highestMemoryUsed := 0, initialState := { facts := [] }, memoryBudget := 5000000, nextNodeID := 4, returnValue := true, stack := [{ atLeastOneMethodHadSolution := false, conditionIndex := -1, conditionResolutions := none, continuePoint := PlanNodeContinuePoint.NextTask, method := none, methodHadSolution := false, operators := none, retry := false, state := { facts := [] }, task := none, tasks := [HtnTerm.constAtom "op2"], totalMemoryAtNodePush := 0, tryAnyOfSuccessCount := 0, unifiedMethods := [], nodeID := 3, siblingStack := [(0, 0)] }, { atLeastOneMethodHadSolution := true, conditionIndex := 0, conditionResolutions := some [[]], continuePoint := PlanNodeContinuePoint.ReturnFromNextNormalMethodCondition, method := some ({ head := HtnTerm.constAtom "taskM", condition := [], tasks := [HtnTerm.constAtom "op2"], methodType := HtnMethodType.Normal, isDefault := false, documentOrder := 2 }, []), methodHadSolution := false, operators := none, retry := false, state := { facts := [] }, task := some (HtnTerm.constAtom "taskM"), tasks := [], totalMemoryAtNodePush := 0, tryAnyOfSuccessCount := 0, unifiedMethods := [], nodeID := 0, siblingStack := [] }], decompositionTree := [{ treeNodeID := 0, nodeID := 0, parentNodeID := -1, childNodeIDs := [1], taskName := "taskM", methodSignature := "taskM => if(), do(op2)", operatorSignature := "", unifiers := [], conditionBindings := [], isOperator := false, isSuccess := true, isFailed := false, failureReason := "", solutionID := 0, methodIndex := 2, conditionTermsJson := [], failedConditionIndex := -1, failedConditionTermJson := "" }, { treeNodeID := 1, nodeID := 1, parentNodeID := 0, childNodeIDs := [], taskName := "op1", methodSignature := "", operatorSignature := "op1", unifiers := [], conditionBindings := [], isOperator := true, isSuccess := true, isFailed := false, failureReason := "", solutionID := 0, methodIndex := -1, conditionTermsJson := [], failedConditionIndex := -1, failedConditionTermJson := "" }], treeNodeIDToTreeIndex := [(0, 0), (1, 1)], nodeIDToLastTreeNodeID := [(0, 0), (1, 1)], bookkeepingParents := [], currentSolutionID := 1, nextTreeNodeID := 2, outOfMemory := false }

/-- Intermediate state 11 of the dispatch trace of `twoSolutionRun`. -/
def C2st11 : PlanState :=
  { furthestCriteriaFailure := -1, furthestCriteriaFailureContext := [], deepestTaskFailure := -1, highestMemoryUsed := 0, initialState := { facts := [] }, memoryBudget := 5000000, nextNodeID := 5, returnValue := true, stack := [{ atLeastOneMethodHadSolution := false, conditionIndex := -1, conditionResolutions := none, continuePoint := PlanNodeContinuePoint.NextTask, method := none, methodHadSolution := false, operators := some [HtnTerm.constAtom "op2"], retry := false, state := { facts := [HtnTerm.constAtom "a2"] }, task := none, tasks := [], totalMemoryAtNodePush := 0, tryAnyOfSuccessCount := 0, unifiedMethods := [], nodeID := 4, siblingStack := [] }, { atLeastOneMethodHadSolution := false, conditionIndex := -1, conditionResolutions := none, continuePoint := PlanNodeContinuePoint.ReturnFromCheckForOperator, method := none, methodHadSolution := false, operators := some [HtnTerm.constAtom "op2"], retry := false, state := { facts := [HtnTerm.constAtom "a2"] }, task := some (HtnTerm.constAtom "op2"), tasks := [], totalMemoryAtNodePush := 0, tryAnyOfSuccessCount := 0, unifiedMethods := [], nodeID := 3, siblingStack := [(0, 0)] }, { atLeastOneMethodHadSolution := true, conditionIndex := 0, conditionResolutions := some [[]], continuePoint := PlanNodeContinuePoint.ReturnFromNextNormalMethodCondition, method := some ({ head := HtnTerm.constAtom "taskM", condition := [], tasks := [HtnTerm.constAtom "op2"], methodType := HtnMethodType.Normal, isDefault := false, documentOrder := 2 }, []), methodHadSolution := false, operators := none, retry := false, state := { facts := [] }, task := some (HtnTerm.constAtom "taskM"), tasks := [], totalMemoryAtNodePush := 0, tryAnyOfSuccessCount := 0, unifiedMethods := [], nodeID := 0, siblingStack := [] }], decompositionTree := [{ treeNodeID := 0, nodeID := 0, parentNodeID := -1, childNodeIDs := [1, 2], taskName := "taskM", methodSignature := "taskM => if(), do(op2)", operatorSignature := "", unifiers := [], conditionBindings := [], isOperator := false, isSuccess := true, isFailed := false, failureReason := "", solutionID := 0, methodIndex := 2, conditionTermsJson := [], failedConditionIndex := -1, failedConditionTermJson := "" }, { treeNodeID := 1, nodeID := 1, parentNodeID := 0, childNodeIDs := [], taskName := "op1", methodSignature := "", operatorSignature := "op1", unifiers := [], conditionBindings := [], isOperator := true, isSuccess := true, isFailed := false, failureReason := "", solutionID := 0, methodIndex := -1, conditionTermsJson := [], failedConditionIndex := -1, failedConditionTermJson := "" }, { treeNodeID := 2, nodeID := 3, parentNodeID := 0, childNodeIDs := [], taskName := "op2", methodSignature := "", operatorSignature := "op2", unifiers := [], conditionBindings := [], isOperator := true, isSuccess := false, isFailed := false, failureReason := "", solutionID := -1, methodIndex := -1, conditionTermsJson := [], failedConditionIndex := -1, failedConditionTermJson := "" }], treeNodeIDToTreeIndex := [(0, 0), (1, 1), (2, 2)], nodeIDToLastTreeNodeID := [(0, 0), (1, 1), (3, 2)], bookkeepingParents := [], currentSolutionID := 1, nextTreeNodeID := 3, outOfMemory := false }

/-- Intermediate state 12 of the dispatch trace of `twoSolutionRun`. -/
def C2st12 : PlanState :=
  { furthestCriteriaFailure := -1, furthestCriteriaFailureContext := [], deepestTaskFailure := -1, highestMemoryUsed := 0, initialState := { facts := [] }, memoryBudget := 5000000, nextNodeID := 5, returnValue := true, stack := [{ atLeastOneMethodHadSolution := false, conditionIndex := -1, conditionResolutions := none, continuePoint := PlanNodeContinuePoint.ReturnFromCheckForOperator, method := none, methodHadSolution := false, operators := some [HtnTerm.constAtom "op2"], retry := false, state := { facts := [HtnTerm.constAtom "a2"] }, task := some (HtnTerm.constAtom "op2"), tasks := [], totalMemoryAtNodePush := 0, tryAnyOfSuccessCount := 0, unifiedMethods := [], nodeID := 3, siblingStack := [(0, 0)] }, { atLeastOneMethodHadSolution := true, conditionIndex := 0, conditionResolutions := some [[]], continuePoint := PlanNodeContinuePoint.ReturnFromNextNormalMethodCondition, method := some ({ head := HtnTerm.constAtom "taskM", condition := [], tasks := [HtnTerm.constAtom "op2"], methodType := HtnMethodType.Normal, isDefault := false, documentOrder := 2 }, []), methodHadSolution := false, operators := none, retry := false, state := { facts := [] }, task := some (HtnTerm.constAtom "taskM"), tasks := [], totalMemoryAtNodePush := 0, tryAnyOfSuccessCount := 0, unifiedMethods := [], nodeID := 0, siblingStack := [] }], decompositionTree := [{ treeNodeID := 0, nodeID := 0, parentNodeID := -1, childNodeIDs := [1, 2], taskName := "taskM", methodSignature := "taskM => if(), do(op2)", operatorSignature := "", unifiers := [], conditionBindings := [], isOperator := false, isSuccess := true, isFailed := false, failureReason := "", solutionID := 1, methodIndex := 2, conditionTermsJson := [], failedConditionIndex := -1, failedConditionTermJson := "" }, { treeNodeID := 1, nodeID := 1, parentNodeID := 0, childNodeIDs := [], taskName := "op1", methodSignature := "", operatorSignature := "op1", unifiers := [], conditionBindings := [], isOperator := true, isSuccess := true, isFailed := false, failureReason := "", solutionID := 1, methodIndex := -1, conditionTermsJson := [], failedConditionIndex := -1, failedConditionTermJson := "" }, { treeNodeID := 2, nodeID := 3, parentNodeID := 0, childNodeIDs := [], taskName := "op2", methodSignature := "", operatorSignature := "op2", unifiers := [], conditionBindings := [], isOperator := true, isSuccess := true, isFailed := false, failureReason := "", solutionID := 1, methodIndex := -1, conditionTermsJson := [], failedConditionIndex := -1, failedConditionTermJson := "" }], treeNodeIDToTreeIndex := [(0, 0), (1, 1), (2, 2)], nodeIDToLastTreeNodeID := [(0, 0), (1, 1), (3, 2)], bookkeepingParents := [], currentSolutionID := 2, nextTreeNodeID := 3, outOfMemory := false }

/-- Intermediate state 13 of the dispatch trace of `twoSolutionRun`. -/
def C2st13 : PlanState :=
  { furthestCriteriaFailure := -1, furthestCriteriaFailureContext := [], deepestTaskFailure := -1, highestMemoryUsed := 0, initialState := { facts := [] }, memoryBudget := 5000000, nextNodeID := 5, returnValue := true, stack := [{ atLeastOneMethodHadSolution := true, conditionIndex := 0, conditionResolutions := some [[]], continuePoint := PlanNodeContinuePoint.ReturnFromNextNormalMethodCondition, method := some ({ head := HtnTerm.constAtom "taskM", condition := [], tasks := [HtnTerm.constAtom "op2"], methodType := HtnMethodType.Normal, isDefault := false, documentOrder := 2 }, []), methodHadSolution := false, operators := none, retry := false, state := { facts := [] }, task := some (HtnTerm.constAtom "taskM"), tasks := [], totalMemoryAtNodePush := 0, tryAnyOfSuccessCount := 0, unifiedMethods := [], nodeID := 0, siblingStack := [] }], decompositionTree := [{ treeNodeID := 0, nodeID := 0, parentNodeID := -1, childNodeIDs := [1, 2], taskName := "taskM", methodSignature := "taskM => if(), do(op2)", operatorSignature := "", unifiers := [], conditionBindings := [], isOperator := false, isSuccess := true, isFailed := false, failureReason := "", solutionID := 1, methodIndex := 2, conditionTermsJson := [], failedConditionIndex := -1, failedConditionTermJson := "" }, { treeNodeID := 1, nodeID := 1, parentNodeID := 0, childNodeIDs := [], taskName := "op1", methodSignature := "", operatorSignature := "op1", unifiers := [], conditionBindings := [], isOperator := true, isSuccess := true, isFailed := false, failureReason := "", solutionID := 1, methodIndex := -1, conditionTermsJson := [], failedConditionIndex := -1, failedConditionTermJson := "" }, { treeNodeID := 2, nodeID := 3, parentNodeID := 0, childNodeIDs := [], taskName := "op2", methodSignature := "", operatorSignature := "op2", unifiers := [], conditionBindings := [], isOperator := true, isSuccess := true, isFailed := false, failureReason := "", solutionID := 1, methodIndex := -1, conditionTermsJson := [], failedConditionIndex := -1, failedConditionTermJson := "" }], treeNodeIDToTreeIndex := [(0, 0), (1, 1), (2, 2)], nodeIDToLastTreeNodeID := [(0, 0), (1, 1), (3, 2)], bookkeepingParents := [], currentSolutionID := 2, nextTreeNodeID := 3, outOfMemory := false }

/-- Intermediate state 14 of the dispatch trace of `twoSolutionRun`. -/
def C2st14 : PlanState :=
  { furthestCriteriaFailure := -1, furthestCriteriaFailureContext := [], deepestTaskFailure := -1, highestMemoryUsed := 0, initialState := { facts := [] }, memoryBudget := 5000000, nextNodeID := 5, returnValue := true, stack := [{ atLeastOneMethodHadSolution := true, conditionIndex := 0, conditionResolutions := some [[]], continuePoint := PlanNodeContinuePoint.NextNormalMethodCondition, method := some ({ head := HtnTerm.constAtom "taskM", condition := [], tasks := [HtnTerm.constAtom "op2"], methodType := HtnMethodType.Normal, isDefault := false, documentOrder := 2 }, []), methodHadSolution := true, operators := none, retry := false, state := { facts := [] }, task := some (HtnTerm.constAtom "taskM"), tasks := [], totalMemoryAtNodePush := 0, tryAnyOfSuccessCount := 0, unifiedMethods := [], nodeID := 0, siblingStack := [] }], decompositionTree := [{ treeNodeID := 0, nodeID := 0, parentNodeID := -1, childNodeIDs := [1, 2], taskName := "taskM", methodSignature := "taskM => if(), do(op2)", operatorSignature := "", unifiers := [], conditionBindings := [], isOperator := false, isSuccess := true, isFailed := false, failureReason := "", solutionID := 1, methodIndex := 2, conditionTermsJson := [], failedConditionIndex := -1, failedConditionTermJson := "" }, { treeNodeID := 1, nodeID := 1, parentNodeID := 0, childNodeIDs := [], taskName := "op1", methodSignature := "", operatorSignature := "op1", unifiers := [], conditionBindings := [], isOperator := true, isSuccess := true, isFailed := false, failureReason := "", solutionID := 1, methodIndex := -1, conditionTermsJson := [], failedConditionIndex := -1, failedConditionTermJson := "" }, { treeNodeID := 2, nodeID := 3, parentNodeID := 0, childNodeIDs := [], taskName := "op2", methodSignature := "", operatorSignature := "op2", unifiers := [], conditionBindings := [], isOperator := true, isSuccess := true, isFailed := false, failureReason := "", solutionID := 1, methodIndex := -1, conditionTermsJson := [], failedConditionIndex := -1, failedConditionTermJson := "" }], treeNodeIDToTreeIndex := [(0, 0), (1, 1), (2, 2)], nodeIDToLastTreeNodeID := [(0, 0), (1, 1), (3, 2)], bookkeepingParents := [], currentSolutionID := 2, nextTreeNodeID := 3, outOfMemory := false }

/-- Intermediate state 15 of the dispatch trace of `twoSolutionRun`. -/
def C2st15 : PlanState :=
  { furthestCriteriaFailure := -1, furthestCriteriaFailureContext := [], deepestTaskFailure := -1, highestMemoryUsed := 0, initialState := { facts := [] }, memoryBudget := 5000000, nextNodeID := 5, returnValue := true, stack := [{ atLeastOneMethodHadSolution := true, conditionIndex := 1, conditionResolutions := some [[]], continuePoint := PlanNodeContinuePoint.NextMethodThatApplies, method := some ({ head := HtnTerm.constAtom "taskM", condition := [], tasks := [HtnTerm.constAtom "op2"], methodType := HtnMethodType.Normal, isDefault := false, documentOrder := 2 }, []), methodHadSolution := true, operators := none, retry := false, state := { facts := [] }, task := some (HtnTerm.constAtom "taskM"), tasks := [], totalMemoryAtNodePush := 0, tryAnyOfSuccessCount := 0, unifiedMethods := [], nodeID := 0, siblingStack := [] }], decompositionTree := [{ treeNodeID := 0, nodeID := 0, parentNodeID := -1, childNodeIDs := [1, 2], taskName := "taskM", methodSignature := "taskM => if(), do(op2)", operatorSignature := "", unifiers := [], conditionBindings := [], isOperator := false, isSuccess := true, isFailed := false, failureReason := "", solutionID := 1, methodIndex := 2, conditionTermsJson := [], failedConditionIndex := -1, failedConditionTermJson := "" }, { treeNodeID := 1, nodeID := 1, parentNodeID := 0, childNodeIDs := [], taskName := "op1", methodSignature := "", operatorSignature := "op1", unifiers := [], conditionBindings := [], isOperator := true, isSuccess := true, isFailed := false, failureReason := "", solutionID := 1, methodIndex := -1, conditionTermsJson := [], failedConditionIndex := -1, failedConditionTermJson := "" }, { treeNodeID := 2, nodeID := 3, parentNodeID := 0, childNodeIDs := [], taskName := "op2", methodSignature := "", operatorSignature := "op2", unifiers := [], conditionBindings := [], isOperator := true, isSuccess := true, isFailed := false, failureReason := "", solutionID := 1, methodIndex := -1, conditionTermsJson := [], failedConditionIndex := -1, failedConditionTermJson := "" }], treeNodeIDToTreeIndex := [(0, 0), (1, 1), (2, 2)], nodeIDToLastTreeNodeID := [(0, 0), (1, 1), (3, 2)], bookkeepingParents := [], currentSolutionID := 2, nextTreeNodeID := 3, outOfMemory := false }

/-- Intermediate state 16 of the dispatch trace of `twoSolutionRun`. -/
def C2st16 : PlanState :=
  { furthestCriteriaFailure := -1, furthestCriteriaFailureContext := [], deepestTaskFailure := -1, highestMemoryUsed := 0, initialState := { facts := [] }, memoryBudget := 5000000, nextNodeID := 5, returnValue := true, stack := [], decompositionTree := [{ treeNodeID := 0, nodeID := 0, parentNodeID := -1, childNodeIDs := [1, 2], taskName := "taskM", methodSignature := "taskM => if(), do(op2)", operatorSignature := "", unifiers := [], conditionBindings := [], isOperator := false, isSuccess := true, isFailed := false, failureReason := "", solutionID := 1, methodIndex := 2, conditionTermsJson := [], failedConditionIndex := -1, failedConditionTermJson := "" }, { treeNodeID := 1, nodeID := 1, parentNodeID := 0, childNodeIDs := [], taskName := "op1", methodSignature := "", operatorSignature := "op1", unifiers := [], conditionBindings := [], isOperator := true, isSuccess := true, isFailed := false, failureReason := "", solutionID := 1, methodIndex := -1, conditionTermsJson := [], failedConditionIndex := -1, failedConditionTermJson := "" }, { treeNodeID := 2, nodeID := 3, parentNodeID := 0, childNodeIDs := [], taskName := "op2", methodSignature := "", operatorSignature := "op2", unifiers := [], conditionBindings := [], isOperator := true, isSuccess := true, isFailed := false, failureReason := "", solutionID := 1, methodIndex := -1, conditionTermsJson := [], failedConditionIndex := -1, failedConditionTermJson := "" }], treeNodeIDToTreeIndex := [(0, 0), (1, 1), (2, 2)], nodeIDToLastTreeNodeID := [(0, 0), (1, 1), (3, 2)], bookkeepingParents := [], currentSolutionID := 2, nextTreeNodeID := 3, outOfMemory := false }

/-- Solution 1 of `twoSolutionRun`, as emitted by the dispatch trace. -/
def C2sol1 : SolutionType :=
  { first := [HtnTerm.constAtom "op1"], second := { facts := [HtnTerm.constAtom "a1"] }, decompositionTree := [{ treeNodeID := 0, nodeID := 0, parentNodeID := -1, childNodeIDs := [1], taskName := "taskM", methodSignature := "taskM => if(), do(op1)", operatorSignature := "", unifiers := [], conditionBindings := [], isOperator := false, isSuccess := true, isFailed := false, failureReason := "", solutionID := 0, methodIndex := 1, conditionTermsJson := [], failedConditionIndex := -1, failedConditionTermJson := "" }, { treeNodeID := 1, nodeID := 1, parentNodeID := 0, childNodeIDs := [], taskName := "op1", methodSignature := "", operatorSignature := "op1", unifiers := [], conditionBindings := [], isOperator := true, isSuccess := true, isFailed := false, failureReason := "", solutionID := 0, methodIndex := -1, conditionTermsJson := [], failedConditionIndex := -1, failedConditionTermJson := "" }], highestMemoryUsed := 0 }

/-- Solution 2 of `twoSolutionRun`, as emitted by the dispatch trace. -/
def C2sol2 : SolutionType :=
  { first := [HtnTerm.constAtom "op2"], second := { facts := [HtnTerm.constAtom "a2"] }, decompositionTree := [{ treeNodeID := 0, nodeID := 0, parentNodeID := -1, childNodeIDs := [1, 2], taskName := "taskM", methodSignature := "taskM => if(), do(op2)", operatorSignature := "", unifiers := [], conditionBindings := [], isOperator := false, isSuccess := true, isFailed := false, failureReason := "", solutionID := 1, methodIndex := 2, conditionTermsJson := [], failedConditionIndex := -1, failedConditionTermJson := "" }, { treeNodeID := 1, nodeID := 1, parentNodeID := 0, childNodeIDs := [], taskName := "op1", methodSignature := "", operatorSignature := "op1", unifiers := [], conditionBindings := [], isOperator := true, isSuccess := true, isFailed := false, failureReason := "", solutionID := 1, methodIndex := -1, conditionTermsJson := [], failedConditionIndex := -1, failedConditionTermJson := "" }, { treeNodeID := 2, nodeID := 3, parentNodeID := 0, childNodeIDs := [], taskName := "op2", methodSignature := "", operatorSignature := "op2", unifiers := [], conditionBindings := [], isOperator := true, isSuccess := true, isFailed := false, failureReason := "", solutionID := 1, methodIndex := -1, conditionTermsJson := [], failedConditionIndex := -1, failedConditionTermJson := "" }], highestMemoryUsed := 0 }

/-- Fixture operator `op1` as stored by `AddOperator`. -/
def C1op1 : HtnOperator :=
  { head := .constAtom "op1", additions := [.constAtom "a1"], deletions := [], isHidden := false }

/-- Fixture operator `op2(?v)` with a variable head. -/
def C1op2 : HtnOperator :=
  { head := .compound "op2" [.var "v"], additions := [], deletions := [], isHidden := false }

/-- Fixture domain with the two operators above. -/
def C1domain : HtnPlanner :=
  ((HtnPlanner.construct { m_abort := 0 }).1.AddOperator
      (.constAtom "op1") [.constAtom "a1"] [] false).AddOperator
      (.compound "op2" [.var "v"]) [] [] false

/-- Fixture node whose current task is the ground operator task `op1`. -/
def C1nodeGround : PlanNode :=
  { PlanNode.initNode 0 { facts := [] } [] none with task := some (.constAtom "op1") }

/-- Fixture state whose stack holds `C1nodeGround`. -/
def C1psGround : PlanState :=
  { PlanState.init { facts := [] } [] 100 with stack := [C1nodeGround] }

/-- Fixture node whose current task `op2(?w)` unifies non-ground with `C1op2`. -/
def C1nodeVar : PlanNode :=
  { PlanNode.initNode 0 { facts := [] } [] none with task := some (.compound "op2" [.var "w"]) }

/-- Fixture state whose stack holds `C1nodeVar`. -/
def C1psVar : PlanState :=
  { PlanState.init { facts := [] } [] 100 with stack := [C1nodeVar] }

/-- Fixture node whose current task is `try(x)`. -/
def C4nodeTry : PlanNode :=
  { PlanNode.initNode 0 { facts := [] } [.constAtom "after"] none with
      task := some (.compound "try" [.constAtom "x"]) }

/-- Fixture state whose stack holds `C4nodeTry`. -/
def C4psTry : PlanState :=
  { PlanState.init { facts := [] } [] 100 with stack := [C4nodeTry] }

/-- Fixture node re-entered at `ReturnFromHandleTryTerm` with `retry` set. -/
def C4nodeRet : PlanNode :=
  { PlanNode.initNode 3 { facts := [] } [.constAtom "after"] none with
      continuePoint := .ReturnFromHandleTryTerm, retry := true }

/-- Fixture state whose stack holds `C4nodeRet` after a failed child. -/
def C4psRet : PlanState :=
  { PlanState.init { facts := [] } [] 100 with stack := [C4nodeRet], returnValue := false }

/-- Fixture top node whose current task is `tryEnd(0)`. -/
def C4nodeEndTop : PlanNode :=
  { PlanNode.initNode 1 { facts := [] } [] none with
      task := some (.compound "tryEnd" [.constInt 0]) }

/-- Fixture bottom node (the `try` node with id 0, `retry` still set). -/
def C4nodeEndBottom : PlanNode :=
  { PlanNode.initNode 0 { facts := [] } [] none with retry := true }

/-- Fixture state for the `tryEnd(0)` dispatch. -/
def C4psEnd : PlanState :=
  { PlanState.init { facts := [] } [] 100 with stack := [C4nodeEndTop, C4nodeEndBottom] }

/-- Fixture anyOf method. -/
def C5method : HtnMethod :=
  { head := .constAtom "m", condition := [.constAtom "IsTrue"], tasks := [.constAtom "s1"],
    methodType := .AnySetOf, isDefault := false, documentOrder := 1 }

/-- Fixture bottom node with id 0 and counter 0. -/
def C5nodeBottom : PlanNode := PlanNode.initNode 0 { facts := [] } [] none

/-- Fixture bottom node with id 0 and a positive counter. -/
def C5nodeBottomPos : PlanNode :=
  { PlanNode.initNode 0 { facts := [] } [] none with tryAnyOfSuccessCount := 1 }

/-- Fixture top node whose current task is `countAnyOf(0)`. -/
def C5nodeCount : PlanNode :=
  { PlanNode.initNode 1 { facts := [] } [] none with
      task := some (.compound "countAnyOf" [.constInt 0]) }

/-- Fixture state for the `countAnyOf(0)` dispatch. -/
def C5psCount : PlanState :=
  { PlanState.init { facts := [] } [] 100 with stack := [C5nodeCount, C5nodeBottom] }

/-- Fixture top node whose current task is `failIfNoneOf(0)`. -/
def C5nodeFail : PlanNode :=
  { PlanNode.initNode 1 { facts := [] } [] none with
      task := some (.compound "failIfNoneOf" [.constInt 0]) }

/-- Fixture state where the `failIfNoneOf(0)` target has a zero counter. -/
def C5psFail : PlanState :=
  { PlanState.init { facts := [] } [] 100 with stack := [C5nodeFail, C5nodeBottom] }

/-- Fixture state where the `failIfNoneOf(0)` target has a positive counter. -/
def C5psFailPos : PlanState :=
  { PlanState.init { facts := [] } [] 100 with stack := [C5nodeFail, C5nodeBottomPos] }

/-- C3 witness fixture: the non-`else` guard method of an if/else group. -/
def C3g : HtnMethod :=
  { head := HtnTerm.constAtom "t", condition := [], tasks := [],
    methodType := HtnMethodType.Normal, isDefault := false, documentOrder := 1 }

/-- C3 witness fixture: an `else` method between the guard and `C3d`. -/
def C3e : HtnMethod :=
  { head := HtnTerm.constAtom "t", condition := [], tasks := [],
    methodType := HtnMethodType.Normal, isDefault := true, documentOrder := 2 }

/-- C3 witness fixture: the trailing `else` method whose trial is decided. -/
def C3d : HtnMethod :=
  { head := HtnTerm.constAtom "t", condition := [], tasks := [],
    methodType := HtnMethodType.Normal, isDefault := true, documentOrder := 3 }

/-- C3 witness fixture: a solution oracle under which no method yields a
solution. -/
def C3sol : HtnMethod → Bool := fun _ => false


/- ----------------------------------------------------------------------
Shared helper lemmas.
---------------------------------------------------------------------- -/

/-- Tree-record updates never touch the stack. -/
theorem modifyTreeNodeByNodeID_stack (ps : PlanState) (nid : Int)
    (f : DecompTreeNode → DecompTreeNode) :
    (modifyTreeNodeByNodeID ps nid f).stack = ps.stack := by
  unfold modifyTreeNodeByNodeID
  dsimp only
  split
  · rfl
  · split <;> rfl

/-- Tree-record updates never touch the return value. -/
theorem modifyTreeNodeByNodeID_returnValue (ps : PlanState) (nid : Int)
    (f : DecompTreeNode → DecompTreeNode) :
    (modifyTreeNodeByNodeID ps nid f).returnValue = ps.returnValue := by
  unfold modifyTreeNodeByNodeID
  dsimp only
  split
  · rfl
  · split <;> rfl

/-- Tree-record updates never touch the node-id counter. -/
theorem modifyTreeNodeByNodeID_nextNodeID (ps : PlanState) (nid : Int)
    (f : DecompTreeNode → DecompTreeNode) :
    (modifyTreeNodeByNodeID ps nid f).nextNodeID = ps.nextNodeID := by
  unfold modifyTreeNodeByNodeID
  dsimp only
  split
  · rfl
  · split <;> rfl

/-- Tree-record updates never touch the memory budget. -/
theorem modifyTreeNodeByNodeID_memoryBudget (ps : PlanState) (nid : Int)
    (f : DecompTreeNode → DecompTreeNode) :
    (modifyTreeNodeByNodeID ps nid f).memoryBudget = ps.memoryBudget := by
  unfold modifyTreeNodeByNodeID
  dsimp only
  split
  · rfl
  · split <;> rfl

/- ----------------------------------------------------------------------
C6 — arithmetic type discipline.
---------------------------------------------------------------------- -/

/-- C6 counterexample: the claim states that `/` on two integers "promotes the
result to float — so evaluating /(A, B) on two integers yields the float
quotient rather than an integer quotient".  On the integers 5 and 2 the code
takes the `GetInt() / GetInt()` path and yields the integer 2, which is not a
float-typed term and is not the float quotient 5/2. -/
theorem C6_counterexample :
    HtnArithmeticOperators.Divide (.constInt 5) (.constInt 2) = some (.constInt 2) ∧
    (HtnArithmeticOperators.Divide (.constInt 5) (.constInt 2)).map HtnTerm.GetTermType ≠
      some HtnTermType.FloatType ∧
    (HtnArithmeticOperators.Divide (.constInt 5) (.constInt 2)).map HtnTerm.GetDouble ≠
      some ((5 : Rat) / 2) := by
  refine ⟨rfl, ?_, ?_⟩
  · have h : (HtnArithmeticOperators.Divide (.constInt 5) (.constInt 2)).map
        HtnTerm.GetTermType = some HtnTermType.IntType := rfl
    rw [h]
    simp
  · have h : (HtnArithmeticOperators.Divide (.constInt 5) (.constInt 2)).map
        HtnTerm.GetDouble = some (2 : Rat) := rfl
    rw [h]
    simp only [ne_eq, Option.some.injEq]
    norm_num

/-- C6 (amended): `+ - *` on two integer operands yield an integer and `/` on
two integer operands yields the truncated integer quotient (also an integer;
division by zero pinned to 0); mixed integer/float operands take the double
path and yield the float result. -/
theorem C6_arithmetic_type_discipline :
    ∀ (a b : Int) (q : Rat),
      HtnArithmeticOperators.Plus (.constInt a) (.constInt b) = some (.constInt (a + b)) ∧
      HtnArithmeticOperators.Minus (.constInt a) (.constInt b) = some (.constInt (a - b)) ∧
      HtnArithmeticOperators.Multiply (.constInt a) (.constInt b) = some (.constInt (a * b)) ∧
      HtnArithmeticOperators.Divide (.constInt a) (.constInt b) =
        some (.constInt (cppIntDiv a b)) ∧
      HtnArithmeticOperators.Plus (.constInt a) (.constFloat q) =
        some (.constFloat ((a : Rat) + q)) ∧
      (q ≠ 0 →
        HtnArithmeticOperators.Divide (.constInt a) (.constFloat q) =
          some (.constFloat ((a : Rat) / q))) := by
  intro a b q
  refine ⟨rfl, rfl, rfl, rfl, rfl, fun hq => ?_⟩
  simp [HtnArithmeticOperators.Divide, HtnTerm.Eval, divideVals, HtnTerm.GetTermType,
    HtnTerm.GetDouble, hq]

/-- Witness for `C6_arithmetic_type_discipline` at a = 7, b = 2, q = 1/2. -/
theorem C6_arithmetic_type_discipline_witness :
    ((1 : Rat) / 2 ≠ 0) ∧
      HtnArithmeticOperators.Divide (.constInt 7) (.constFloat ((1 : Rat) / 2)) =
        some (.constFloat ((7 : Rat) / ((1 : Rat) / 2))) :=
  ⟨by norm_num, (C6_arithmetic_type_discipline 7 2 ((1 : Rat) / 2)).2.2.2.2.2 (by norm_num)⟩

/- ----------------------------------------------------------------------
C7 — division by zero in is/2.
---------------------------------------------------------------------- -/

/-- C7: division by zero during `is/2` evaluation is not fatal — evaluating
`is(X, /(N, 0))` succeeds and binds `X` to 0, for every integer `N`
(`HtnArithmeticOperators::Divide` with the zero-divisor behavior pinned by
`TEST(Is_KnownLimitations)` and spec sections 4.3 / 9). -/
theorem C7_division_by_zero_binds_zero :
    ∀ n : Int,
      HtnArithmeticOperators.Divide (.constInt n) (.constInt 0) = some (.constInt 0) ∧
      resolveIs "X" (.compound "/" [.constInt n, .constInt 0]) =
        some [(.var "X", .constInt 0)] := by
  intro n
  exact ⟨rfl, rfl⟩

/- ----------------------------------------------------------------------
C8 — operator name uniqueness at domain build.
---------------------------------------------------------------------- -/

/-- C8: a second `AddOperator` whose head has the name of an already-registered
operator leaves the operator map completely unchanged (`std::map::insert` does
not replace), so exactly the first operator stays visible — the duplicate
neither replaces nor coexists with it. -/
theorem C8_duplicate_operator_invisible :
    ∀ (p : HtnPlanner) (name : String) (op0 : HtnOperator) (head2 : HtnTerm)
      (adds dels : List HtnTerm) (hidden : Bool),
      operatorMapFind p.m_operators name = some op0 →
      head2.name = name →
      (p.AddOperator head2 adds dels hidden).m_operators = p.m_operators ∧
      operatorMapFind (p.AddOperator head2 adds dels hidden).m_operators name = some op0 := by
  intro p name op0 head2 adds dels hidden hfind hname
  have hsome : (p.m_operators.find? (fun q => q.1 == name)).isSome := by
    unfold operatorMapFind at hfind
    cases h : p.m_operators.find? (fun q => q.1 == name) with
    | none => rw [h] at hfind; simp at hfind
    | some _ => simp [h]
  have hmap : (p.AddOperator head2 adds dels hidden).m_operators = p.m_operators := by
    unfold HtnPlanner.AddOperator operatorMapInsert
    rw [hname]
    simp [hsome]
  exact ⟨hmap, by rw [hmap]; exact hfind⟩

/-- Witness for `C8_duplicate_operator_invisible`: register `op1`, then a
second operator with the same head name; the first stays visible. -/
theorem C8_duplicate_operator_invisible_witness :
    (operatorMapFind
        ((HtnPlanner.construct { m_abort := 0 }).1.AddOperator
          (.constAtom "op1") [.constAtom "a1"] [] false).m_operators "op1" =
      some { head := .constAtom "op1", additions := [.constAtom "a1"],
             deletions := [], isHidden := false }) ∧
    (HtnTerm.name (.constAtom "op1") = "op1") ∧
    (((HtnPlanner.construct { m_abort := 0 }).1.AddOperator
          (.constAtom "op1") [.constAtom "a1"] [] false).AddOperator
          (.constAtom "op1") [.constAtom "zzz"] [] true).m_operators =
      ((HtnPlanner.construct { m_abort := 0 }).1.AddOperator
          (.constAtom "op1") [.constAtom "a1"] [] false).m_operators :=
  ⟨rfl, rfl,
    (C8_duplicate_operator_invisible
      ((HtnPlanner.construct { m_abort := 0 }).1.AddOperator
        (.constAtom "op1") [.constAtom "a1"] [] false)
      "op1"
      { head := .constAtom "op1", additions := [.constAtom "a1"],
        deletions := [], isHidden := false }
      (.constAtom "op1") [.constAtom "zzz"] [] true rfl rfl).1⟩

/- ----------------------------------------------------------------------
C9 — the process-wide abort flag.
---------------------------------------------------------------------- -/

/-- C9: the abort flag is the single process-wide static shared by all
`HtnPlanner` instances: `Abort()` sets it, after which the next dispatch
iteration of every planner's `FindNextPlan`, on any plan state, takes the
`Abort` case (returning a partial solution and poisoning the node with
`Fail`); constructing a new `HtnPlanner` resets the static to 0, so a pending
`Abort()` is cancelled for every planner. -/
theorem C9_abort_flag_is_process_wide :
    (∀ s : HtnPlannerStatics, (HtnPlanner.Abort s).m_abort = 1) ∧
    (∀ (p : HtnPlanner) (resolver : ResolverType) (s : HtnPlannerStatics)
        (ps : PlanState) (node : PlanNode) (rest : List PlanNode),
      s.m_abort ≠ 0 → ps.stack = node :: rest →
      HtnPlanner.FindNextPlanStep p resolver s ps =
        .answer { ps with stack := { node with continuePoint := .Fail } :: rest }
          (some (HtnPlanner.SolutionFromCurrentNode
            { ps with stack := { node with continuePoint := .Fail } :: rest }
            { node with continuePoint := .Fail }))) ∧
    (∀ s : HtnPlannerStatics, ((HtnPlanner.construct s).2).m_abort = 0) ∧
    (∀ (p : HtnPlanner) (resolver : ResolverType) (s : HtnPlannerStatics) (ps : PlanState),
      HtnPlanner.FindNextPlanStep p resolver (HtnPlanner.construct (HtnPlanner.Abort s)).2 ps =
        HtnPlanner.FindNextPlanStep p resolver { m_abort := 0 } ps) := by
  refine ⟨fun s => rfl, ?_, fun s => rfl, fun p resolver s ps => rfl⟩
  intro p resolver s ps node rest habort hstack
  unfold HtnPlanner.FindNextPlanStep
  rw [hstack]
  simp only [if_pos habort]

/-- Witness for `C9_abort_flag_is_process_wide`: a planner in mid-search on a
one-node stack observes a pending abort at its next dispatch. -/
theorem C9_abort_flag_is_process_wide_witness :
    ((HtnPlanner.Abort { m_abort := 0 }).m_abort ≠ 0) ∧
    ((PlanState.init { facts := [] } [.constAtom "t"] 100).stack =
      PlanNode.initNode 0 { facts := [] } [.constAtom "t"] none :: []) ∧
    (HtnPlanner.FindNextPlanStep (HtnPlanner.construct { m_abort := 0 }).1 nullResolver
        (HtnPlanner.Abort { m_abort := 0 })
        (PlanState.init { facts := [] } [.constAtom "t"] 100) =
      .answer { (PlanState.init { facts := [] } [.constAtom "t"] 100) with stack :=
          { PlanNode.initNode 0 { facts := [] } [.constAtom "t"] none with
              continuePoint := .Fail } :: [] }
        (some (HtnPlanner.SolutionFromCurrentNode
          { (PlanState.init { facts := [] } [.constAtom "t"] 100) with stack :=
              { PlanNode.initNode 0 { facts := [] } [.constAtom "t"] none with
                  continuePoint := .Fail } :: [] }
          { PlanNode.initNode 0 { facts := [] } [.constAtom "t"] none with
              continuePoint := .Fail }))) :=
  ⟨by decide, rfl,
    C9_abort_flag_is_process_wide.2.1 (HtnPlanner.construct { m_abort := 0 }).1 nullResolver
      (HtnPlanner.Abort { m_abort := 0 })
      (PlanState.init { facts := [] } [.constAtom "t"] 100)
      (PlanNode.initNode 0 { facts := [] } [.constAtom "t"] none) []
      (by decide) rfl⟩

/- ----------------------------------------------------------------------
C10 — empty initial goal list.
---------------------------------------------------------------------- -/

/-- C10: `FindPlan` (that is, `FindNextPlan` on a fresh `PlanState`) with an
empty initial goal list returns a solution whose operator list is empty and
whose final rule set is the initial rule set: the root node has no tasks and
is immediately a successful leaf. -/
theorem C10_empty_goals_immediate_solution :
    ∀ (p : HtnPlanner) (resolver : ResolverType) (fuel : Nat)
      (initialState : HtnRuleSet) (memoryBudget : Int),
      ∃ sol ps',
        HtnPlanner.FindPlan p resolver { m_abort := 0 } (fuel + 1)
          initialState [] memoryBudget = .found sol ps' ∧
        sol.first = [] ∧ sol.second = initialState := by
  intro p resolver fuel initialState memoryBudget
  exact ⟨_, _, rfl, rfl, rfl⟩

/- ----------------------------------------------------------------------
C2 — decomposition-tree slices of distinct solutions.
---------------------------------------------------------------------- -/

/-- Dispatch step 0 of the `twoSolutionRun` trace. -/
theorem C2step0 :
    HtnPlanner.FindNextPlanStep twoSolutionDomain nullResolver staticsNoAbort C2st0 =
      .next C2st1 := by
  rfl

/-- Dispatch step 1 of the `twoSolutionRun` trace. -/
theorem C2step1 :
    HtnPlanner.FindNextPlanStep twoSolutionDomain nullResolver staticsNoAbort C2st1 =
      .next C2st2 := by
  rfl

/-- Dispatch step 2 of the `twoSolutionRun` trace. -/
theorem C2step2 :
    HtnPlanner.FindNextPlanStep twoSolutionDomain nullResolver staticsNoAbort C2st2 =
      .next C2st3 := by
  rfl

/-- Dispatch step 3 of the `twoSolutionRun` trace. -/
theorem C2step3 :
    HtnPlanner.FindNextPlanStep twoSolutionDomain nullResolver staticsNoAbort C2st3 =
      .next C2st4 := by
  rfl

/-- Dispatch step 4 of the `twoSolutionRun` trace: solution 1 is emitted. -/
theorem C2step4 :
    HtnPlanner.FindNextPlanStep twoSolutionDomain nullResolver staticsNoAbort C2st4 =
      .answer C2st5 (some C2sol1) := by
  rfl

/-- Dispatch step 5 of the `twoSolutionRun` trace. -/
theorem C2step5 :
    HtnPlanner.FindNextPlanStep twoSolutionDomain nullResolver staticsNoAbort C2st5 =
      .next C2st6 := by
  rfl

/-- Dispatch step 6 of the `twoSolutionRun` trace. -/
theorem C2step6 :
    HtnPlanner.FindNextPlanStep twoSolutionDomain nullResolver staticsNoAbort C2st6 =
      .next C2st7 := by
  rfl

/-- Dispatch step 7 of the `twoSolutionRun` trace. -/
theorem C2step7 :
    HtnPlanner.FindNextPlanStep twoSolutionDomain nullResolver staticsNoAbort C2st7 =
      .next C2st8 := by
  rfl

/-- Dispatch step 8 of the `twoSolutionRun` trace. -/
theorem C2step8 :
    HtnPlanner.FindNextPlanStep twoSolutionDomain nullResolver staticsNoAbort C2st8 =
      .next C2st9 := by
  rfl

/-- Dispatch step 9 of the `twoSolutionRun` trace. -/
theorem C2step9 :
    HtnPlanner.FindNextPlanStep twoSolutionDomain nullResolver staticsNoAbort C2st9 =
      .next C2st10 := by
  rfl

/-- Dispatch step 10 of the `twoSolutionRun` trace. -/
theorem C2step10 :
    HtnPlanner.FindNextPlanStep twoSolutionDomain nullResolver staticsNoAbort C2st10 =
      .next C2st11 := by
  rfl

/-- Dispatch step 11 of the `twoSolutionRun` trace: solution 2 is emitted. -/
theorem C2step11 :
    HtnPlanner.FindNextPlanStep twoSolutionDomain nullResolver staticsNoAbort C2st11 =
      .answer C2st12 (some C2sol2) := by
  rfl

/-- Dispatch step 12 of the `twoSolutionRun` trace. -/
theorem C2step12 :
    HtnPlanner.FindNextPlanStep twoSolutionDomain nullResolver staticsNoAbort C2st12 =
      .next C2st13 := by
  rfl

/-- Dispatch step 13 of the `twoSolutionRun` trace. -/
theorem C2step13 :
    HtnPlanner.FindNextPlanStep twoSolutionDomain nullResolver staticsNoAbort C2st13 =
      .next C2st14 := by
  rfl

/-- Dispatch step 14 of the `twoSolutionRun` trace. -/
theorem C2step14 :
    HtnPlanner.FindNextPlanStep twoSolutionDomain nullResolver staticsNoAbort C2st14 =
      .next C2st15 := by
  rfl

/-- Dispatch step 15 of the `twoSolutionRun` trace. -/
theorem C2step15 :
    HtnPlanner.FindNextPlanStep twoSolutionDomain nullResolver staticsNoAbort C2st15 =
      .next C2st16 := by
  rfl

/-- Dispatch step 16 of the `twoSolutionRun` trace: the stack is exhausted. -/
theorem C2step16 :
    HtnPlanner.FindNextPlanStep twoSolutionDomain nullResolver staticsNoAbort C2st16 =
      .answer C2st16 none := by
  rfl

/-- Unfolding lemma: a `next` dispatch step consumes one unit of fuel. -/
theorem findNextPlan_succ_next (p : HtnPlanner) (r : ResolverType) (s : HtnPlannerStatics)
    (fuel : Nat) {ps ps' : PlanState}
    (h : HtnPlanner.FindNextPlanStep p r s ps = .next ps') :
    HtnPlanner.FindNextPlan p r s (fuel + 1) ps = HtnPlanner.FindNextPlan p r s fuel ps' := by
  rw [HtnPlanner.FindNextPlan, h]

/-- Unfolding lemma: an `answer (some sol)` dispatch step yields `found`. -/
theorem findNextPlan_succ_found (p : HtnPlanner) (r : ResolverType) (s : HtnPlannerStatics)
    (fuel : Nat) {ps ps' : PlanState} {sol : SolutionType}
    (h : HtnPlanner.FindNextPlanStep p r s ps = .answer ps' (some sol)) :
    HtnPlanner.FindNextPlan p r s (fuel + 1) ps = .found sol ps' := by
  rw [HtnPlanner.FindNextPlan, h]

/-- Unfolding lemma: an `answer none` dispatch step yields `exhausted`. -/
theorem findNextPlan_succ_exhausted (p : HtnPlanner) (r : ResolverType) (s : HtnPlannerStatics)
    (fuel : Nat) {ps ps' : PlanState}
    (h : HtnPlanner.FindNextPlanStep p r s ps = .answer ps' none) :
    HtnPlanner.FindNextPlan p r s (fuel + 1) ps = .exhausted ps' := by
  rw [HtnPlanner.FindNextPlan, h]

/-- Unfolding lemma for the solution-collecting loop: a found solution without
the out-of-memory flag is prepended to the rest of the solutions. -/
theorem findAllPlansLoop_found (p : HtnPlanner) (r : ResolverType) (s : HtnPlannerStatics)
    (outer inner : Nat) {ps ps' : PlanState} {sol : SolutionType}
    (h : HtnPlanner.FindNextPlan p r s inner ps = .found sol ps')
    (hm : ps'.outOfMemory = false) :
    HtnPlanner.FindAllPlansLoop p r s (outer + 1) inner ps =
      Option.map (fun sols => sol :: sols)
        (HtnPlanner.FindAllPlansLoop p r s outer inner ps') := by
  rw [HtnPlanner.FindAllPlansLoop, h]
  simp only [hm, Bool.false_eq_true, if_false]
  cases HtnPlanner.FindAllPlansLoop p r s outer inner ps' <;> rfl

/-- Unfolding lemma for the solution-collecting loop: exhaustion ends the
collection. -/
theorem findAllPlansLoop_exhausted (p : HtnPlanner) (r : ResolverType) (s : HtnPlannerStatics)
    (outer inner : Nat) {ps ps' : PlanState}
    (h : HtnPlanner.FindNextPlan p r s inner ps = .exhausted ps') :
    HtnPlanner.FindAllPlansLoop p r s (outer + 1) inner ps = some [] := by
  rw [HtnPlanner.FindAllPlansLoop, h]

/-- First phase of the `twoSolutionRun` trace: five dispatch iterations from
the initial state produce the first solution. -/
theorem C2phase1 (fuel : Nat) :
    HtnPlanner.FindNextPlan twoSolutionDomain nullResolver staticsNoAbort (fuel + 5) C2st0 =
      .found C2sol1 C2st5 :=
  calc HtnPlanner.FindNextPlan twoSolutionDomain nullResolver staticsNoAbort (fuel + 5) C2st0
      = HtnPlanner.FindNextPlan twoSolutionDomain nullResolver staticsNoAbort (fuel + 4) C2st1 :=
        findNextPlan_succ_next _ _ _ (fuel + 4) C2step0
    _ = HtnPlanner.FindNextPlan twoSolutionDomain nullResolver staticsNoAbort (fuel + 3) C2st2 :=
        findNextPlan_succ_next _ _ _ (fuel + 3) C2step1
    _ = HtnPlanner.FindNextPlan twoSolutionDomain nullResolver staticsNoAbort (fuel + 2) C2st3 :=
        findNextPlan_succ_next _ _ _ (fuel + 2) C2step2
    _ = HtnPlanner.FindNextPlan twoSolutionDomain nullResolver staticsNoAbort (fuel + 1) C2st4 :=
        findNextPlan_succ_next _ _ _ (fuel + 1) C2step3
    _ = .found C2sol1 C2st5 := findNextPlan_succ_found _ _ _ fuel C2step4

/-- Second phase of the `twoSolutionRun` trace: seven further dispatch
iterations backtrack and produce the second solution. -/
theorem C2phase2 (fuel : Nat) :
    HtnPlanner.FindNextPlan twoSolutionDomain nullResolver staticsNoAbort (fuel + 7) C2st5 =
      .found C2sol2 C2st12 :=
  calc HtnPlanner.FindNextPlan twoSolutionDomain nullResolver staticsNoAbort (fuel + 7) C2st5
      = HtnPlanner.FindNextPlan twoSolutionDomain nullResolver staticsNoAbort (fuel + 6) C2st6 :=
        findNextPlan_succ_next _ _ _ (fuel + 6) C2step5
    _ = HtnPlanner.FindNextPlan twoSolutionDomain nullResolver staticsNoAbort (fuel + 5) C2st7 :=
        findNextPlan_succ_next _ _ _ (fuel + 5) C2step6
    _ = HtnPlanner.FindNextPlan twoSolutionDomain nullResolver staticsNoAbort (fuel + 4) C2st8 :=
        findNextPlan_succ_next _ _ _ (fuel + 4) C2step7
    _ = HtnPlanner.FindNextPlan twoSolutionDomain nullResolver staticsNoAbort (fuel + 3) C2st9 :=
        findNextPlan_succ_next _ _ _ (fuel + 3) C2step8
    _ = HtnPlanner.FindNextPlan twoSolutionDomain nullResolver staticsNoAbort (fuel + 2) C2st10 :=
        findNextPlan_succ_next _ _ _ (fuel + 2) C2step9
    _ = HtnPlanner.FindNextPlan twoSolutionDomain nullResolver staticsNoAbort (fuel + 1) C2st11 :=
        findNextPlan_succ_next _ _ _ (fuel + 1) C2step10
    _ = .found C2sol2 C2st12 := findNextPlan_succ_found _ _ _ fuel C2step11

/-- Third phase of the `twoSolutionRun` trace: the remaining alternatives are
exhausted and the stack empties. -/
theorem C2phase3 (fuel : Nat) :
    HtnPlanner.FindNextPlan twoSolutionDomain nullResolver staticsNoAbort (fuel + 5) C2st12 =
      .exhausted C2st16 :=
  calc HtnPlanner.FindNextPlan twoSolutionDomain nullResolver staticsNoAbort (fuel + 5) C2st12
      = HtnPlanner.FindNextPlan twoSolutionDomain nullResolver staticsNoAbort (fuel + 4) C2st13 :=
        findNextPlan_succ_next _ _ _ (fuel + 4) C2step12
    _ = HtnPlanner.FindNextPlan twoSolutionDomain nullResolver staticsNoAbort (fuel + 3) C2st14 :=
        findNextPlan_succ_next _ _ _ (fuel + 3) C2step13
    _ = HtnPlanner.FindNextPlan twoSolutionDomain nullResolver staticsNoAbort (fuel + 2) C2st15 :=
        findNextPlan_succ_next _ _ _ (fuel + 2) C2step14
    _ = HtnPlanner.FindNextPlan twoSolutionDomain nullResolver staticsNoAbort (fuel + 1) C2st16 :=
        findNextPlan_succ_next _ _ _ (fuel + 1) C2step15
    _ = .exhausted C2st16 := findNextPlan_succ_exhausted _ _ _ fuel C2step16

/-- The complete result of `twoSolutionRun`: exactly the two solutions of the
dispatch trace, in order. -/
theorem twoSolutionRun_eq : twoSolutionRun = some [C2sol1, C2sol2] := by
  have h0 : twoSolutionRun =
      HtnPlanner.FindAllPlansLoop twoSolutionDomain nullResolver staticsNoAbort 5 30 C2st0 := rfl
  rw [h0]
  rw [findAllPlansLoop_found _ _ _ 4 30 (C2phase1 25) rfl]
  rw [findAllPlansLoop_found _ _ _ 3 30 (C2phase2 23) rfl]
  rw [findAllPlansLoop_exhausted _ _ _ 2 30 (C2phase3 25)]
  rfl

/-- C2 counterexample: in `twoSolutionRun` — one `FindAllPlans` call over
`twoSolutionDomain` — the two returned Solutions carry the tree slices with
`treeNodeID`s `[0, 1]` and `[0, 1, 2]`: both contain `treeNodeID`s 0 and 1
(the second `MarkPathSuccess` re-stamps the whole success path and, through
its descendant restamp, every node below it — overwriting the single
`solutionID` field after the first slice was already extracted), so the
slices of two Solutions of the same call are not disjoint as claimed. -/
theorem C2_counterexample :
    twoSolutionRun.map (fun sols =>
        sols.map (fun s => s.decompositionTree.map (fun tn => tn.treeNodeID))) =
      some [[0, 1], [0, 1, 2]] := by
  rw [twoSolutionRun_eq]
  rfl

/-- C2 (amended): a tree entry carries exactly one `solutionID`, so within one
decomposition-tree state whose `treeNodeID`s are distinct, the slices for two
distinct solution ids share no `treeNodeID`.  Slices attached to Solutions are
snapshots taken at different times, and `MarkPathSuccess` re-stamps the entries
on the common success path (the root in particular), so the slices of two
Solutions from the same `FindAllPlans` call can share those `treeNodeID`s. -/
theorem C2_slice_disjoint_per_tree_state :
    ∀ (tree : List DecompTreeNode) (i j : Int),
      (tree.map (fun tn => tn.treeNodeID)).Nodup → i ≠ j →
      ∀ id, id ∈ (solutionSlice tree i).map (fun tn => tn.treeNodeID) →
        id ∉ (solutionSlice tree j).map (fun tn => tn.treeNodeID) := by
  intro tree i j hnd hij id hi hj
  simp only [solutionSlice, List.mem_map, List.mem_filter] at hi hj
  obtain ⟨x, ⟨hxmem, hxi⟩, hxid⟩ := hi
  obtain ⟨y, ⟨hymem, hyj⟩, hyid⟩ := hj
  have hxy : x = y :=
    List.inj_on_of_nodup_map hnd hxmem hymem (by rw [hxid, hyid])
  rw [hxy] at hxi
  rw [beq_iff_eq] at hxi hyj
  exact hij (hxi ▸ hyj ▸ rfl)

/-- Witness for `C2_slice_disjoint_per_tree_state` on a two-entry tree with
distinct `treeNodeID`s and solution ids 0 and 1. -/
theorem C2_slice_disjoint_per_tree_state_witness :
    (([{ treeNodeID := 0, solutionID := 0 },
       { treeNodeID := 1, solutionID := 1 }] : List DecompTreeNode).map
        (fun tn => tn.treeNodeID)).Nodup ∧
    ((0 : Int) ≠ 1) ∧
    ((0 : Int) ∈ (solutionSlice
        [{ treeNodeID := 0, solutionID := 0 }, { treeNodeID := 1, solutionID := 1 }]
        0).map (fun tn => tn.treeNodeID)) ∧
    ((0 : Int) ∉ (solutionSlice
        [{ treeNodeID := 0, solutionID := 0 }, { treeNodeID := 1, solutionID := 1 }]
        1).map (fun tn => tn.treeNodeID)) :=
  ⟨by decide, by decide, by decide,
    C2_slice_disjoint_per_tree_state
      [{ treeNodeID := 0, solutionID := 0 }, { treeNodeID := 1, solutionID := 1 }]
      0 1 (by decide) (by decide) 0 (by decide)⟩

/-- Structure of a non-backtrackable push: the child carries the merged tasks,
the same state and operator list, and the fresh node id; the parent is left on
the stack with the requested continue point. -/
theorem searchNextNode_spec (ps : PlanState) (node : PlanNode) (rest : List PlanNode)
    (additionalTasks : List HtnTerm) (returnPoint : PlanNodeContinuePoint) :
    ∃ child,
      (searchNextNode ps node rest additionalTasks returnPoint).stack =
        child :: { node with continuePoint := returnPoint } :: rest ∧
      child.tasks = additionalTasks ++ node.tasks ∧
      child.state = node.state ∧
      child.operators = node.operators ∧
      child.nodeID = ps.nextNodeID ∧
      child.retry = false ∧
      child.tryAnyOfSuccessCount = 0 := by
  unfold searchNextNode
  dsimp only
  split
  · exact ⟨_, rfl, rfl, rfl, rfl, rfl, rfl, rfl⟩
  · exact ⟨_, rfl, rfl, rfl, rfl, rfl, rfl, rfl⟩

/-- Structure of a backtrackable push: like `searchNextNode_spec` but the
child's state is the independent copy, and a `methodScopeEnd(nodeID)` marker
sits between the additional tasks and the remaining tasks when both are
nonempty. -/
theorem searchNextNodeBacktrackable_spec (ps : PlanState) (node : PlanNode)
    (rest : List PlanNode) (additionalTasks : List HtnTerm)
    (returnPoint : PlanNodeContinuePoint) :
    ∃ child,
      (searchNextNodeBacktrackable ps node rest additionalTasks returnPoint).stack =
        child :: { node with continuePoint := returnPoint } :: rest ∧
      child.tasks =
        additionalTasks ++
        (if additionalTasks.length > 0 ∧ node.tasks.length > 0 then
          [HtnTerm.compound "methodScopeEnd" [HtnTerm.constInt node.nodeID]]
        else []) ++
        node.tasks ∧
      child.state = node.state.CreateCopy ∧
      child.operators = node.operators ∧
      child.nodeID = ps.nextNodeID ∧
      child.retry = false ∧
      child.tryAnyOfSuccessCount = 0 := by
  unfold searchNextNodeBacktrackable
  dsimp only
  split
  · exact ⟨_, rfl, rfl, rfl, rfl, rfl, rfl, rfl⟩
  · exact ⟨_, rfl, rfl, rfl, rfl, rfl, rfl, rfl⟩

/-- `AddToOperators` only touches the operator list. -/
theorem AddToOperators_state (n : PlanNode) (t : HtnTerm) :
    (n.AddToOperators t).state = n.state := by
  unfold PlanNode.AddToOperators
  cases n.operators <;> rfl

/-- `AddToOperators` keeps the task queue. -/
theorem AddToOperators_tasks (n : PlanNode) (t : HtnTerm) :
    (n.AddToOperators t).tasks = n.tasks := by
  unfold PlanNode.AddToOperators
  cases n.operators <;> rfl

/-- `AddToOperators` appends to the operator list (a null list becomes the
singleton). -/
theorem AddToOperators_operators (n : PlanNode) (t : HtnTerm) :
    (n.AddToOperators t).operators = some (n.operators.getD [] ++ [t]) := by
  unfold PlanNode.AddToOperators
  cases n.operators <;> rfl

/-- `applyOperatorToNode` updates the state with the substituted deletions and
additions. -/
theorem applyOperatorToNode_state (node : PlanNode) (op : HtnOperator) (mgu : UnifierType) :
    (applyOperatorToNode node op mgu).state =
      node.state.Update (HtnGoalResolver.SubstituteUnifiersList mgu op.deletions)
        (HtnGoalResolver.SubstituteUnifiersList mgu op.additions) := by
  unfold applyOperatorToNode
  dsimp only
  cases hh : op.isHidden <;> simp [hh, AddToOperators_state]

/-- `applyOperatorToNode` appends the substituted head exactly when the
operator is not hidden. -/
theorem applyOperatorToNode_operators (node : PlanNode) (op : HtnOperator)
    (mgu : UnifierType) :
    (applyOperatorToNode node op mgu).operators =
      (if op.isHidden then node.operators
       else some (node.operators.getD [] ++
         [HtnGoalResolver.SubstituteUnifiers mgu op.head])) := by
  unfold applyOperatorToNode
  dsimp only
  cases hh : op.isHidden <;> simp [hh, AddToOperators_operators]

/-- `applyOperatorToNode` keeps the task queue. -/
theorem applyOperatorToNode_tasks (node : PlanNode) (op : HtnOperator) (mgu : UnifierType) :
    (applyOperatorToNode node op mgu).tasks = node.tasks := by
  unfold applyOperatorToNode
  dsimp only
  cases hh : op.isHidden <;> simp [hh, AddToOperators_tasks]

/- ----------------------------------------------------------------------
C1 — operator dispatch.
---------------------------------------------------------------------- -/

/-- C1: for a task whose name matches a registered operator, if the MGU of the
task and the operator head exists and is ground, `CheckForOperator` updates
the node's rule set with the substituted deletions and additions, appends the
substituted head to the operator list exactly when the operator is not hidden,
and pushes a child with the same remaining task queue and that state; if the
MGU is null or not ground, the node is popped with a `false` return value — a
normal backtrack, not an error escalation. -/
theorem C1_operator_dispatch :
    ∀ (p : HtnPlanner) (ps : PlanState) (node : PlanNode) (rest : List PlanNode)
      (task : HtnTerm) (op : HtnOperator),
      ps.stack = node :: rest →
      node.task = some task →
      operatorMapFind p.m_operators task.name = some op →
      ((∀ mgu, HtnGoalResolver.Unify task op.head = some mgu →
          HtnGoalResolver.IsGround mgu = true →
          ∃ ps' child node',
            HtnPlanner.CheckForOperator p ps = some ps' ∧
            ps'.stack = child :: node' :: rest ∧
            node'.state = node.state.Update
              (HtnGoalResolver.SubstituteUnifiersList mgu op.deletions)
              (HtnGoalResolver.SubstituteUnifiersList mgu op.additions) ∧
            node'.operators =
              (if op.isHidden then node.operators
               else some (node.operators.getD [] ++
                 [HtnGoalResolver.SubstituteUnifiers mgu op.head])) ∧
            node'.continuePoint = .ReturnFromCheckForOperator ∧
            child.tasks = node.tasks ∧
            child.state = node'.state ∧
            child.operators = node'.operators) ∧
       ((HtnGoalResolver.Unify task op.head = none ∨
          (∃ mgu, HtnGoalResolver.Unify task op.head = some mgu ∧
            HtnGoalResolver.IsGround mgu = false)) →
          ∃ ps',
            HtnPlanner.CheckForOperator p ps = some ps' ∧
            ps'.stack = rest ∧ ps'.returnValue = false)) := by
  intro p ps node rest task op hs ht hop
  constructor
  · intro mgu hu hg
    unfold HtnPlanner.CheckForOperator
    rw [hs]
    dsimp only
    rw [ht]
    dsimp only
    rw [hop]
    dsimp only
    rw [hu]
    dsimp only
    rw [hg]
    try dsimp only
    obtain ⟨child, hstack, htasks, hstate, hops, _, _, _⟩ :=
      searchNextNode_spec
        (HtnPlanner.RecordOperator
          { ps with stack := applyOperatorToNode node op mgu :: rest }
          (applyOperatorToNode node op mgu).nodeID op mgu)
        (applyOperatorToNode node op mgu) rest []
        PlanNodeContinuePoint.ReturnFromCheckForOperator
    refine ⟨_, child, _, rfl, hstack, ?_, ?_, rfl, ?_, ?_, ?_⟩
    · exact applyOperatorToNode_state node op mgu
    · exact applyOperatorToNode_operators node op mgu
    · rw [htasks, applyOperatorToNode_tasks]
      simp
    · rw [hstate]
    · rw [hops]
  · intro hfail
    unfold HtnPlanner.CheckForOperator
    rw [hs]
    dsimp only
    rw [ht]
    dsimp only
    rw [hop]
    dsimp only
    have hnone :
        (match HtnGoalResolver.Unify task op.head with
          | some mgu => if HtnGoalResolver.IsGround mgu then some mgu else none
          | none => none) = (none : Option UnifierType) := by
      rcases hfail with h | ⟨mgu, hu, hg⟩
      · rw [h]
      · rw [hu]
        dsimp only
        rw [hg]
        rfl
    rw [hnone]
    dsimp only
    refine ⟨_, rfl, ?_, rfl⟩
    show (HtnPlanner.MarkNodeFailed ps node.nodeID _ (-1) none).stack.tail = rest
    unfold HtnPlanner.MarkNodeFailed
    rw [modifyTreeNodeByNodeID_stack, hs]
    rfl

/- ----------------------------------------------------------------------
C4 — try / tryEnd semantics.
---------------------------------------------------------------------- -/

/-- C4: processing `try(t1, ..., tk)` pushes a backtrackable child whose task
list is `t1, ..., tk, tryEnd(nodeID)`, then a `methodScopeEnd(nodeID)` scope
marker when the node has remaining tasks, then those remaining tasks, and sets
`retry = true` on the node; on child failure, if `retry` is still true the try
block is discarded (its sibling scope popped) and the node continues with its
remaining tasks, otherwise the child's result propagates by popping the node;
and `tryEnd(id)` clears the `retry` flag of the node with that id, pops the
try's sibling scope, and continues with `NextTask` without pushing. -/
theorem C4_try_semantics :
    (∀ (ps : PlanState) (node : PlanNode) (rest : List PlanNode) (args : List HtnTerm),
      ps.stack = node :: rest →
      node.task = some (.compound "try" args) →
      ∃ ps' child node',
        HtnPlanner.CheckForSpecialTask ps = .handled ps' ∧
        ps'.stack = child :: node' :: rest ∧
        child.tasks =
          (args ++ [HtnTerm.compound "tryEnd" [HtnTerm.constInt node.nodeID]]) ++
          (if node.tasks.length > 0 then
            [HtnTerm.compound "methodScopeEnd" [HtnTerm.constInt node.nodeID]]
          else []) ++ node.tasks ∧
        child.state = node.state.CreateCopy ∧
        node'.retry = true ∧
        node'.continuePoint = .ReturnFromHandleTryTerm) ∧
    (∀ (p : HtnPlanner) (resolver : ResolverType) (ps : PlanState) (node : PlanNode)
        (rest : List PlanNode),
      ps.stack = node :: rest →
      node.continuePoint = .ReturnFromHandleTryTerm →
      (ps.returnValue = false ∧ node.retry = true →
        HtnPlanner.FindNextPlanStep p resolver { m_abort := 0 } ps =
          .next { ps with stack :=
            { node.popSiblingScopeIfMatches node.nodeID with
                continuePoint := .NextTask } :: rest }) ∧
      (¬(ps.returnValue = false ∧ node.retry = true) →
        HtnPlanner.FindNextPlanStep p resolver { m_abort := 0 } ps =
          .next (HtnPlanner.Return ps ps.returnValue))) ∧
    (∀ (ps : PlanState) (node : PlanNode) (rest : List PlanNode) (id : Int),
      ps.stack = node :: rest →
      node.task = some (.compound "tryEnd" [.constInt id]) →
      (findNodeWithID (node :: rest) id).isSome = true →
      ∃ top r,
        updateNodeWithID (node :: rest) id (fun n => { n with retry := false }) = top :: r ∧
        HtnPlanner.CheckForSpecialTask ps =
          .handled { ps with stack :=
            { top.popSiblingScopeIfMatches id with continuePoint := .NextTask } :: r }) := by
  refine ⟨?_, ?_, ?_⟩
  · intro ps node rest args hs ht
    unfold HtnPlanner.CheckForSpecialTask
    rw [hs]
    dsimp only
    rw [ht]
    dsimp only [HtnTerm.name, HtnTerm.arguments]
    rw [if_pos (by decide)]
    obtain ⟨child, hstack, htasks, hstate, _, _, _⟩ :=
      searchNextNodeBacktrackable_spec ps
        { node with task := some (.compound "try" args), retry := true } rest
        (args ++ [HtnTerm.compound "tryEnd" [HtnTerm.constInt node.nodeID]])
        PlanNodeContinuePoint.ReturnFromHandleTryTerm
    have hA : (args ++ [HtnTerm.compound "tryEnd" [HtnTerm.constInt node.nodeID]]).length > 0 := by
      simp
    have htasks' : child.tasks =
        (args ++ [HtnTerm.compound "tryEnd" [HtnTerm.constInt node.nodeID]]) ++
        (if node.tasks.length > 0 then
          [HtnTerm.compound "methodScopeEnd" [HtnTerm.constInt node.nodeID]]
        else []) ++ node.tasks := by
      rw [htasks, if_congr (and_iff_right hA) rfl rfl]
    exact ⟨searchNextNodeBacktrackable ps { node with task := some (.compound "try" args), retry := true } rest (args ++ [HtnTerm.compound "tryEnd" [HtnTerm.constInt node.nodeID]]) .ReturnFromHandleTryTerm, child, { { node with task := some (.compound "try" args), retry := true } with continuePoint := .ReturnFromHandleTryTerm }, rfl, hstack, htasks', hstate, rfl, rfl⟩
  · intro p resolver ps node rest hs hcp
    constructor
    · intro h
      unfold HtnPlanner.FindNextPlanStep
      rw [hs]
      dsimp only
      rw [if_neg (fun hcon => hcon rfl), hcp]
      dsimp only
      rw [h.1, h.2]
      rw [if_pos (by simp)]
    · intro hn
      unfold HtnPlanner.FindNextPlanStep
      rw [hs]
      dsimp only
      rw [if_neg (fun hcon => hcon rfl), hcp]
      dsimp only
      rw [if_neg (by simpa using hn)]
  · intro ps node rest id hs ht hfound
    unfold HtnPlanner.CheckForSpecialTask
    rw [hs]
    dsimp only
    rw [ht]
    dsimp only [HtnTerm.name, HtnTerm.arguments]
    rw [if_neg (by decide), if_pos (by decide)]
    dsimp only [HtnTerm.intFromName]
    rw [if_pos hfound]
    exact ⟨_, _, rfl, rfl⟩

/- ----------------------------------------------------------------------
C5 — anyOf set-of semantics.
---------------------------------------------------------------------- -/

/-- C5: `HandleAnyOf` wraps each condition resolution's fully substituted
subtasks as `try(subtasks..., countAnyOf(N))` for the single fresh id `N`
(which is exactly the node id given to the one backtrackable child it pushes),
appends a final `failIfNoneOf(N)` after all wrapped groups, and zeroes the
counter; a `countAnyOf(id)` task (the last task inside each surviving try
group) increments the counter of node `id` and continues; and
`failIfNoneOf(id)` fails (pops with false) exactly when that counter is zero,
otherwise it continues with the next task. -/
theorem C5_anyof_semantics :
    (∀ (ps : PlanState) (node : PlanNode) (rest : List PlanNode) (method : HtnMethod)
        (headUnifier : UnifierType) (crs : List UnifierType),
      ∃ child node',
        (HtnPlanner.HandleAnyOf ps node rest method headUnifier crs).stack =
          child :: node' :: rest ∧
        child.nodeID = ps.nextNodeID ∧
        child.tasks =
          ((crs.map fun condition =>
              HtnTerm.compound "try"
                (HtnGoalResolver.SubstituteUnifiersList condition
                    (HtnGoalResolver.SubstituteUnifiersList headUnifier method.tasks) ++
                  [HtnTerm.compound "countAnyOf" [HtnTerm.constInt ps.nextNodeID]])) ++
            [HtnTerm.compound "failIfNoneOf" [HtnTerm.constInt ps.nextNodeID]]) ++
          (if node.tasks.length > 0 then
            [HtnTerm.compound "methodScopeEnd" [HtnTerm.constInt node.nodeID]]
          else []) ++ node.tasks ∧
        child.state = node.state.CreateCopy ∧
        child.tryAnyOfSuccessCount = 0 ∧
        node'.tryAnyOfSuccessCount = 0 ∧
        node'.continuePoint = .ReturnFromSetOfConditions) ∧
    (∀ (ps : PlanState) (node : PlanNode) (rest : List PlanNode) (id : Int),
      ps.stack = node :: rest →
      node.task = some (.compound "countAnyOf" [.constInt id]) →
      (findNodeWithID (node :: rest) id).isSome = true →
      ∃ top r,
        updateNodeWithID (node :: rest) id
            (fun n => { n with tryAnyOfSuccessCount := n.tryAnyOfSuccessCount + 1 }) =
          top :: r ∧
        HtnPlanner.CheckForSpecialTask ps =
          .handled { ps with stack := { top with continuePoint := .NextTask } :: r }) ∧
    (∀ (ps : PlanState) (node : PlanNode) (rest : List PlanNode) (id : Int)
        (target : PlanNode),
      ps.stack = node :: rest →
      node.task = some (.compound "failIfNoneOf" [.constInt id]) →
      findNodeWithID (node :: rest) id = some target →
      (target.tryAnyOfSuccessCount = 0 →
        HtnPlanner.CheckForSpecialTask ps = .handled (HtnPlanner.Return ps false)) ∧
      (target.tryAnyOfSuccessCount ≠ 0 →
        HtnPlanner.CheckForSpecialTask ps =
          .handled { ps with stack := { node with continuePoint := .NextTask } :: rest })) := by
  refine ⟨?_, ?_, ?_⟩
  · intro ps node rest method headUnifier crs
    unfold HtnPlanner.HandleAnyOf
    dsimp only
    obtain ⟨child, hstack, htasks, hstate, _, hnid, _, hcount⟩ :=
      searchNextNodeBacktrackable_spec ps { node with tryAnyOfSuccessCount := 0 } rest
        ((crs.map fun condition =>
            HtnTerm.compound "try"
              (HtnGoalResolver.SubstituteUnifiersList condition
                  (HtnGoalResolver.SubstituteUnifiersList headUnifier method.tasks) ++
                [HtnTerm.compound "countAnyOf" [HtnTerm.constInt ps.nextNodeID]])) ++
          [HtnTerm.compound "failIfNoneOf" [HtnTerm.constInt ps.nextNodeID]])
        PlanNodeContinuePoint.ReturnFromSetOfConditions
    have hA : ((crs.map fun condition =>
          HtnTerm.compound "try"
            (HtnGoalResolver.SubstituteUnifiersList condition
                (HtnGoalResolver.SubstituteUnifiersList headUnifier method.tasks) ++
              [HtnTerm.compound "countAnyOf" [HtnTerm.constInt ps.nextNodeID]])) ++
        [HtnTerm.compound "failIfNoneOf" [HtnTerm.constInt ps.nextNodeID]]).length > 0 := by
      simp
    have htasks' : child.tasks =
        ((crs.map fun condition =>
            HtnTerm.compound "try"
              (HtnGoalResolver.SubstituteUnifiersList condition
                  (HtnGoalResolver.SubstituteUnifiersList headUnifier method.tasks) ++
                [HtnTerm.compound "countAnyOf" [HtnTerm.constInt ps.nextNodeID]])) ++
          [HtnTerm.compound "failIfNoneOf" [HtnTerm.constInt ps.nextNodeID]]) ++
        (if node.tasks.length > 0 then
          [HtnTerm.compound "methodScopeEnd" [HtnTerm.constInt node.nodeID]]
        else []) ++ node.tasks := by
      rw [htasks, if_congr (and_iff_right hA) rfl rfl]
    exact ⟨child, { { node with tryAnyOfSuccessCount := 0 } with continuePoint := .ReturnFromSetOfConditions }, hstack, hnid, htasks', hstate, hcount, rfl, rfl⟩
  · intro ps node rest id hs ht hfound
    unfold HtnPlanner.CheckForSpecialTask
    rw [hs]
    dsimp only
    rw [ht]
    dsimp only [HtnTerm.name, HtnTerm.arguments]
    rw [if_neg (by decide), if_neg (by decide), if_neg (by decide), if_pos (by decide)]
    dsimp only [HtnTerm.intFromName]
    rw [if_pos hfound]
    exact ⟨_, _, rfl, rfl⟩
  · intro ps node rest id target hs ht hfind
    constructor
    · intro h0
      unfold HtnPlanner.CheckForSpecialTask
      rw [hs]
      dsimp only
      rw [ht]
      dsimp only [HtnTerm.name, HtnTerm.arguments]
      rw [if_neg (by decide), if_neg (by decide), if_neg (by decide), if_neg (by decide),
        if_pos (by decide)]
      dsimp only [HtnTerm.intFromName]
      rw [hfind]
      dsimp only
      rw [h0]
      rw [if_pos (by decide)]
    · intro hne
      unfold HtnPlanner.CheckForSpecialTask
      rw [hs]
      dsimp only
      rw [ht]
      dsimp only [HtnTerm.name, HtnTerm.arguments]
      rw [if_neg (by decide), if_neg (by decide), if_neg (by decide), if_neg (by decide),
        if_pos (by decide)]
      dsimp only [HtnTerm.intFromName]
      rw [hfind]
      dsimp only
      rw [if_neg (by simpa using hne)]

/-- Witness for `C1_operator_dispatch`: the ground task `op1` against operator
`C1op1` (ground empty MGU) and the non-ground task `op2(?w)` against `C1op2`. -/
theorem C1_operator_dispatch_witness :
    (C1psGround.stack = C1nodeGround :: []) ∧
    (C1nodeGround.task = some (.constAtom "op1")) ∧
    (operatorMapFind C1domain.m_operators (HtnTerm.name (.constAtom "op1")) = some C1op1) ∧
    (HtnGoalResolver.Unify (.constAtom "op1") C1op1.head = some []) ∧
    (HtnGoalResolver.IsGround [] = true) ∧
    (∃ ps' child node',
      HtnPlanner.CheckForOperator C1domain C1psGround = some ps' ∧
      ps'.stack = child :: node' :: [] ∧
      node'.state = C1nodeGround.state.Update
        (HtnGoalResolver.SubstituteUnifiersList [] C1op1.deletions)
        (HtnGoalResolver.SubstituteUnifiersList [] C1op1.additions) ∧
      node'.operators =
        (if C1op1.isHidden then C1nodeGround.operators
         else some (C1nodeGround.operators.getD [] ++
           [HtnGoalResolver.SubstituteUnifiers [] C1op1.head])) ∧
      node'.continuePoint = .ReturnFromCheckForOperator ∧
      child.tasks = C1nodeGround.tasks ∧
      child.state = node'.state ∧
      child.operators = node'.operators) ∧
    (HtnGoalResolver.Unify (.compound "op2" [.var "w"]) C1op2.head =
      some [(.var "w", .var "v")]) ∧
    (HtnGoalResolver.IsGround [(.var "w", .var "v")] = false) ∧
    (∃ ps',
      HtnPlanner.CheckForOperator C1domain C1psVar = some ps' ∧
      ps'.stack = [] ∧ ps'.returnValue = false) :=
  ⟨rfl, rfl, rfl, rfl, rfl,
    (C1_operator_dispatch C1domain C1psGround C1nodeGround [] (.constAtom "op1") C1op1
      rfl rfl rfl).1 [] rfl rfl,
    rfl, rfl,
    (C1_operator_dispatch C1domain C1psVar C1nodeVar [] (.compound "op2" [.var "w"]) C1op2
      rfl rfl rfl).2 (Or.inr ⟨[(.var "w", .var "v")], rfl, rfl⟩)⟩

/-- Witness for `C4_try_semantics`: a `try(x)` push, a failed-child re-entry
with `retry` set, and a `tryEnd(0)` dispatch. -/
theorem C4_try_semantics_witness :
    (C4psTry.stack = C4nodeTry :: []) ∧
    (C4nodeTry.task = some (.compound "try" [.constAtom "x"])) ∧
    (∃ ps' child node',
      HtnPlanner.CheckForSpecialTask C4psTry = .handled ps' ∧
      ps'.stack = child :: node' :: [] ∧
      child.tasks =
        (([.constAtom "x"] : List HtnTerm) ++
          [HtnTerm.compound "tryEnd" [HtnTerm.constInt C4nodeTry.nodeID]]) ++
        (if C4nodeTry.tasks.length > 0 then
          [HtnTerm.compound "methodScopeEnd" [HtnTerm.constInt C4nodeTry.nodeID]]
        else []) ++ C4nodeTry.tasks ∧
      child.state = C4nodeTry.state.CreateCopy ∧
      node'.retry = true ∧
      node'.continuePoint = .ReturnFromHandleTryTerm) ∧
    (C4psRet.returnValue = false ∧ C4nodeRet.retry = true) ∧
    (HtnPlanner.FindNextPlanStep (HtnPlanner.construct { m_abort := 0 }).1 nullResolver
        { m_abort := 0 } C4psRet =
      .next { C4psRet with stack :=
        { C4nodeRet.popSiblingScopeIfMatches C4nodeRet.nodeID with
            continuePoint := .NextTask } :: [] }) ∧
    ((findNodeWithID (C4nodeEndTop :: [C4nodeEndBottom]) 0).isSome = true) ∧
    (∃ top r,
      updateNodeWithID (C4nodeEndTop :: [C4nodeEndBottom]) 0
          (fun n => { n with retry := false }) = top :: r ∧
      HtnPlanner.CheckForSpecialTask C4psEnd =
        .handled { C4psEnd with stack :=
          { top.popSiblingScopeIfMatches 0 with continuePoint := .NextTask } :: r }) :=
  ⟨rfl, rfl,
    (C4_try_semantics.1 C4psTry C4nodeTry [] [.constAtom "x"] rfl rfl),
    ⟨rfl, rfl⟩,
    ((C4_try_semantics.2.1 (HtnPlanner.construct { m_abort := 0 }).1 nullResolver C4psRet
      C4nodeRet [] rfl rfl).1 ⟨rfl, rfl⟩),
    rfl,
    (C4_try_semantics.2.2 C4psEnd C4nodeEndTop [C4nodeEndBottom] 0 rfl rfl rfl)⟩

/-- Witness for `C5_anyof_semantics`: `HandleAnyOf` with one empty condition
resolution, a `countAnyOf(0)` dispatch, and `failIfNoneOf(0)` dispatches with
zero and nonzero counters. -/
theorem C5_anyof_semantics_witness :
    (∃ child node',
      (HtnPlanner.HandleAnyOf (PlanState.init { facts := [] } [] 100)
          (PlanNode.initNode 0 { facts := [] } [] none) [] C5method [] [[]]).stack =
        child :: node' :: [] ∧
      child.nodeID = (PlanState.init { facts := [] } [] 100).nextNodeID ∧
      child.tasks =
        ((([[]] : List UnifierType).map fun condition =>
            HtnTerm.compound "try"
              (HtnGoalResolver.SubstituteUnifiersList condition
                  (HtnGoalResolver.SubstituteUnifiersList [] C5method.tasks) ++
                [HtnTerm.compound "countAnyOf"
                  [HtnTerm.constInt (PlanState.init { facts := [] } [] 100).nextNodeID]])) ++
          [HtnTerm.compound "failIfNoneOf"
            [HtnTerm.constInt (PlanState.init { facts := [] } [] 100).nextNodeID]]) ++
        (if (PlanNode.initNode 0 { facts := [] } [] none).tasks.length > 0 then
          [HtnTerm.compound "methodScopeEnd"
            [HtnTerm.constInt (PlanNode.initNode 0 { facts := [] } [] none).nodeID]]
        else []) ++
        (PlanNode.initNode 0 { facts := [] } [] none).tasks ∧
      child.state = (PlanNode.initNode 0 { facts := [] } [] none).state.CreateCopy ∧
      child.tryAnyOfSuccessCount = 0 ∧
      node'.tryAnyOfSuccessCount = 0 ∧
      node'.continuePoint = .ReturnFromSetOfConditions) ∧
    ((findNodeWithID (C5nodeCount :: [C5nodeBottom]) 0).isSome = true) ∧
    (∃ top r,
      updateNodeWithID (C5nodeCount :: [C5nodeBottom]) 0
          (fun n => { n with tryAnyOfSuccessCount := n.tryAnyOfSuccessCount + 1 }) = top :: r ∧
      HtnPlanner.CheckForSpecialTask C5psCount =
        .handled { C5psCount with stack := { top with continuePoint := .NextTask } :: r }) ∧
    (C5nodeBottom.tryAnyOfSuccessCount = 0) ∧
    (HtnPlanner.CheckForSpecialTask C5psFail = .handled (HtnPlanner.Return C5psFail false)) ∧
    (C5nodeBottomPos.tryAnyOfSuccessCount ≠ 0) ∧
    (HtnPlanner.CheckForSpecialTask C5psFailPos =
      .handled { C5psFailPos with stack :=
        { C5nodeFail with continuePoint := .NextTask } :: [C5nodeBottomPos] }) :=
  ⟨C5_anyof_semantics.1 (PlanState.init { facts := [] } [] 100)
      (PlanNode.initNode 0 { facts := [] } [] none) [] C5method [] [[]],
    rfl,
    C5_anyof_semantics.2.1 C5psCount C5nodeCount [C5nodeBottom] 0 rfl rfl rfl,
    rfl,
    (C5_anyof_semantics.2.2 C5psFail C5nodeFail [C5nodeBottom] 0 C5nodeBottom
      rfl rfl rfl).1 rfl,
    (by decide),
    (C5_anyof_semantics.2.2 C5psFailPos C5nodeFail [C5nodeBottomPos] 0 C5nodeBottomPos
      rfl rfl rfl).2 (by decide)⟩

/- ----------------------------------------------------------------------
C3 — method iteration discipline: equations and helper lemmas.
---------------------------------------------------------------------- -/

/-- Selection equation: the empty unified-method list selects nothing. -/
theorem nextSelected_nil (flag : Bool) : nextSelected [] flag = (none, []) := rfl

/-- Selection equation: with `methodHadSolution` clear, the front unified
method is selected. -/
theorem nextSelected_cons_false (x : HtnMethod × UnifierType)
    (t : List (HtnMethod × UnifierType)) :
    nextSelected (x :: t) false = (some x, t) := rfl

/-- Selection equation: with `methodHadSolution` set, selection runs the
`else`-skip loop from the front method. -/
theorem nextSelected_cons_true (x : HtnMethod × UnifierType)
    (t : List (HtnMethod × UnifierType)) :
    nextSelected (x :: t) true = skipElseAux (some x) t := rfl

/-- The skip loop steps over an `isDefault` method. -/
theorem skipElseAux_default (m : HtnMethod) (u : UnifierType)
    (rest : List (HtnMethod × UnifierType)) (h : m.isDefault = true) :
    skipElseAux (some (m, u)) rest = nextSelected rest true := by
  unfold skipElseAux
  rw [if_pos h]
  cases rest <;> rfl

/-- The skip loop stops at a non-`isDefault` method. -/
theorem skipElseAux_nondefault (m : HtnMethod) (u : UnifierType)
    (rest : List (HtnMethod × UnifierType)) (h : ¬m.isDefault = true) :
    skipElseAux (some (m, u)) rest = (some (m, u), rest) := by
  unfold skipElseAux
  rw [if_neg h]

/-- `nextSelected` with the had-solution flag set selects like `nextSelected`
without it on the list with its leading `else` methods dropped. -/
theorem nextSelected_true_eq (ms : List (HtnMethod × UnifierType)) :
    nextSelected ms true = nextSelected (ms.dropWhile fun x => x.1.isDefault) false := by
  induction ms with
  | nil => rfl
  | cons x tail ih =>
    obtain ⟨m, u⟩ := x
    rw [nextSelected_cons_true, List.dropWhile_cons]
    by_cases h : m.isDefault = true
    · rw [skipElseAux_default m u tail h, if_pos h, ih]
    · rw [skipElseAux_nondefault m u tail h, if_neg h, nextSelected_cons_false]

/-- The skip loop never grows the remaining-method list. -/
theorem skipElseAux_length :
    ∀ (r : List (HtnMethod × UnifierType)) (m : HtnMethod) (u : UnifierType)
      (y : HtnMethod × UnifierType) (rest : List (HtnMethod × UnifierType)),
      skipElseAux (some (m, u)) r = (some y, rest) → rest.length ≤ r.length := by
  intro r
  induction r with
  | nil =>
    intro m u y rest h
    by_cases hm : m.isDefault = true
    · rw [skipElseAux_default m u [] hm, nextSelected_nil] at h
      simp at h
    · rw [skipElseAux_nondefault m u [] hm] at h
      simp only [Prod.mk.injEq] at h
      rw [← h.2]
  | cons x xs ih =>
    intro m u y rest h
    by_cases hm : m.isDefault = true
    · rw [skipElseAux_default m u (x :: xs) hm, nextSelected_cons_true] at h
      obtain ⟨m', u'⟩ := x
      exact Nat.le_trans (ih m' u' y rest h) (by simp)
    · rw [skipElseAux_nondefault m u (x :: xs) hm] at h
      simp only [Prod.mk.injEq] at h
      rw [← h.2]

/-- A successful selection strictly shrinks the remaining-method list. -/
theorem nextSelected_some_length (ms : List (HtnMethod × UnifierType)) (flag : Bool)
    (y : HtnMethod × UnifierType) (rest : List (HtnMethod × UnifierType))
    (h : nextSelected ms flag = (some y, rest)) : rest.length < ms.length := by
  cases ms with
  | nil => rw [nextSelected_nil] at h; simp at h
  | cons x t =>
    cases flag with
    | false =>
      rw [nextSelected_cons_false] at h
      simp only [Prod.mk.injEq] at h
      rw [← h.2]
      simp
    | true =>
      rw [nextSelected_cons_true] at h
      obtain ⟨m, u⟩ := x
      have := skipElseAux_length t m u y rest h
      simp only [List.length_cons]
      omega

/-- Unrolling equation for `triedMethodsFuel` at positive fuel. -/
theorem triedMethodsFuel_succ (sol : HtnMethod → Bool) (fuel : Nat)
    (ms : List (HtnMethod × UnifierType)) (flag : Bool) :
    triedMethodsFuel sol (fuel + 1) ms flag =
      match nextSelected ms flag with
      | (none, _) => []
      | (some (m, _), rest) => m :: triedMethodsFuel sol fuel rest (sol m) := rfl

/-- The fuel argument of `triedMethodsFuel` is irrelevant above the list
length. -/
theorem triedMethodsFuel_eq_of_le (sol : HtnMethod → Bool) :
    ∀ (f1 f2 : Nat) (ms : List (HtnMethod × UnifierType)) (flag : Bool),
      ms.length ≤ f1 → ms.length ≤ f2 →
      triedMethodsFuel sol f1 ms flag = triedMethodsFuel sol f2 ms flag := by
  intro f1
  induction f1 with
  | zero =>
    intro f2 ms flag h1 h2
    have hnil : ms = [] := List.length_eq_zero.mp (Nat.le_zero.mp h1)
    subst hnil
    cases f2 with
    | zero => rfl
    | succ f2 => rfl
  | succ f1 ih =>
    intro f2 ms flag h1 h2
    cases f2 with
    | zero =>
      have hnil : ms = [] := List.length_eq_zero.mp (Nat.le_zero.mp h2)
      subst hnil
      rfl
    | succ f2 =>
      rw [triedMethodsFuel_succ, triedMethodsFuel_succ]
      cases hns : nextSelected ms flag with
      | mk sel rest =>
        cases sel with
        | none => rfl
        | some y =>
          obtain ⟨m, u⟩ := y
          have hlt := nextSelected_some_length ms flag (m, u) rest hns
          show m :: triedMethodsFuel sol f1 rest (sol m) =
            m :: triedMethodsFuel sol f2 rest (sol m)
          exact congrArg _ (ih f2 rest (sol m) (by omega) (by omega))

/-- Computation rule: the empty candidate list tries nothing. -/
theorem triedMethods_nil (sol : HtnMethod → Bool) (flag : Bool) :
    triedMethods sol [] flag = [] := rfl

/-- Computation rule: with the flag clear, the front method is tried first and
iteration continues with the flag set to that method's solution outcome. -/
theorem triedMethods_cons_false (sol : HtnMethod → Bool) (x : HtnMethod × UnifierType)
    (rest : List (HtnMethod × UnifierType)) :
    triedMethods sol (x :: rest) false = x.1 :: triedMethods sol rest (sol x.1) := by
  obtain ⟨m, u⟩ := x
  rfl

/-- Computation rule: with the flag set, iteration continues on the list with
its leading `else` methods dropped and the flag cleared. -/
theorem triedMethods_true (sol : HtnMethod → Bool)
    (ms : List (HtnMethod × UnifierType)) :
    triedMethods sol ms true =
      triedMethods sol (ms.dropWhile fun x => x.1.isDefault) false := by
  have hlen : (ms.dropWhile fun x => x.1.isDefault).length ≤ ms.length :=
    (List.dropWhile_sublist _).length_le
  unfold triedMethods
  rw [triedMethodsFuel_succ, triedMethodsFuel_succ, nextSelected_true_eq]
  cases hdw : ms.dropWhile (fun x => x.1.isDefault) with
  | nil => rfl
  | cons z zs =>
    rw [hdw] at hlen
    obtain ⟨m, u⟩ := z
    rw [nextSelected_cons_false]
    have h1 : zs.length ≤ ms.length := by
      simp only [List.length_cons] at hlen
      omega
    show m :: triedMethodsFuel sol ms.length zs (sol m) =
      m :: triedMethodsFuel sol (((m, u) :: zs).length) zs (sol m)
    exact congrArg _ (triedMethodsFuel_eq_of_le sol ms.length (((m, u) :: zs).length)
      zs (sol m) h1 (by simp))

/-- Order discipline, fuel-indexed: the tried-method trace is an
order-preserving selection (sublist) of the candidate methods. -/
theorem triedMethods_sublist_aux (sol : HtnMethod → Bool) :
    ∀ (n : Nat) (ms : List (HtnMethod × UnifierType)) (flag : Bool),
      ms.length ≤ n →
      (triedMethods sol ms flag).Sublist (ms.map fun x => x.1) := by
  intro n
  induction n with
  | zero =>
    intro ms flag h
    have hnil : ms = [] := List.length_eq_zero.mp (Nat.le_zero.mp h)
    subst hnil
    rw [triedMethods_nil]
    exact List.nil_sublist _
  | succ n ih =>
    intro ms flag h
    cases flag with
    | false =>
      cases ms with
      | nil => rw [triedMethods_nil]; exact List.nil_sublist _
      | cons x rest =>
        have hr : rest.length ≤ n := by
          simp only [List.length_cons] at h
          omega
        rw [triedMethods_cons_false, List.map_cons]
        exact List.Sublist.cons₂ _ (ih rest (sol x.1) hr)
    | true =>
      rw [triedMethods_true]
      cases hdw : ms.dropWhile (fun x => x.1.isDefault) with
      | nil => rw [triedMethods_nil]; exact List.nil_sublist _
      | cons z zs =>
        have hsub : (z :: zs).Sublist ms := by
          rw [← hdw]
          exact List.dropWhile_sublist _
        have hzs : zs.length ≤ n := by
          have := hsub.length_le
          simp only [List.length_cons] at this
          omega
        have hmap : ((z :: zs).map fun x => x.1).Sublist (ms.map fun x => x.1) :=
          hsub.map fun x => x.1
        rw [triedMethods_cons_false]
        exact List.Sublist.trans (List.Sublist.cons₂ _ (ih zs (sol z.1) hzs)) hmap

/-- Order discipline: the tried-method trace is a sublist of the candidate
methods, i.e. methods are tried in candidate (document) order. -/
theorem triedMethods_sublist (sol : HtnMethod → Bool)
    (ms : List (HtnMethod × UnifierType)) (flag : Bool) :
    (triedMethods sol ms flag).Sublist (ms.map fun x => x.1) :=
  triedMethods_sublist_aux sol ms.length ms flag (Nat.le_refl _)

/-- Filtering the non-`else` methods out of a candidate list commutes with
dropping its leading `else` methods. -/
theorem map_filter_default_dropWhile (ms : List (HtnMethod × UnifierType)) :
    (((ms.dropWhile fun x => x.1.isDefault).map fun x => x.1).filter
        fun m => !m.isDefault) =
      ((ms.map fun x => x.1).filter fun m => !m.isDefault) := by
  induction ms with
  | nil => rfl
  | cons x t ih =>
    rw [List.dropWhile_cons]
    by_cases hx : x.1.isDefault = true
    · rw [if_pos hx, ih]
      simp [List.filter_cons, hx]
    · rw [if_neg hx]

/-- Completeness, fuel-indexed: every non-`else` candidate method is tried
(the skip loop only ever skips `isDefault` methods). -/
theorem triedMethods_filter_aux (sol : HtnMethod → Bool) :
    ∀ (n : Nat) (ms : List (HtnMethod × UnifierType)) (flag : Bool),
      ms.length ≤ n →
      ((triedMethods sol ms flag).filter fun m => !m.isDefault) =
        ((ms.map fun x => x.1).filter fun m => !m.isDefault) := by
  intro n
  induction n with
  | zero =>
    intro ms flag h
    have hnil : ms = [] := List.length_eq_zero.mp (Nat.le_zero.mp h)
    subst hnil
    rw [triedMethods_nil]
    rfl
  | succ n ih =>
    intro ms flag h
    cases flag with
    | false =>
      cases ms with
      | nil => rw [triedMethods_nil]; rfl
      | cons x rest =>
        have hr : rest.length ≤ n := by
          simp only [List.length_cons] at h
          omega
        rw [triedMethods_cons_false, List.map_cons, List.filter_cons, List.filter_cons,
          ih rest (sol x.1) hr]
    | true =>
      rw [triedMethods_true, ← map_filter_default_dropWhile]
      cases hdw : ms.dropWhile (fun x => x.1.isDefault) with
      | nil => rw [triedMethods_nil]; rfl
      | cons z zs =>
        have hsub : (z :: zs).Sublist ms := by
          rw [← hdw]
          exact List.dropWhile_sublist _
        have hzs : zs.length ≤ n := by
          have := hsub.length_le
          simp only [List.length_cons] at this
          omega
        rw [triedMethods_cons_false, List.map_cons, List.filter_cons, List.filter_cons,
          ih zs (sol z.1) hzs]

/-- Completeness: the non-`else` methods among the tried trace are exactly the
non-`else` candidate methods — no non-`else` candidate is ever skipped. -/
theorem triedMethods_filter (sol : HtnMethod → Bool)
    (ms : List (HtnMethod × UnifierType)) (flag : Bool) :
    ((triedMethods sol ms flag).filter fun m => !m.isDefault) =
      ((ms.map fun x => x.1).filter fun m => !m.isDefault) :=
  triedMethods_filter_aux sol ms.length ms flag (Nat.le_refl _)

/-- `dropWhile` passes over an all-satisfying prefix. -/
theorem dropWhile_append_all {α : Type} (p : α → Bool) :
    ∀ (l l2 : List α), (∀ x ∈ l, p x = true) →
      (l ++ l2).dropWhile p = l2.dropWhile p := by
  intro l
  induction l with
  | nil => intro l2 _; rfl
  | cons x t ih =>
    intro l2 hall
    rw [List.cons_append, List.dropWhile_cons, if_pos (hall x (by simp))]
    exact ih l2 fun y hy => hall y (by simp [hy])

/-- An `else` method preceded only by `else` methods (within its group) is
tried exactly when the group is entered with the flag clear and every one of
those preceding `else` methods fails to produce a solution. -/
theorem triedMethods_defaultRun (sol : HtnMethod → Bool) :
    ∀ (es : List (HtnMethod × UnifierType)) (d : HtnMethod) (ud : UnifierType)
      (b : List (HtnMethod × UnifierType)) (flag : Bool),
      (∀ x ∈ es, x.1.isDefault = true) → d.isDefault = true →
      d ∉ (es.map fun x => x.1) → d ∉ (b.map fun x => x.1) →
      (d ∈ triedMethods sol (es ++ (d, ud) :: b) flag ↔
        (flag = false ∧ ∀ x ∈ es, sol x.1 = false)) := by
  intro es
  induction es with
  | nil =>
    intro d ud b flag hes hd hnes hnb
    cases flag with
    | false =>
      rw [List.nil_append, triedMethods_cons_false]
      simp
    | true =>
      rw [List.nil_append, triedMethods_true, List.dropWhile_cons, if_pos hd]
      apply iff_of_false
      · intro hmem
        have h1 : d ∈ ((b.dropWhile fun y => y.1.isDefault).map fun y => y.1) :=
          (triedMethods_sublist sol _ false).subset hmem
        have h2 : ((b.dropWhile fun y => y.1.isDefault).map fun y => y.1).Sublist
            (b.map fun y => y.1) :=
          List.Sublist.map _ (List.dropWhile_sublist _)
        exact hnb (h2.subset h1)
      · rintro ⟨h1, -⟩
        exact Bool.noConfusion h1
  | cons x es' ih =>
    intro d ud b flag hes hd hnes hnb
    have hx : x.1.isDefault = true := hes x (by simp)
    have hdx : d ≠ x.1 := by
      intro hcontra
      exact hnes (by simp [hcontra])
    have hnes' : d ∉ (es'.map fun y => y.1) := by
      intro hcontra
      exact hnes (by simp [hcontra])
    have hes' : ∀ y ∈ es', y.1.isDefault = true := fun y hy => hes y (by simp [hy])
    cases flag with
    | false =>
      rw [List.cons_append, triedMethods_cons_false, List.mem_cons]
      have ihx := ih d ud b (sol x.1) hes' hd hnes' hnb
      constructor
      · rintro (h1 | h2)
        · exact absurd h1 hdx
        · obtain ⟨hs, hall⟩ := ihx.mp h2
          refine ⟨rfl, ?_⟩
          intro y hy
          rcases List.mem_cons.mp hy with h | h
          · rw [h]; exact hs
          · exact hall y h
      · rintro ⟨-, hall⟩
        exact Or.inr (ihx.mpr ⟨hall x (by simp), fun y hy => hall y (by simp [hy])⟩)
    | true =>
      rw [List.cons_append, triedMethods_true, List.dropWhile_cons, if_pos hx,
        dropWhile_append_all _ es' _ hes', List.dropWhile_cons, if_pos hd]
      apply iff_of_false
      · intro hmem
        have h1 : d ∈ ((b.dropWhile fun y => y.1.isDefault).map fun y => y.1) :=
          (triedMethods_sublist sol _ false).subset hmem
        have h2 : ((b.dropWhile fun y => y.1.isDefault).map fun y => y.1).Sublist
            (b.map fun y => y.1) :=
          List.Sublist.map _ (List.dropWhile_sublist _)
        exact hnb (h2.subset h1)
      · rintro ⟨h1, -⟩
        exact Bool.noConfusion h1

/-- Group independence: in a candidate list `a ++ (g :: es ++ d :: b)` where
`g` is the non-`else` guard of `d`'s group and `es` the `else` methods between
them, `d` is tried exactly when `g` and every intervening `else` method fail
to produce a solution — independently of anything in `a` or `b`. -/
theorem triedMethods_group (sol : HtnMethod → Bool) :
    ∀ (a : List (HtnMethod × UnifierType)) (g : HtnMethod) (ug : UnifierType)
      (es : List (HtnMethod × UnifierType)) (d : HtnMethod) (ud : UnifierType)
      (b : List (HtnMethod × UnifierType)) (flag : Bool),
      g.isDefault = false →
      (∀ x ∈ es, x.1.isDefault = true) → d.isDefault = true →
      d ∉ (a.map fun x => x.1) → d ≠ g →
      d ∉ (es.map fun x => x.1) → d ∉ (b.map fun x => x.1) →
      (d ∈ triedMethods sol (a ++ (g, ug) :: (es ++ (d, ud) :: b)) flag ↔
        (sol g = false ∧ ∀ x ∈ es, sol x.1 = false)) := by
  intro a
  induction a with
  | nil =>
    intro g ug es d ud b flag hg hes hd hna hdg hnes hnb
    have hfalse : d ∈ triedMethods sol ((g, ug) :: (es ++ (d, ud) :: b)) false ↔
        (sol g = false ∧ ∀ x ∈ es, sol x.1 = false) := by
      rw [triedMethods_cons_false, List.mem_cons]
      have hP := triedMethods_defaultRun sol es d ud b (sol g) hes hd hnes hnb
      constructor
      · rintro (h1 | h2)
        · exact absurd h1 hdg
        · exact hP.mp h2
      · intro hc
        exact Or.inr (hP.mpr hc)
    cases flag with
    | false => exact hfalse
    | true =>
      rw [List.nil_append, triedMethods_true, List.dropWhile_cons,
        if_neg (by simp [hg])]
      exact hfalse
  | cons x a' ih =>
    intro g ug es d ud b flag hg hes hd hna hdg hnes hnb
    have hdx : d ≠ x.1 := by
      intro hcontra
      exact hna (by simp [hcontra])
    have hna' : d ∉ (a'.map fun y => y.1) := by
      intro hcontra
      exact hna (by simp [hcontra])
    have hfalse : d ∈ triedMethods sol (x :: (a' ++ (g, ug) :: (es ++ (d, ud) :: b)))
        false ↔ (sol g = false ∧ ∀ y ∈ es, sol y.1 = false) := by
      rw [triedMethods_cons_false, List.mem_cons]
      have ihx := ih g ug es d ud b (sol x.1) hg hes hd hna' hdg hnes hnb
      constructor
      · rintro (h1 | h2)
        · exact absurd h1 hdx
        · exact ihx.mp h2
      · intro hc
        exact Or.inr (ihx.mpr hc)
    cases flag with
    | false => exact hfalse
    | true =>
      by_cases hx : x.1.isDefault = true
      · rw [List.cons_append, triedMethods_true, List.dropWhile_cons, if_pos hx,
          ← triedMethods_true]
        exact ih g ug es d ud b true hg hes hd hna' hdg hnes hnb
      · rw [List.cons_append, triedMethods_true, List.dropWhile_cons, if_neg hx]
        exact hfalse

/-- Membership in `insertByDocumentOrder` is membership in the input plus the
inserted element. -/
theorem mem_insertByDocumentOrder (x : HtnMethod × UnifierType) :
    ∀ (l : List (HtnMethod × UnifierType)) (y : HtnMethod × UnifierType),
      y ∈ insertByDocumentOrder x l ↔ y = x ∨ y ∈ l := by
  intro l
  induction l with
  | nil =>
    intro y
    unfold insertByDocumentOrder
    simp
  | cons z zs ih =>
    intro y
    unfold insertByDocumentOrder
    by_cases h : x.1.documentOrder < z.1.documentOrder
    · rw [if_pos h]
      simp only [List.mem_cons]
    · rw [if_neg h]
      simp only [List.mem_cons, ih]
      tauto

/-- `insertByDocumentOrder` preserves ascending `documentOrder`. -/
theorem pairwise_insertByDocumentOrder (x : HtnMethod × UnifierType) :
    ∀ (l : List (HtnMethod × UnifierType)),
      l.Pairwise (fun p q => p.1.documentOrder ≤ q.1.documentOrder) →
      (insertByDocumentOrder x l).Pairwise
        fun p q => p.1.documentOrder ≤ q.1.documentOrder := by
  intro l
  induction l with
  | nil =>
    intro _
    unfold insertByDocumentOrder
    exact List.pairwise_singleton _ _
  | cons z zs ih =>
    intro hp
    rw [List.pairwise_cons] at hp
    obtain ⟨hz, hzs⟩ := hp
    unfold insertByDocumentOrder
    by_cases h : x.1.documentOrder < z.1.documentOrder
    · rw [if_pos h, List.pairwise_cons]
      refine ⟨?_, ?_⟩
      · intro q hq
        rcases List.mem_cons.mp hq with h1 | h1
        · rw [h1]
          exact Int.le_of_lt h
        · exact Int.le_trans (Int.le_of_lt h) (hz q h1)
      · rw [List.pairwise_cons]
        exact ⟨hz, hzs⟩
    · rw [if_neg h, List.pairwise_cons]
      refine ⟨?_, ih hzs⟩
      intro q hq
      rcases (mem_insertByDocumentOrder x zs q).mp hq with h1 | h1
      · rw [h1]
        exact Int.not_lt.mp h
      · exact hz q h1

/-- The insertion sort on `documentOrder` yields an ascending list. -/
theorem sortByDocumentOrder_pairwise (l : List (HtnMethod × UnifierType)) :
    (sortByDocumentOrder l).Pairwise
      fun p q => p.1.documentOrder ≤ q.1.documentOrder := by
  unfold sortByDocumentOrder
  induction l with
  | nil => exact List.Pairwise.nil
  | cons x xs ih =>
    rw [List.foldr_cons]
    exact pairwise_insertByDocumentOrder x _ ih

/-- The candidate methods a task iterates over come out of
`FindAllMethodsThatUnify` in ascending document order. -/
theorem findAllMethodsThatUnify_pairwise (p : HtnPlanner) (goal : HtnTerm) :
    (p.FindAllMethodsThatUnify goal).Pairwise
      fun x y => x.1.documentOrder ≤ y.1.documentOrder :=
  sortByDocumentOrder_pairwise _

/-- One `NextMethodThatApplies` method selection (`PlanNode.AdvanceMethod`)
computes exactly `nextSelected` on the node's unified-method list and
`methodHadSolution` flag. -/
theorem advanceMethod_nextSelected (n : PlanNode) :
    ((n.AdvanceMethod).method, (n.AdvanceMethod).unifiedMethods) =
      nextSelected n.unifiedMethods n.methodHadSolution := by
  unfold PlanNode.AdvanceMethod PlanNode.SetNextMethodThatUnifies
  cases hms : n.unifiedMethods with
  | nil =>
    cases hf : n.methodHadSolution <;> simp [nextSelected, skipElseAux]
  | cons x rest =>
    cases hf : n.methodHadSolution
    · simp [nextSelected]
    · cases hsk : skipElseAux (some x) rest with
      | mk m' rest' => simp [nextSelected, hsk]

/-- C3: method iteration discipline of `NextMethodThatApplies`.  (a) Each
selection step (`PlanNode.AdvanceMethod`) computes `nextSelected`; (b) the
candidate list from `FindAllMethodsThatUnify` is in ascending document order;
(c) the tried-method trace is an order-preserving selection (sublist) of the
candidates, so non-default methods are tried in strict document order; (d) no
non-default candidate is ever skipped; (e) an `else` method is tried iff its
group's guard and every intervening `else` method yielded no solution —
independently of the surrounding candidates, because the had-solution flag is
cleared after each skip run. -/
theorem C3_method_iteration_discipline :
    (∀ n : PlanNode,
      ((n.AdvanceMethod).method, (n.AdvanceMethod).unifiedMethods) =
        nextSelected n.unifiedMethods n.methodHadSolution) ∧
    (∀ (p : HtnPlanner) (goal : HtnTerm),
      (p.FindAllMethodsThatUnify goal).Pairwise
        fun x y => x.1.documentOrder ≤ y.1.documentOrder) ∧
    (∀ (sol : HtnMethod → Bool) (ms : List (HtnMethod × UnifierType)) (flag : Bool),
      (triedMethods sol ms flag).Sublist (ms.map fun x => x.1)) ∧
    (∀ (sol : HtnMethod → Bool) (ms : List (HtnMethod × UnifierType)) (flag : Bool),
      ((triedMethods sol ms flag).filter fun m => !m.isDefault) =
        ((ms.map fun x => x.1).filter fun m => !m.isDefault)) ∧
    (∀ (sol : HtnMethod → Bool) (a : List (HtnMethod × UnifierType)) (g : HtnMethod)
        (ug : UnifierType) (es : List (HtnMethod × UnifierType)) (d : HtnMethod)
        (ud : UnifierType) (b : List (HtnMethod × UnifierType)),
      g.isDefault = false →
      (∀ x ∈ es, x.1.isDefault = true) → d.isDefault = true →
      d ∉ (a.map fun x => x.1) → d ≠ g →
      d ∉ (es.map fun x => x.1) → d ∉ (b.map fun x => x.1) →
      (d ∈ triedMethods sol (a ++ (g, ug) :: (es ++ (d, ud) :: b)) false ↔
        (sol g = false ∧ ∀ x ∈ es, sol x.1 = false))) :=
  ⟨advanceMethod_nextSelected,
   fun p goal => findAllMethodsThatUnify_pairwise p goal,
   triedMethods_sublist,
   triedMethods_filter,
   fun sol a g ug es d ud b hg hes hd hna hdg hnes hnb =>
     triedMethods_group sol a g ug es d ud b false hg hes hd hna hdg hnes hnb⟩

/-- Witness for C3 at a concrete guard/else/else candidate list: with the
all-fail oracle, the trailing `else` method is tried. -/
theorem C3_method_iteration_discipline_witness :
    C3g.isDefault = false ∧ C3e.isDefault = true ∧ C3d.isDefault = true ∧
    (C3d ∈ triedMethods C3sol ([] ++ (C3g, []) :: ([(C3e, [])] ++ (C3d, []) :: [])) false ↔
      (C3sol C3g = false ∧
        ∀ x ∈ ([(C3e, [])] : List (HtnMethod × UnifierType)), C3sol x.1 = false)) :=
  ⟨rfl, rfl, rfl,
    C3_method_iteration_discipline.2.2.2.2 C3sol [] C3g [] [(C3e, [])] C3d [] []
      rfl
      (by
        intro x hx
        rw [List.mem_singleton.mp hx]
        rfl)
      rfl (by simp)
      (fun h => absurd (congrArg HtnMethod.documentOrder h) (by decide))
      (by
        simp only [List.map_singleton, List.mem_singleton]
        intro h
        exact absurd (congrArg HtnMethod.documentOrder h) (by decide))
      (by simp)⟩
